import Mathlib

/-!
Formal model of the VeraCrypt volume-header subsystem
(src/src/Volume/VolumeHeader.cpp): header codec (Serialize/Deserialize),
trial-decryption engine (Decrypt), and header creation (Create/EncryptNew/
Encrypt), over byte buffers modelled as `List Nat`.

Collaborator interfaces (encryption algorithms, encryption modes, PKCS5
KDFs) are modelled as records of pure functions, matching the capability
sets the core consumes.  Machine integers are `Nat`; wire truncation is
explicit (`% 256^w`) in the big-endian codec.
-/

set_option maxRecDepth 8000

namespace VeraCrypt

/-- Bounded view of a byte buffer: bytes `[off, off+n)` (the model of
`BufferPtr::GetRange`). -/
def extract (l : List Nat) (off n : Nat) : List Nat :=
  (l.drop off).take n

/-- Overwrite bytes of `l` starting at `off` with `bs` (the model of an
in-place write through a `BufferPtr` range). -/
def setBytes (l : List Nat) (off : Nat) (bs : List Nat) : List Nat :=
  l.take off ++ bs ++ l.drop (off + bs.length)

/-- Big-endian encoding of `v` on `w` bytes (the model of `Endian::Big`
followed by a fixed-width store; the value is truncated mod `256^w`). -/
def beBytes : Nat → Nat → List Nat
  | 0, _ => []
  | w + 1, v => beBytes w (v / 256) ++ [v % 256]

/-- Big-endian decoding of a byte list (the model of a fixed-width load
followed by `Endian::Big`). -/
def beRead (l : List Nat) : Nat :=
  l.foldl (fun a b => a * 256 + b) 0

/-- Eight shift-xor rounds of the reflected CRC-32 polynomial 0xEDB88320. -/
def crc32Bits : Nat → Nat → Nat
  | 0, c => c
  | n + 1, c => crc32Bits n (if c % 2 = 1 then Nat.xor (c / 2) 0xEDB88320 else c / 2)

/-- One byte of reflected CRC-32 state update. -/
def crc32Update (c b : Nat) : Nat :=
  crc32Bits 8 (Nat.xor c (b % 256))

/-- Modelled from the spec: `Crc32::ProcessBuffer` (Crc32.h is not under
src/).  Standard IEEE CRC-32: reflected polynomial 0xEDB88320, initial value
0xFFFFFFFF, final xor 0xFFFFFFFF, over an arbitrary byte range (spec §4.2). -/
def Crc32.ProcessBuffer (l : List Nat) : Nat :=
  Nat.xor (l.foldl crc32Update 0xFFFFFFFF) 0xFFFFFFFF

/-- Error taxonomy of the core (spec §7).  `Malformed` appears in the
spec's endian-codec description (§4.1) and is included so that statements
can distinguish it from the `ParameterIncorrect` the code actually raises. -/
inductive VolumeError where
  | ParameterIncorrect
  | PasswordEmpty
  | HigherVersionRequired
  | UnsupportedTrueCryptFormat
  | UnsupportedSectorSize
  | Malformed
  | OutOfRange
  deriving DecidableEq, Repr

inductive VolumeType where
  | Unknown
  | Normal
  | Hidden
  deriving DecidableEq, Repr

/-- An encryption mode, as the core sees it: a discriminator telling XTS
from legacy modes (the model of the `typeid (*mode) == typeid
(EncryptionModeXTS)` tests) and a mode key size. -/
structure EncryptionMode where
  isXTS : Bool
  keySize : Nat

/-- An encryption algorithm: key size, mode support predicate, and the
encrypt/decrypt operations.  `encryptOp`/`decryptOp` take the mode, the
cipher key, the mode (tweak) key and the data, modelling an instance on
which `SetKey`, `SetMode` and then `Encrypt`/`Decrypt` were called. -/
structure EncryptionAlgorithm where
  keySize : Nat
  isModeSupported : EncryptionMode → Bool
  encryptOp : EncryptionMode → List Nat → List Nat → List Nat → List Nat
  decryptOp : EncryptionMode → List Nat → List Nat → List Nat → List Nat

/-- A mode instance with its key bound (`mode->SetKey (...)`). -/
structure KeyedMode where
  mode : EncryptionMode
  key : List Nat

/-- An algorithm instance with its key and mode bound (`ea->SetKey (...)`;
`ea->SetMode (mode)`). -/
structure KeyedEA where
  alg : EncryptionAlgorithm
  key : List Nat
  mode : KeyedMode

/-- A PKCS5 KDF: a name and a derivation function
`deriveKey outSize password pim salt` writing exactly `outSize` bytes. -/
structure Pkcs5Kdf where
  name : String
  deriveKey : Nat → List Nat → Int → List Nat → List Nat

/-- The core header object (`VolumeHeader`'s data members). -/
structure VolumeHeader where
  HeaderSize : Nat
  EncryptedHeaderDataSize : Nat
  Salt : List Nat
  HeaderVersion : Nat
  RequiredMinProgramVersion : Nat
  VolumeKeyAreaCrc32 : Nat
  VolumeCreationTime : Nat
  HeaderCreationTime : Nat
  mVolumeType : VolumeType
  HiddenVolumeDataSize : Nat
  VolumeDataSize : Nat
  EncryptedAreaStart : Nat
  EncryptedAreaLength : Nat
  Flags : Nat
  SectorSize : Nat
  DataAreaKey : List Nat
  HeaderKey : List Nat
  EA : Option KeyedEA
  Pkcs5 : Option Pkcs5Kdf

/-- Options consumed by `VolumeHeader::Create`. -/
structure VolumeHeaderCreationOptions where
  EA : EncryptionAlgorithm
  DataKey : List Nat
  Salt : List Nat
  HeaderKey : List Nat
  Kdf : Option Pkcs5Kdf
  VolumeDataStart : Nat
  VolumeDataSize : Nat
  SectorSize : Nat
  VolType : VolumeType

/- Layout constants.  Modelled from the spec (§6 on-disk layout table):
VolumeHeader.h is not under src/, so the numeric values come from the
spec's byte-offset table for the 512-byte header blob. -/

def SaltOffset : Nat := 0
def SaltSize : Nat := 64
def EncryptedHeaderDataOffset : Nat := SaltOffset + SaltSize
def TC_HEADER_OFFSET_MAGIC : Nat := 64
def TC_HEADER_OFFSET_HEADER_CRC : Nat := 252
def DataAreaKeyOffset : Nat := 256 - EncryptedHeaderDataOffset
def DataKeyAreaMaxSize : Nat := 256

/-- Modelled from the spec: current header format version (§4.6, "=5"). -/
def CurrentHeaderVersion : Nat := 5

/-- Modelled from the spec: minimum accepted header version.  The constant
lives in the missing VolumeHeader.h; the code uses a single constant for
both VeraCrypt and TrueCrypt-compat mode, and the spec's P5 requires
HeaderVersion 4 to pass the gate (the sector-size legacy path), so it is 4. -/
def MinAllowedHeaderVersion : Nat := 4

/-- Modelled from the spec: the min-program-version written into new
headers (BCD, §3); its exact value is not observable by the claims beyond
being at most `VersionNumber`. -/
def CurrentRequiredMinProgramVersion : Nat := 0x10b

/-- Modelled from the spec: `Version::Number()`, the implementation's own
program version (BCD), against which `RequiredMinProgramVersion` is gated. -/
def VersionNumber : Nat := 0x126

def TC_SECTOR_SIZE_LEGACY : Nat := 512
def TC_MIN_VOLUME_SECTOR_SIZE : Nat := 512
def TC_MAX_VOLUME_SECTOR_SIZE : Nat := 4096
def ENCRYPTION_DATA_UNIT_SIZE : Nat := 512

/-- Modelled from the spec: the legacy (LRW/CBC) mode key area size inside
the header key and the data-area key (spec §4.6 step 8, §4.10). -/
def LegacyEncryptionModeKeyAreaSize : Nat := 32

/-- Modelled from the spec: the largest `EncryptionAlgorithm::GetKeySize`
over `GetAvailableAlgorithms()` (the catalog is outside src/); 96 bytes for
the triple cascade. -/
def largestEAKeySize : Nat := 96

/-- `VolumeHeader::GetLargestSerializedKeySize`. -/
def GetLargestSerializedKeySize : Nat :=
  if LegacyEncryptionModeKeyAreaSize + largestEAKeySize > largestEAKeySize * 2 then
    LegacyEncryptionModeKeyAreaSize + largestEAKeySize
  else
    largestEAKeySize * 2

/-- The magic bytes "VERA". -/
def veraMagic : List Nat := [86, 69, 82, 65]

/-- The magic bytes "TRUE". -/
def trueMagic : List Nat := [84, 82, 85, 69]

/-- `VolumeHeader::Init`. -/
def VolumeHeader.Init (h : VolumeHeader) : VolumeHeader :=
  { h with
    VolumeKeyAreaCrc32 := 0
    VolumeCreationTime := 0
    HeaderCreationTime := 0
    mVolumeType := VolumeType.Unknown
    HiddenVolumeDataSize := 0
    VolumeDataSize := 0
    EncryptedAreaStart := 0
    EncryptedAreaLength := 0
    Flags := 0
    SectorSize := 0 }

/-- The `VolumeHeader (uint32 size)` constructor: `Init` on a fresh object
(members the constructor leaves untouched are modelled as zero/empty),
then `HeaderSize = size; EncryptedHeaderDataSize = size -
EncryptedHeaderDataOffset`. -/
def VolumeHeader.ofSize (size : Nat) : VolumeHeader :=
  { HeaderSize := size
    EncryptedHeaderDataSize := size - EncryptedHeaderDataOffset
    Salt := []
    HeaderVersion := 0
    RequiredMinProgramVersion := 0
    VolumeKeyAreaCrc32 := 0
    VolumeCreationTime := 0
    HeaderCreationTime := 0
    mVolumeType := VolumeType.Unknown
    HiddenVolumeDataSize := 0
    VolumeDataSize := 0
    EncryptedAreaStart := 0
    EncryptedAreaLength := 0
    Flags := 0
    SectorSize := 0
    DataAreaKey := []
    HeaderKey := []
    EA := none
    Pkcs5 := none }

/-- `VolumeHeader::DeserializeEntry<T>` for `w = sizeof (T)`: advances the
offset by `w` BEFORE the access, fails when the post-advance offset
exceeds the buffer length, otherwise reads `w` bytes big-endian at the
pre-advance offset and returns the value together with the new offset. -/
def DeserializeEntry (w : Nat) (header : List Nat) (offset : Nat) :
    Except VolumeError (Nat × Nat) :=
  let offset2 := offset + w
  if offset2 > header.length then Except.error VolumeError.ParameterIncorrect
  else Except.ok (beRead (extract header (offset2 - w) w), offset2)

/-- `VolumeHeader::DeserializeEntryAt<T>`: checks only `offset >
header.Size()` and then reads `sizeof (T)` bytes at `offset` (in the model
a partially out-of-range read just yields the remaining bytes). -/
def DeserializeEntryAt (w : Nat) (header : List Nat) (offset : Nat) :
    Except VolumeError Nat :=
  if offset > header.length then Except.error VolumeError.ParameterIncorrect
  else Except.ok (beRead (extract header offset w))

/-- `VolumeHeader::SerializeEntry<T>`: advances the offset by `w` BEFORE
the access, fails when the post-advance offset exceeds the buffer length,
otherwise stores the value big-endian at the pre-advance offset. -/
def SerializeEntry (w : Nat) (entry : Nat) (header : List Nat) (offset : Nat) :
    Except VolumeError (List Nat × Nat) :=
  let offset2 := offset + w
  if offset2 > header.length then Except.error VolumeError.ParameterIncorrect
  else Except.ok (setBytes header (offset2 - w) (beBytes w entry), offset2)

/-- Tail of `VolumeHeader::Deserialize` from `offset = DataAreaKeyOffset`
on: the key-area CRC check, the `DataAreaKey` copy and the rebinding of
fresh, data-area-keyed algorithm/mode instances. -/
def deserializeKeyArea (h : VolumeHeader) (header : List Nat)
    (ea : EncryptionAlgorithm) (mode : EncryptionMode) :
    VolumeHeader × Except VolumeError (Option KeyedEA) :=
  let offset := DataAreaKeyOffset
  if h.VolumeKeyAreaCrc32 ≠
      Crc32.ProcessBuffer (extract header offset DataKeyAreaMaxSize) then
    (h, Except.ok none)
  else
    let h := { h with DataAreaKey := extract header offset DataKeyAreaMaxSize }
    let keyed : KeyedEA :=
      if mode.isXTS then
        { alg := ea
          key := extract header offset ea.keySize
          mode := { mode := mode
                    key := extract header (offset + ea.keySize) ea.keySize } }
      else
        { alg := ea
          key := extract header (offset + LegacyEncryptionModeKeyAreaSize) ea.keySize
          mode := { mode := mode
                    key := extract header offset mode.keySize } }
    (h, Except.ok (some keyed))

/-- Tail of `VolumeHeader::Deserialize` from the sector-size coercion on:
`HeaderVersion < 5` forces `SectorSize = TC_SECTOR_SIZE_LEGACY`, then the
I3 validation. -/
def deserializeSector (h : VolumeHeader) (header : List Nat)
    (ea : EncryptionAlgorithm) (mode : EncryptionMode) :
    VolumeHeader × Except VolumeError (Option KeyedEA) :=
  let h :=
    if h.HeaderVersion < 5 then { h with SectorSize := TC_SECTOR_SIZE_LEGACY }
    else h
  if h.SectorSize < TC_MIN_VOLUME_SECTOR_SIZE
      ∨ h.SectorSize > TC_MAX_VOLUME_SECTOR_SIZE
      ∨ h.SectorSize % ENCRYPTION_DATA_UNIT_SIZE ≠ 0 then
    (h, Except.error VolumeError.ParameterIncorrect)
  else
    deserializeKeyArea h header ea mode

/-- Tail of `VolumeHeader::Deserialize` reading the body fields
(`VolumeKeyAreaCrc32` through `SectorSize`) at `offset2` on. -/
def deserializeFields (h : VolumeHeader) (header : List Nat)
    (ea : EncryptionAlgorithm) (mode : EncryptionMode) (offset2 : Nat) :
    VolumeHeader × Except VolumeError (Option KeyedEA) :=
  match DeserializeEntry 4 header offset2 with
  | Except.error e => (h, Except.error e)
  | Except.ok (vkCrc, offset3) =>
    let h := { h with VolumeKeyAreaCrc32 := vkCrc }
    match DeserializeEntry 8 header offset3 with
    | Except.error e => (h, Except.error e)
    | Except.ok (vct, offset4) =>
      let h := { h with VolumeCreationTime := vct }
      match DeserializeEntry 8 header offset4 with
      | Except.error e => (h, Except.error e)
      | Except.ok (hct, offset5) =>
        let h := { h with HeaderCreationTime := hct }
        match DeserializeEntry 8 header offset5 with
        | Except.error e => (h, Except.error e)
        | Except.ok (hvds, offset6) =>
          let h := { h with
            HiddenVolumeDataSize := hvds
            mVolumeType :=
              if hvds ≠ 0 then VolumeType.Hidden else VolumeType.Normal }
          match DeserializeEntry 8 header offset6 with
          | Except.error e => (h, Except.error e)
          | Except.ok (vds, offset7) =>
            let h := { h with VolumeDataSize := vds }
            match DeserializeEntry 8 header offset7 with
            | Except.error e => (h, Except.error e)
            | Except.ok (eas, offset8) =>
              let h := { h with EncryptedAreaStart := eas }
              match DeserializeEntry 8 header offset8 with
              | Except.error e => (h, Except.error e)
              | Except.ok (eal, offset9) =>
                let h := { h with EncryptedAreaLength := eal }
                match DeserializeEntry 4 header offset9 with
                | Except.error e => (h, Except.error e)
                | Except.ok (flags, offset10) =>
                  let h := { h with Flags := flags }
                  match DeserializeEntry 4 header offset10 with
                  | Except.error e => (h, Except.error e)
                  | Except.ok (ss, _) =>
                    let h := { h with SectorSize := ss }
                    deserializeSector h header ea mode

/-- Tail of `VolumeHeader::Deserialize` from the
`RequiredMinProgramVersion` read on: the program-version gates (VeraCrypt
and TrueCrypt-compat), then the body fields. -/
def deserializeVersionTail (h : VolumeHeader) (header : List Nat)
    (ea : EncryptionAlgorithm) (mode : EncryptionMode) (truecryptMode : Bool)
    (offset1 : Nat) :
    VolumeHeader × Except VolumeError (Option KeyedEA) :=
  match DeserializeEntry 2 header offset1 with
  | Except.error e => (h, Except.error e)
  | Except.ok (rmpv, offset2) =>
    let h := { h with RequiredMinProgramVersion := rmpv }
    if ¬truecryptMode ∧ rmpv > VersionNumber then
      (h, Except.error VolumeError.HigherVersionRequired)
    else if truecryptMode ∧ (rmpv < 0x600 ∨ rmpv > 0x71a) then
      (h, Except.error VolumeError.UnsupportedTrueCryptFormat)
    else
      let h := if truecryptMode then
        { h with RequiredMinProgramVersion := CurrentRequiredMinProgramVersion }
      else h
      deserializeFields h header ea mode offset2

/-- `VolumeHeader::Deserialize`.  Returns the (possibly partially
mutated) header object, and `.ok (some k)` for `return true` — where `k`
holds the `GetNew`-rebound, data-area-keyed algorithm and mode instances
the reference parameters are left with — `.ok none` for `return false`,
and `.error e` for a thrown exception.  Field assignments that in the
source precede a `return false` or a `throw` are applied to the returned
object exactly as they happen in the source.  The body is split into the
`deserialize…` stage functions above, which correspond to contiguous runs
of the source function. -/
def Deserialize (h : VolumeHeader) (header : List Nat)
    (ea : EncryptionAlgorithm) (mode : EncryptionMode) (truecryptMode : Bool) :
    VolumeHeader × Except VolumeError (Option KeyedEA) :=
  if header.length ≠ h.EncryptedHeaderDataSize then
    (h, Except.error VolumeError.ParameterIncorrect)
  else if truecryptMode ∧ extract header 0 4 ≠ trueMagic then (h, Except.ok none)
  else if ¬truecryptMode ∧ extract header 0 4 ≠ veraMagic then (h, Except.ok none)
  else
    match DeserializeEntry 2 header 4 with
    | Except.error e => (h, Except.error e)
    | Except.ok (hv, offset1) =>
      let h := { h with HeaderVersion := hv }
      if hv < MinAllowedHeaderVersion then (h, Except.ok none)
      else if hv > CurrentHeaderVersion then
        (h, Except.error VolumeError.HigherVersionRequired)
      else
        match
          (if 4 ≤ hv then
            (DeserializeEntryAt 4 header
              (TC_HEADER_OFFSET_HEADER_CRC - TC_HEADER_OFFSET_MAGIC)).map
              (fun c =>
                decide (Crc32.ProcessBuffer
                  (extract header 0
                    (TC_HEADER_OFFSET_HEADER_CRC - TC_HEADER_OFFSET_MAGIC)) ≠ c))
          else Except.ok false) with
        | Except.error e => (h, Except.error e)
        | Except.ok crcMismatch =>
          if crcMismatch then (h, Except.ok none)
          else deserializeVersionTail h header ea mode truecryptMode offset1

/-- `VolumeHeader::Serialize`: fills the caller's `EncryptedHeaderDataSize`
byte plaintext buffer (the source checks the passed range has exactly that
size, then zeroes it; the model builds it from zeros).  Write order is the
source's: magic, data-area key copy, then the sequential entries, then the
header CRC at its fixed offset. -/
def Serialize (h : VolumeHeader) : Except VolumeError (List Nat) :=
  let buf := List.replicate h.EncryptedHeaderDataSize 0
  let buf := setBytes buf 0 veraMagic
  if DataAreaKeyOffset + h.DataAreaKey.length > buf.length then
    Except.error VolumeError.OutOfRange
  else
    let buf := setBytes buf DataAreaKeyOffset h.DataAreaKey
    match SerializeEntry 2 CurrentHeaderVersion buf 4 with
    | Except.error e => Except.error e
    | Except.ok (buf, offset) =>
      match SerializeEntry 2 h.RequiredMinProgramVersion buf offset with
      | Except.error e => Except.error e
      | Except.ok (buf, offset) =>
        match SerializeEntry 4
            (Crc32.ProcessBuffer (extract buf DataAreaKeyOffset DataKeyAreaMaxSize))
            buf offset with
        | Except.error e => Except.error e
        | Except.ok (buf, offset) =>
          match SerializeEntry 8 0 buf offset with
          | Except.error e => Except.error e
          | Except.ok (buf, offset) =>
            match SerializeEntry 8 0 buf offset with
            | Except.error e => Except.error e
            | Except.ok (buf, offset) =>
              match SerializeEntry 8 h.HiddenVolumeDataSize buf offset with
              | Except.error e => Except.error e
              | Except.ok (buf, offset) =>
                match SerializeEntry 8 h.VolumeDataSize buf offset with
                | Except.error e => Except.error e
                | Except.ok (buf, offset) =>
                  match SerializeEntry 8 h.EncryptedAreaStart buf offset with
                  | Except.error e => Except.error e
                  | Except.ok (buf, offset) =>
                    match SerializeEntry 8 h.EncryptedAreaLength buf offset with
                    | Except.error e => Except.error e
                    | Except.ok (buf, offset) =>
                      match SerializeEntry 4 h.Flags buf offset with
                      | Except.error e => Except.error e
                      | Except.ok (buf, offset) =>
                        if h.SectorSize < TC_MIN_VOLUME_SECTOR_SIZE
                            ∨ h.SectorSize > TC_MAX_VOLUME_SECTOR_SIZE
                            ∨ h.SectorSize % ENCRYPTION_DATA_UNIT_SIZE ≠ 0 then
                          Except.error VolumeError.ParameterIncorrect
                        else
                          match SerializeEntry 4 h.SectorSize buf offset with
                          | Except.error e => Except.error e
                          | Except.ok (buf, _) =>
                            match SerializeEntry 4
                                (Crc32.ProcessBuffer (extract buf 0
                                  (TC_HEADER_OFFSET_HEADER_CRC - TC_HEADER_OFFSET_MAGIC)))
                                buf
                                (TC_HEADER_OFFSET_HEADER_CRC - TC_HEADER_OFFSET_MAGIC) with
                            | Except.error e => Except.error e
                            | Except.ok (buf, _) => Except.ok buf

/-- `VolumeHeader::EncryptNew`: writes the salt at the front of the new
header blob, serializes the plaintext into the encrypted region, binds the
fresh algorithm/mode instances to `newHeaderKey` by the XTS/legacy layout,
encrypts in place, and latches the KDF.  The source's check that the
caller's buffer has size `HeaderSize` is implicit in the model: the built
blob is `SaltSize + EncryptedHeaderDataSize` bytes, which is `HeaderSize`
under invariant I1.  A null `EA` member would be a null dereference in the
source and is mapped to `ParameterIncorrect`. -/
def EncryptNew (h : VolumeHeader) (newSalt newHeaderKey : List Nat)
    (newPkcs5Kdf : Option Pkcs5Kdf) :
    Except VolumeError (List Nat × VolumeHeader) :=
  if newSalt.length ≠ SaltSize then Except.error VolumeError.ParameterIncorrect
  else
    match h.EA with
    | none => Except.error VolumeError.ParameterIncorrect
    | some kea =>
      let mode := kea.mode.mode
      let ea := kea.alg
      let keyedMode : KeyedMode :=
        if mode.isXTS then
          { mode := mode, key := extract newHeaderKey ea.keySize ea.keySize }
        else
          { mode := mode, key := extract newHeaderKey 0 mode.keySize }
      let eaKey : List Nat :=
        if mode.isXTS then extract newHeaderKey 0 ea.keySize
        else extract newHeaderKey LegacyEncryptionModeKeyAreaSize ea.keySize
      match Serialize h with
      | Except.error e => Except.error e
      | Except.ok headerData =>
        let blob := newSalt ++ ea.encryptOp mode eaKey keyedMode.key headerData
        let h := match newPkcs5Kdf with
          | some kdf => { h with Pkcs5 := some kdf }
          | none => h
        Except.ok (blob, h)

/-- `VolumeHeader::Encrypt`: like `EncryptNew` but re-encrypts with the
already-latched `Salt` and `HeaderKey` and does not latch a KDF. -/
def Encrypt (h : VolumeHeader) : Except VolumeError (List Nat) :=
  match h.EA with
  | none => Except.error VolumeError.ParameterIncorrect
  | some kea =>
    let mode := kea.mode.mode
    let ea := kea.alg
    let keyedMode : KeyedMode :=
      if mode.isXTS then
        { mode := mode, key := extract h.HeaderKey ea.keySize ea.keySize }
      else
        { mode := mode, key := extract h.HeaderKey 0 mode.keySize }
    let eaKey : List Nat :=
      if mode.isXTS then extract h.HeaderKey 0 ea.keySize
      else extract h.HeaderKey LegacyEncryptionModeKeyAreaSize ea.keySize
    match Serialize h with
    | Except.error e => Except.error e
    | Except.ok headerData =>
      Except.ok (h.Salt ++ ea.encryptOp mode eaKey keyedMode.key headerData)

/-- `VolumeHeader::Create`: validates the options, populates the header
fields, binds a fresh XTS mode to the chosen algorithm, and delegates to
`EncryptNew`.  (The source never assigns `mVolumeType` here.) -/
def Create (h : VolumeHeader) (options : VolumeHeaderCreationOptions) :
    Except VolumeError (List Nat × VolumeHeader) :=
  if options.DataKey.length ≠ options.EA.keySize * 2
      ∨ options.Salt.length ≠ SaltSize then
    Except.error VolumeError.ParameterIncorrect
  else
    let h := { h with
      HeaderVersion := CurrentHeaderVersion
      RequiredMinProgramVersion := CurrentRequiredMinProgramVersion
      DataAreaKey := options.DataKey
      VolumeCreationTime := 0
      HiddenVolumeDataSize :=
        if options.VolType = VolumeType.Hidden then options.VolumeDataSize else 0
      VolumeDataSize := options.VolumeDataSize
      EncryptedAreaStart := options.VolumeDataStart
      EncryptedAreaLength := options.VolumeDataSize
      SectorSize := options.SectorSize }
    if h.SectorSize < TC_MIN_VOLUME_SECTOR_SIZE
        ∨ h.SectorSize > TC_MAX_VOLUME_SECTOR_SIZE
        ∨ h.SectorSize % ENCRYPTION_DATA_UNIT_SIZE ≠ 0 then
      Except.error VolumeError.ParameterIncorrect
    else
      let h := { h with
        EA := some { alg := options.EA
                     key := []
                     mode := { mode := { isXTS := true, keySize := options.EA.keySize }
                               key := [] } } }
      EncryptNew h options.Salt options.HeaderKey options.Kdf

/-- The plaintext candidate the trial engine hands to `Deserialize`: the
encrypted region of the blob, decrypted with keys cut from the derived
header key by the XTS/legacy layout.  For a non-XTS mode `km.key` is the
mode key the mode loop pre-bound (`headerKey[0 .. mode.KeySize())`). -/
def trialPlain (encryptedData : List Nat) (ehds : Nat) (headerKey : List Nat)
    (km : KeyedMode) (ea : EncryptionAlgorithm) : List Nat :=
  let ciphertext := extract encryptedData EncryptedHeaderDataOffset ehds
  if km.mode.isXTS then
    ea.decryptOp km.mode (extract headerKey 0 ea.keySize)
      (extract headerKey ea.keySize ea.keySize) ciphertext
  else
    ea.decryptOp km.mode (extract headerKey LegacyEncryptionModeKeyAreaSize ea.keySize)
      km.key ciphertext

/-- The mode-loop key pre-binding of `VolumeHeader::Decrypt`: a non-XTS
mode gets `headerKey[0 .. mode.KeySize())` bound before the algorithm
loop; an XTS mode is keyed per algorithm inside the loop. -/
def kmOf (headerKey : List Nat) (mode : EncryptionMode) : KeyedMode :=
  if mode.isXTS then { mode := mode, key := [] }
  else { mode := mode, key := extract headerKey 0 mode.keySize }

/-- The inner (encryption algorithm) loop of `VolumeHeader::Decrypt`.
Returns the threaded header object, the overall result, and the number of
`Deserialize` invocations. -/
def decryptAlgos (h : VolumeHeader) (encryptedData headerKey : List Nat)
    (truecryptMode : Bool) (pkcs5 : Pkcs5Kdf) (km : KeyedMode) :
    List EncryptionAlgorithm → VolumeHeader × Except VolumeError Bool × Nat
  | [] => (h, Except.ok false, 0)
  | ea :: rest =>
    if ¬ ea.isModeSupported km.mode then
      decryptAlgos h encryptedData headerKey truecryptMode pkcs5 km rest
    else
      match Deserialize h
          (trialPlain encryptedData h.EncryptedHeaderDataSize headerKey km ea)
          ea km.mode truecryptMode with
      | (h2, Except.error e) => (h2, Except.error e, 1)
      | (h2, Except.ok (some keyed)) =>
        ({ h2 with
            HeaderKey := headerKey
            EA := some keyed
            Pkcs5 := some pkcs5 },
          Except.ok true, 1)
      | (h2, Except.ok none) =>
        let r := decryptAlgos h2 encryptedData headerKey truecryptMode pkcs5 km rest
        (r.1, r.2.1, r.2.2 + 1)

/-- The middle (encryption mode) loop of `VolumeHeader::Decrypt`: pre-binds
the mode key for non-XTS modes, then runs the algorithm loop. -/
def decryptModes (h : VolumeHeader) (encryptedData headerKey : List Nat)
    (truecryptMode : Bool) (pkcs5 : Pkcs5Kdf)
    (encryptionAlgorithms : List EncryptionAlgorithm) :
    List EncryptionMode → VolumeHeader × Except VolumeError Bool × Nat
  | [] => (h, Except.ok false, 0)
  | mode :: rest =>
    let km : KeyedMode := kmOf headerKey mode
    match decryptAlgos h encryptedData headerKey truecryptMode pkcs5 km
        encryptionAlgorithms with
    | (h2, Except.ok false, n) =>
      let r := decryptModes h2 encryptedData headerKey truecryptMode pkcs5
        encryptionAlgorithms rest
      (r.1, r.2.1, n + r.2.2)
    | (h2, res, n) => (h2, res, n)

/-- The outer (KDF) loop of `VolumeHeader::Decrypt`: skips KDFs whose name
differs from a caller-preferred KDF, derives the header key, and runs the
mode loop.  Returns the threaded header object, the result, the number of
`DeriveKey` calls and the number of `Deserialize` calls. -/
def decryptKdfs (h : VolumeHeader) (encryptedData password : List Nat) (pim : Int)
    (kdf : Option Pkcs5Kdf) (truecryptMode : Bool) (salt : List Nat)
    (encryptionAlgorithms : List EncryptionAlgorithm)
    (encryptionModes : List EncryptionMode) :
    List Pkcs5Kdf → VolumeHeader × Except VolumeError Bool × Nat × Nat
  | [] => (h, Except.ok false, 0, 0)
  | pkcs5 :: rest =>
    if (match kdf with
        | some preferred => decide (preferred.name ≠ pkcs5.name)
        | none => false) then
      decryptKdfs h encryptedData password pim kdf truecryptMode salt
        encryptionAlgorithms encryptionModes rest
    else
      let headerKey := pkcs5.deriveKey GetLargestSerializedKeySize password pim salt
      match decryptModes h encryptedData headerKey truecryptMode pkcs5
          encryptionAlgorithms encryptionModes with
      | (h2, Except.ok false, n) =>
        let r := decryptKdfs h2 encryptedData password pim kdf truecryptMode salt
          encryptionAlgorithms encryptionModes rest
        (r.1, r.2.1, r.2.2.1 + 1, n + r.2.2.2)
      | (h2, res, n) => (h2, res, 1, n)

/-- `VolumeHeader::Decrypt`: empty-password check, salt extraction and
latch, then the (KDF × mode × algorithm) trial search.  The result is the
mutated header object, `.ok true/false` or a propagated error, the number
of `DeriveKey` calls, and the number of `Deserialize` calls. -/
def Decrypt (h : VolumeHeader) (encryptedData password : List Nat) (pim : Int)
    (kdf : Option Pkcs5Kdf) (truecryptMode : Bool)
    (keyDerivationFunctions : List Pkcs5Kdf)
    (encryptionAlgorithms : List EncryptionAlgorithm)
    (encryptionModes : List EncryptionMode) :
    VolumeHeader × Except VolumeError Bool × Nat × Nat :=
  if password.length < 1 then (h, Except.error VolumeError.PasswordEmpty, 0, 0)
  else
    let salt := extract encryptedData SaltOffset SaltSize
    let h := { h with Salt := salt }
    decryptKdfs h encryptedData password pim kdf truecryptMode salt
      encryptionAlgorithms encryptionModes keyDerivationFunctions

/- ## Characterization vocabulary

Named values of the wire format, used to state what the codec computes.
These are read back off the plaintext buffer; the byte offsets are the
on-disk offsets of spec §6 minus `TC_HEADER_OFFSET_MAGIC`. -/

/-- The `w`-byte big-endian field of `buf` at byte offset `off`. -/
def readBE (buf : List Nat) (off w : Nat) : Nat :=
  beRead (extract buf off w)

/-- The wire `HeaderVersion` of a plaintext header buffer. -/
def wireVersion (buf : List Nat) : Nat := readBE buf 4 2

/-- The wire `RequiredMinProgramVersion`. -/
def wireMinVersion (buf : List Nat) : Nat := readBE buf 6 2

/-- The wire `VolumeKeyAreaCrc32`. -/
def wireKeyCrc (buf : List Nat) : Nat := readBE buf 8 4

/-- The effective sector size `Deserialize` ends up with: the wire field,
coerced to 512 for header versions below 5. -/
def effSector (buf : List Nat) : Nat :=
  if wireVersion buf < 5 then TC_SECTOR_SIZE_LEGACY else readBE buf 64 4

/-- Invariant I3: a sector size in [512, 4096] and a multiple of 512. -/
def SectorValid (s : Nat) : Prop :=
  TC_MIN_VOLUME_SECTOR_SIZE ≤ s ∧ s ≤ TC_MAX_VOLUME_SECTOR_SIZE
    ∧ s % ENCRYPTION_DATA_UNIT_SIZE = 0

instance (s : Nat) : Decidable (SectorValid s) := by
  unfold SectorValid; infer_instance

/-- The header CRC check of `Deserialize`: CRC-32 over plaintext bytes
[0, 188) equals the stored u32 at offset 188. -/
def HeaderCrcOk (buf : List Nat) : Prop :=
  Crc32.ProcessBuffer (extract buf 0 188) = readBE buf 188 4

instance (buf : List Nat) : Decidable (HeaderCrcOk buf) := by
  unfold HeaderCrcOk; infer_instance

/-- The key-area CRC check of `Deserialize`: the stored
`VolumeKeyAreaCrc32` equals CRC-32 over the 256-byte data-area key region. -/
def KeyCrcOk (buf : List Nat) : Prop :=
  wireKeyCrc buf = Crc32.ProcessBuffer (extract buf DataAreaKeyOffset DataKeyAreaMaxSize)

instance (buf : List Nat) : Decidable (KeyCrcOk buf) := by
  unfold KeyCrcOk; infer_instance

/-- The header object as it stands after `Deserialize` has parsed all the
body fields of plaintext `buf` (VeraCrypt mode), just before the key-area
CRC check. -/
def stateAfterFields (h : VolumeHeader) (buf : List Nat) : VolumeHeader :=
  { h with
    HeaderVersion := wireVersion buf
    RequiredMinProgramVersion := wireMinVersion buf
    VolumeKeyAreaCrc32 := wireKeyCrc buf
    VolumeCreationTime := readBE buf 12 8
    HeaderCreationTime := readBE buf 20 8
    HiddenVolumeDataSize := readBE buf 28 8
    mVolumeType :=
      if readBE buf 28 8 ≠ 0 then VolumeType.Hidden else VolumeType.Normal
    VolumeDataSize := readBE buf 36 8
    EncryptedAreaStart := readBE buf 44 8
    EncryptedAreaLength := readBE buf 52 8
    Flags := readBE buf 60 4
    SectorSize := effSector buf }

/-- The data-area-keyed algorithm/mode pair `Deserialize` rebinds on
success: for XTS the cipher key is bytes [0, KeySize) and the tweak key
bytes [KeySize, 2·KeySize) of the key area; for a legacy mode the mode key
is bytes [0, mode.KeySize) and the cipher key starts at
`LegacyEncryptionModeKeyAreaSize`. -/
def keyedOf (buf : List Nat) (ea : EncryptionAlgorithm) (mode : EncryptionMode) :
    KeyedEA :=
  if mode.isXTS then
    { alg := ea
      key := extract buf DataAreaKeyOffset ea.keySize
      mode := { mode := mode
                key := extract buf (DataAreaKeyOffset + ea.keySize) ea.keySize } }
  else
    { alg := ea
      key := extract buf (DataAreaKeyOffset + LegacyEncryptionModeKeyAreaSize) ea.keySize
      mode := { mode := mode, key := extract buf DataAreaKeyOffset mode.keySize } }

/-- The 256-byte data-area key region `Serialize` produces: the
`DataAreaKey` buffer, zero-padded to `DataKeyAreaMaxSize`. -/
def keyAreaOf (h : VolumeHeader) : List Nat :=
  h.DataAreaKey ++ List.replicate (DataKeyAreaMaxSize - h.DataAreaKey.length) 0

/-- The first 188 plaintext bytes `Serialize` produces (everything before
the header CRC). -/
def serializedPre (h : VolumeHeader) : List Nat :=
  veraMagic ++
    (beBytes 2 CurrentHeaderVersion ++
      (beBytes 2 h.RequiredMinProgramVersion ++
        (beBytes 4 (Crc32.ProcessBuffer (keyAreaOf h)) ++
          (beBytes 8 0 ++
            (beBytes 8 0 ++
              (beBytes 8 h.HiddenVolumeDataSize ++
                (beBytes 8 h.VolumeDataSize ++
                  (beBytes 8 h.EncryptedAreaStart ++
                    (beBytes 8 h.EncryptedAreaLength ++
                      (beBytes 4 h.Flags ++
                        (beBytes 4 h.SectorSize ++
                          List.replicate 120 0)))))))))))

/-- The full 448-byte plaintext `Serialize` produces. -/
def serializedForm (h : VolumeHeader) : List Nat :=
  serializedPre h ++
    (beBytes 4 (Crc32.ProcessBuffer (serializedPre h)) ++ keyAreaOf h)

/-- Number of algorithms in `es` that support mode `m` (candidates not
skipped by `IsModeSupported`). -/
def supAlgos (m : EncryptionMode) (es : List EncryptionAlgorithm) : Nat :=
  (es.filter (fun e => e.isModeSupported m)).length

/-- Number of non-skipped (mode, algorithm) candidates over the mode list
`ms` and algorithm list `es`. -/
def supPairs (ms : List EncryptionMode) (es : List EncryptionAlgorithm) : Nat :=
  (ms.map (fun m => supAlgos m es)).sum

/-- Fields of the header object the failed trial search must not touch
(wrong-password frame): `EncryptedHeaderDataSize` (also the only field the
candidate outcomes can depend on), `EA`, `Pkcs5`, `DataAreaKey`, `Salt`. -/
def SearchFrame (a b : VolumeHeader) : Prop :=
  b.EncryptedHeaderDataSize = a.EncryptedHeaderDataSize
    ∧ b.EA = a.EA ∧ b.Pkcs5 = a.Pkcs5 ∧ b.DataAreaKey = a.DataAreaKey
    ∧ b.Salt = a.Salt

/-- The plaintext the (KDF, mode, algorithm) candidate hands to
`Deserialize` when run on a standard 512-byte blob: derive the header key
from the blob's salt, pre-bind the legacy mode key, and trial-decrypt the
448-byte encrypted region. -/
def trialOf (encryptedData password : List Nat) (pim : Int) (pkcs5 : Pkcs5Kdf)
    (mode : EncryptionMode) (ea : EncryptionAlgorithm) : List Nat :=
  let salt := extract encryptedData SaltOffset SaltSize
  let headerKey := pkcs5.deriveKey GetLargestSerializedKeySize password pim salt
  trialPlain encryptedData 448 headerKey (kmOf headerKey mode) ea

/-- A plaintext candidate on which `Deserialize` (VeraCrypt mode, standard
448-byte encrypted region) returns false: one of the four false-return
checks fails — magic, minimum version, header CRC (with the earlier checks
passing), or key-area CRC (with every earlier check and gate passing). -/
def FalseTrial (buf : List Nat) : Prop :=
  buf.length = 448 ∧
    (extract buf 0 4 ≠ veraMagic
      ∨ wireVersion buf < MinAllowedHeaderVersion
      ∨ (MinAllowedHeaderVersion ≤ wireVersion buf
          ∧ wireVersion buf ≤ CurrentHeaderVersion ∧ ¬ HeaderCrcOk buf)
      ∨ (MinAllowedHeaderVersion ≤ wireVersion buf
          ∧ wireVersion buf ≤ CurrentHeaderVersion ∧ HeaderCrcOk buf
          ∧ wireMinVersion buf ≤ VersionNumber
          ∧ SectorValid (effSector buf) ∧ ¬ KeyCrcOk buf))

instance (buf : List Nat) : Decidable (FalseTrial buf) := by
  unfold FalseTrial; infer_instance

/-- A plaintext candidate on which `Deserialize` (VeraCrypt mode, standard
448-byte encrypted region) returns true: every check and gate passes. -/
def TrueTrial (buf : List Nat) : Prop :=
  buf.length = 448 ∧ extract buf 0 4 = veraMagic
    ∧ MinAllowedHeaderVersion ≤ wireVersion buf
    ∧ wireVersion buf ≤ CurrentHeaderVersion ∧ HeaderCrcOk buf
    ∧ wireMinVersion buf ≤ VersionNumber
    ∧ SectorValid (effSector buf) ∧ KeyCrcOk buf

instance (buf : List Nat) : Decidable (TrueTrial buf) := by
  unfold TrueTrial; infer_instance

/- ## Concrete instances for witnesses and counterexamples -/

/-- A 32-byte-key algorithm whose cipher is the identity permutation (used
to instantiate round-trip statements concretely). -/
def eaId : EncryptionAlgorithm :=
  { keySize := 32
    isModeSupported := fun _ => true
    encryptOp := fun _ _ _ d => d
    decryptOp := fun _ _ _ d => d }

/-- An algorithm that decrypts everything to zeros unless the cipher key is
32 ones: all its trial candidates fail on real headers except under the
right key. -/
def eaPick : EncryptionAlgorithm :=
  { keySize := 32
    isModeSupported := fun _ => true
    encryptOp := fun _ _ _ d => d
    decryptOp := fun _ k1 _ d =>
      if k1 = List.replicate 32 1 then d else List.replicate d.length 0 }

/-- An algorithm supporting only XTS. -/
def eaXtsOnly : EncryptionAlgorithm :=
  { keySize := 32
    isModeSupported := fun m => m.isXTS
    encryptOp := fun _ _ _ d => d
    decryptOp := fun _ _ _ d => List.replicate d.length 0 }

/-- The XTS mode instance. -/
def modeXts : EncryptionMode := { isXTS := true, keySize := 32 }

/-- A legacy (non-XTS) mode instance with a 48-byte mode key. -/
def modeLegacy : EncryptionMode := { isXTS := false, keySize := 48 }

/-- A KDF deriving the all-ones key. -/
def kdfOnes : Pkcs5Kdf :=
  { name := "ones", deriveKey := fun n _ _ _ => List.replicate n 1 }

/-- A KDF deriving the all-twos key. -/
def kdfTwos : Pkcs5Kdf :=
  { name := "twos", deriveKey := fun n _ _ _ => List.replicate n 2 }

/-- The state fields the trial search must not disturb on a failed
candidate: `Deserialize` leaves `Salt`, `EncryptedHeaderDataSize`, `EA`,
`Pkcs5` and `HeaderKey` untouched on every path, and `DataAreaKey`
untouched unless it returns true. -/
def DeserializeFrame (h st : VolumeHeader)
    (r : Except VolumeError (Option KeyedEA)) : Prop :=
  st.Salt = h.Salt ∧ st.EncryptedHeaderDataSize = h.EncryptedHeaderDataSize
    ∧ st.EA = h.EA ∧ st.Pkcs5 = h.Pkcs5 ∧ st.HeaderKey = h.HeaderKey
    ∧ (r = Except.ok none → st.DataAreaKey = h.DataAreaKey)

/- ## Accumulated plaintext prefixes of `Serialize`

`serA k` is the written prefix of the plaintext buffer after the magic and
the first `k` `SerializeEntry` writes (for a `DataAreaKey` that already
fills the whole key area, so its CRC is over `DataAreaKey` itself). -/

def serA0 : List Nat := veraMagic
def serA1 : List Nat := serA0 ++ beBytes 2 CurrentHeaderVersion
def serA2 (h : VolumeHeader) : List Nat :=
  serA1 ++ beBytes 2 h.RequiredMinProgramVersion
def serA3 (h : VolumeHeader) : List Nat :=
  serA2 h ++ beBytes 4 (Crc32.ProcessBuffer (keyAreaOf h))
def serA4 (h : VolumeHeader) : List Nat := serA3 h ++ beBytes 8 0
def serA5 (h : VolumeHeader) : List Nat := serA4 h ++ beBytes 8 0
def serA6 (h : VolumeHeader) : List Nat :=
  serA5 h ++ beBytes 8 h.HiddenVolumeDataSize
def serA7 (h : VolumeHeader) : List Nat := serA6 h ++ beBytes 8 h.VolumeDataSize
def serA8 (h : VolumeHeader) : List Nat := serA7 h ++ beBytes 8 h.EncryptedAreaStart
def serA9 (h : VolumeHeader) : List Nat := serA8 h ++ beBytes 8 h.EncryptedAreaLength
def serA10 (h : VolumeHeader) : List Nat := serA9 h ++ beBytes 4 h.Flags
def serA11 (h : VolumeHeader) : List Nat := serA10 h ++ beBytes 4 h.SectorSize

/- ## Byte-buffer lemmas -/


/- ## Concrete round-trip instances -/

def keaW : KeyedEA :=
  { alg := eaId, key := [], mode := { mode := modeXts, key := [] } }

def HC1 : VolumeHeader :=
  { VolumeHeader.ofSize 512 with
    SectorSize := 512
    DataAreaKey := List.replicate 64 1
    VolumeKeyAreaCrc32 := Crc32.ProcessBuffer (List.replicate 64 1)
    EA := some keaW }

def blobC1 : List Nat := List.replicate 64 2 ++ serializedForm HC1

def HW1 : VolumeHeader :=
  { VolumeHeader.ofSize 512 with
    SectorSize := 512
    HiddenVolumeDataSize := 4096
    VolumeDataSize := 8192
    EncryptedAreaStart := 131072
    EncryptedAreaLength := 8192
    Flags := 1
    DataAreaKey := List.replicate 256 3
    VolumeKeyAreaCrc32 := Crc32.ProcessBuffer (List.replicate 256 3)
    EA := some keaW }

def blobW1 : List Nat := List.replicate 64 2 ++ serializedForm HW1


/-- A hand-built 188-byte plaintext header prefix with chosen version,
minimum program version, key-area CRC field, hidden-volume size and
sector-size fields (all other fields zero). -/
def mkPre (ver rmpv keycrc hidden sector : Nat) : List Nat :=
  veraMagic ++ (beBytes 2 ver ++ (beBytes 2 rmpv ++ (beBytes 4 keycrc ++
    (beBytes 8 0 ++ (beBytes 8 0 ++ (beBytes 8 hidden ++ (beBytes 8 0 ++
      (beBytes 8 0 ++ (beBytes 8 0 ++ (beBytes 4 0 ++ (beBytes 4 sector ++
        List.replicate 120 0)))))))))))

/-- A hand-built 448-byte plaintext header candidate: `mkPre`, a correct
header CRC, and a chosen key area. -/
def mkBuf (ver rmpv keycrc hidden sector : Nat) (keyArea : List Nat) : List Nat :=
  mkPre ver rmpv keycrc hidden sector ++
    (beBytes 4 (Crc32.ProcessBuffer (mkPre ver rmpv keycrc hidden sector)) ++ keyArea)


/-- The key-CRC-consistent hand-built candidate used by the search-order
witness. -/
def bufC3 : List Nat :=
  mkBuf 5 0 (Crc32.ProcessBuffer (List.replicate 256 0)) 0 512 (List.replicate 256 0)

/-- A 512-byte blob whose encrypted region is `bufC3` in the clear. -/
def blobC3 : List Nat := List.replicate 64 2 ++ bufC3


/-- Options for creating a hidden volume (used by the C8 counterexample). -/
def optsHidden : VolumeHeaderCreationOptions :=
  { EA := eaId
    DataKey := List.replicate 64 3
    Salt := List.replicate 64 2
    HeaderKey := List.replicate 192 1
    Kdf := none
    VolumeDataStart := 131072
    VolumeDataSize := 65536
    SectorSize := 512
    VolType := VolumeType.Hidden }

/-- The header state `Create` hands to `EncryptNew` for `optsHidden`. -/
def hC8 : VolumeHeader :=
  { VolumeHeader.ofSize 512 with
    HeaderVersion := CurrentHeaderVersion
    RequiredMinProgramVersion := CurrentRequiredMinProgramVersion
    DataAreaKey := List.replicate 64 3
    VolumeCreationTime := 0
    HiddenVolumeDataSize := 65536
    VolumeDataSize := 65536
    EncryptedAreaStart := 131072
    EncryptedAreaLength := 65536
    SectorSize := 512
    EA := some keaW }

theorem beBytes_length (w v : Nat) : (beBytes w v).length = w := by
  induction w generalizing v with
  | zero => rfl
  | succ w ih => simp [beBytes, ih]

theorem beRead_aux (l : List Nat) (x : Nat) :
    l.foldl (fun a b => a * 256 + b) x = x * 256 ^ l.length + beRead l := by
  induction l generalizing x with
  | nil => simp [beRead]
  | cons c t ih =>
    have hc : beRead (c :: t) = c * 256 ^ t.length + beRead t := by
      show t.foldl _ (0 * 256 + c) = _
      rw [ih]
      ring_nf
    show t.foldl _ (x * 256 + c) = x * 256 ^ (c :: t).length + beRead (c :: t)
    rw [ih, hc, List.length_cons]
    ring

theorem beRead_append (a b : List Nat) :
    beRead (a ++ b) = beRead a * 256 ^ b.length + beRead b := by
  show (a ++ b).foldl _ 0 = _
  rw [List.foldl_append]
  exact beRead_aux b (a.foldl _ 0)

theorem beRead_beBytes (w v : Nat) : beRead (beBytes w v) = v % 256 ^ w := by
  induction w generalizing v with
  | zero => simp [beBytes, beRead, Nat.mod_one]
  | succ w ih =>
    rw [beBytes, beRead_append, ih]
    have h1 : beRead [v % 256] = v % 256 := by simp [beRead]
    have h2 : (256 : Nat) ^ (w + 1) = 256 * 256 ^ w := by ring
    rw [h1, h2, Nat.mod_mul]
    simp only [List.length_cons, List.length_nil, pow_one]
    ring

theorem extract_length (l : List Nat) (off n : Nat) :
    (extract l off n).length = min n (l.length - off) := by
  simp [extract]

theorem extract_length_of_le (l : List Nat) (off n : Nat)
    (h : off + n ≤ l.length) : (extract l off n).length = n := by
  rw [extract_length]; omega

theorem extract_append_right (a b : List Nat) (off n : Nat) (h : a.length ≤ off) :
    extract (a ++ b) off n = extract b (off - a.length) n := by
  unfold extract
  rw [List.drop_append_eq_append_drop, List.drop_eq_nil_of_le h, List.nil_append]

theorem extract_append_left (a b : List Nat) (off n : Nat) (h : off + n ≤ a.length) :
    extract (a ++ b) off n = extract a off n := by
  unfold extract
  rw [List.drop_append_eq_append_drop, Nat.sub_eq_zero_of_le (by omega),
    List.drop_zero, List.take_append_eq_append_take]
  have : n - (a.drop off).length = 0 := by
    rw [List.length_drop]; omega
  rw [this, List.take_zero, List.append_nil]

theorem extract_front (a b : List Nat) (n : Nat) (h : a.length = n) :
    extract (a ++ b) 0 n = a := by
  unfold extract
  rw [List.drop_zero, List.take_append_eq_append_take, ← h, List.take_length]
  simp

theorem extract_self (l : List Nat) (n : Nat) (h : l.length = n) :
    extract l 0 n = l := by
  unfold extract
  rw [List.drop_zero, ← h, List.take_length]

theorem extract_replicate (z : Nat) (off n : Nat) (h : off + n ≤ z) :
    extract (List.replicate z (0 : Nat)) off n = List.replicate n 0 := by
  unfold extract
  rw [List.drop_replicate, List.take_replicate]
  congr 1
  omega

theorem setBytes_length (l bs : List Nat) (off : Nat) (h : off + bs.length ≤ l.length) :
    (setBytes l off bs).length = l.length := by
  simp only [setBytes, List.length_append, List.length_take, List.length_drop]
  omega

theorem setBytes_zeros (n : Nat) (bs : List Nat) (_h : bs.length ≤ n) :
    setBytes (List.replicate n (0 : Nat)) 0 bs =
      bs ++ List.replicate (n - bs.length) 0 := by
  simp [setBytes, List.drop_replicate]

theorem setBytes_append_zeros (A bs : List Nat) (z off r : Nat)
    (hoff : off = A.length + r) (h : r + bs.length ≤ z) :
    setBytes (A ++ List.replicate z (0 : Nat)) off bs =
      A ++ (List.replicate r 0 ++ (bs ++ List.replicate (z - r - bs.length) 0)) := by
  subst hoff
  unfold setBytes
  rw [List.take_append_eq_append_take, List.drop_append_eq_append_drop]
  have h1 : A.length + r - A.length = r := by omega
  have h2 : A.length + r + bs.length - A.length = r + bs.length := by omega
  rw [h1, h2, List.take_replicate, List.drop_replicate,
    List.take_of_length_le (show A.length ≤ A.length + r by omega),
    List.drop_eq_nil_of_le (show A.length ≤ A.length + r + bs.length by omega)]
  have h3 : min r z = r := by omega
  have h4 : z - (r + bs.length) = z - r - bs.length := by omega
  rw [h3, h4]
  simp [List.append_assoc]

/-- Writing at the boundary between a written prefix and a zero tail. -/
theorem setBytes_step (A bs T : List Nat) (z off r : Nat)
    (hoff : off = A.length + r) (h : r + bs.length ≤ z) :
    setBytes (A ++ (List.replicate z (0 : Nat) ++ T)) off bs =
      (A ++ (List.replicate r 0 ++ bs)) ++
        (List.replicate (z - r - bs.length) 0 ++ T) := by
  subst hoff
  unfold setBytes
  rw [List.take_append_eq_append_take, List.drop_append_eq_append_drop]
  have h1 : A.length + r - A.length = r := by omega
  have h2 : A.length + r + bs.length - A.length = r + bs.length := by omega
  rw [h1, h2, List.take_of_length_le (show A.length ≤ A.length + r by omega),
    List.drop_eq_nil_of_le (show A.length ≤ A.length + r + bs.length by omega),
    List.take_append_eq_append_take, List.drop_append_eq_append_drop,
    List.take_replicate, List.drop_replicate]
  have h3 : min r z = r := by omega
  have h4 : r - (List.replicate z (0:Nat)).length = 0 := by
    rw [List.length_replicate]; omega
  have h5 : r + bs.length - (List.replicate z (0:Nat)).length = 0 := by
    rw [List.length_replicate]; omega
  have h6 : z - (r + bs.length) = z - r - bs.length := by omega
  rw [h3, h4, h5, h6, List.take_zero, List.drop_zero, List.append_nil]
  simp [List.append_assoc]

/- ## Constant values -/

theorem SaltSize_eq : SaltSize = 64 := rfl
theorem EncryptedHeaderDataOffset_eq : EncryptedHeaderDataOffset = 64 := rfl
theorem DataAreaKeyOffset_eq : DataAreaKeyOffset = 192 := rfl
theorem DataKeyAreaMaxSize_eq : DataKeyAreaMaxSize = 256 := rfl
theorem headerCrcOffset_eq :
    TC_HEADER_OFFSET_HEADER_CRC - TC_HEADER_OFFSET_MAGIC = 188 := rfl
theorem GetLargestSerializedKeySize_eq : GetLargestSerializedKeySize = 192 := rfl
theorem veraMagic_length : veraMagic.length = 4 := rfl
theorem trueMagic_length : trueMagic.length = 4 := rfl

/- ## CRC-32 range -/

theorem crc32Bits_lt (n c : Nat) (h : c < 4294967296) :
    crc32Bits n c < 4294967296 := by
  induction n generalizing c with
  | zero => exact h
  | succ n ih =>
    rw [crc32Bits]
    apply ih
    by_cases hc : c % 2 = 1
    · rw [if_pos hc]
      have h1 : c / 2 < 4294967296 := by omega
      have h2 : (0xEDB88320 : Nat) < 4294967296 := by norm_num
      calc Nat.xor (c / 2) 0xEDB88320 < 2 ^ 32 :=
            Nat.xor_lt_two_pow (by omega) (by norm_num)
        _ = 4294967296 := by norm_num
    · rw [if_neg hc]; omega

theorem crc32Update_lt (c b : Nat) (h : c < 4294967296) :
    crc32Update c b < 4294967296 := by
  apply crc32Bits_lt
  calc Nat.xor c (b % 256) < 2 ^ 32 :=
      Nat.xor_lt_two_pow (by omega) (by omega)
    _ = 4294967296 := by norm_num

theorem crc32_foldl_lt (l : List Nat) (c : Nat) (h : c < 4294967296) :
    l.foldl crc32Update c < 4294967296 := by
  induction l generalizing c with
  | nil => exact h
  | cons b t ih => exact ih _ (crc32Update_lt c b h)

theorem Crc32_lt (l : List Nat) : Crc32.ProcessBuffer l < 4294967296 := by
  unfold Crc32.ProcessBuffer
  calc Nat.xor (l.foldl crc32Update 0xFFFFFFFF) 0xFFFFFFFF < 2 ^ 32 :=
      Nat.xor_lt_two_pow (by
        have := crc32_foldl_lt l 0xFFFFFFFF (by norm_num)
        omega) (by norm_num)
    _ = 4294967296 := by norm_num

/- ## Lengths of the serialized plaintext -/

theorem keyAreaOf_length (h : VolumeHeader) (hK : h.DataAreaKey.length ≤ 256) :
    (keyAreaOf h).length = 256 := by
  simp [keyAreaOf, DataKeyAreaMaxSize_eq]
  omega

theorem keyAreaOf_eq_of_full (h : VolumeHeader) (hK : h.DataAreaKey.length = 256) :
    keyAreaOf h = h.DataAreaKey := by
  simp [keyAreaOf, DataKeyAreaMaxSize_eq, hK]

theorem serializedPre_length (h : VolumeHeader) : (serializedPre h).length = 188 := by
  simp [serializedPre, beBytes_length, veraMagic]

theorem serializedForm_length (h : VolumeHeader) (hK : h.DataAreaKey.length ≤ 256) :
    (serializedForm h).length = 448 := by
  simp [serializedForm, beBytes_length, serializedPre_length, keyAreaOf_length h hK]

/- ## Entry codec characterizations -/

theorem deserializeEntry_ok (w : Nat) (hdr : List Nat) (off : Nat)
    (h : off + w ≤ hdr.length) :
    DeserializeEntry w hdr off = Except.ok (readBE hdr off w, off + w) := by
  unfold DeserializeEntry readBE
  rw [if_neg (by omega)]
  have h2 : off + w - w = off := by omega
  rw [h2]

theorem deserializeEntry_err (w : Nat) (hdr : List Nat) (off : Nat)
    (h : off + w > hdr.length) :
    DeserializeEntry w hdr off = Except.error VolumeError.ParameterIncorrect := by
  unfold DeserializeEntry
  rw [if_pos (by omega)]

theorem deserializeEntryAt_ok (w : Nat) (hdr : List Nat) (off : Nat)
    (h : off ≤ hdr.length) :
    DeserializeEntryAt w hdr off = Except.ok (readBE hdr off w) := by
  unfold DeserializeEntryAt readBE
  rw [if_neg (by omega)]

theorem serializeEntry_ok (w v : Nat) (hdr : List Nat) (off : Nat)
    (h : off + w ≤ hdr.length) :
    SerializeEntry w v hdr off = Except.ok (setBytes hdr off (beBytes w v), off + w) := by
  unfold SerializeEntry
  rw [if_neg (by omega)]
  have h2 : off + w - w = off := by omega
  rw [h2]

/- ## Characterization of `Serialize` -/

theorem extract_zero_append (a b : List Nat) (n : Nat) (h : a.length ≤ n) :
    extract (a ++ b) 0 n = a ++ extract b 0 (n - a.length) := by
  unfold extract
  rw [List.drop_zero, List.drop_zero, List.take_append_eq_append_take,
    List.take_of_length_le h]

theorem serA0_length : serA0.length = 4 := rfl
theorem serA1_length : serA1.length = 6 := by
  simp [serA1, serA0_length, beBytes_length]
theorem serA2_length (h : VolumeHeader) : (serA2 h).length = 8 := by
  simp [serA2, serA1_length, beBytes_length]
theorem serA3_length (h : VolumeHeader) : (serA3 h).length = 12 := by
  simp [serA3, serA2_length, beBytes_length]
theorem serA4_length (h : VolumeHeader) : (serA4 h).length = 20 := by
  simp [serA4, serA3_length, beBytes_length]
theorem serA5_length (h : VolumeHeader) : (serA5 h).length = 28 := by
  simp [serA5, serA4_length, beBytes_length]
theorem serA6_length (h : VolumeHeader) : (serA6 h).length = 36 := by
  simp [serA6, serA5_length, beBytes_length]
theorem serA7_length (h : VolumeHeader) : (serA7 h).length = 44 := by
  simp [serA7, serA6_length, beBytes_length]
theorem serA8_length (h : VolumeHeader) : (serA8 h).length = 52 := by
  simp [serA8, serA7_length, beBytes_length]
theorem serA9_length (h : VolumeHeader) : (serA9 h).length = 60 := by
  simp [serA9, serA8_length, beBytes_length]
theorem serA10_length (h : VolumeHeader) : (serA10 h).length = 64 := by
  simp [serA10, serA9_length, beBytes_length]
theorem serA11_length (h : VolumeHeader) : (serA11 h).length = 68 := by
  simp [serA11, serA10_length, beBytes_length]

theorem serializedPre_eq (h : VolumeHeader) :
    serializedPre h = serA11 h ++ List.replicate 120 0 := by
  simp only [serializedPre, serA11, serA10, serA9, serA8, serA7, serA6, serA5, serA4,
    serA3, serA2, serA1, serA0, List.append_assoc]

theorem Serialize_char (h : VolumeHeader) (hE : h.EncryptedHeaderDataSize = 448)
    (hK : h.DataAreaKey.length ≤ 256) (hS : SectorValid h.SectorSize) :
    Serialize h = Except.ok (serializedForm h) := by
  obtain ⟨hs1, hs2, hs3⟩ := hS
  have hKA : (keyAreaOf h).length = 256 := keyAreaOf_length h hK
  have E0 : setBytes (List.replicate 448 (0 : Nat)) 0 veraMagic =
      veraMagic ++ List.replicate 444 0 := by
    rw [setBytes_zeros 448 veraMagic (by norm_num [veraMagic])]
    norm_num [veraMagic]
  have E1 : setBytes (veraMagic ++ List.replicate 444 (0 : Nat)) DataAreaKeyOffset
      h.DataAreaKey = serA0 ++ (List.replicate 188 0 ++ keyAreaOf h) := by
    rw [setBytes_append_zeros veraMagic h.DataAreaKey 444 DataAreaKeyOffset 188
      (by norm_num [veraMagic, DataAreaKeyOffset_eq]) (by omega)]
    have h444 : 444 - 188 - h.DataAreaKey.length = 256 - h.DataAreaKey.length := by
      omega
    rw [h444]
    simp [serA0, keyAreaOf, DataKeyAreaMaxSize_eq]
  have E2 : setBytes (serA0 ++ (List.replicate 188 (0 : Nat) ++ keyAreaOf h)) 4
      (beBytes 2 CurrentHeaderVersion) =
      serA1 ++ (List.replicate 186 0 ++ keyAreaOf h) := by
    rw [setBytes_step serA0 _ _ 188 4 0 (by simp [serA0_length]) (by simp [beBytes_length])]
    simp [serA1, beBytes_length]
  have E3 : setBytes (serA1 ++ (List.replicate 186 (0 : Nat) ++ keyAreaOf h)) (4 + 2)
      (beBytes 2 h.RequiredMinProgramVersion) =
      serA2 h ++ (List.replicate 184 0 ++ keyAreaOf h) := by
    rw [setBytes_step serA1 _ _ 186 (4 + 2) 0 (by simp [serA1_length]) (by simp [beBytes_length])]
    simp [serA2, beBytes_length]
  have X3 : extract (serA2 h ++ (List.replicate 184 (0 : Nat) ++ keyAreaOf h))
      DataAreaKeyOffset DataKeyAreaMaxSize = keyAreaOf h := by
    rw [DataAreaKeyOffset_eq, DataKeyAreaMaxSize_eq,
      extract_append_right _ _ _ _ (by rw [serA2_length]; omega), serA2_length,
      extract_append_right _ _ _ _ (by simp),
      List.length_replicate]
    norm_num
    exact extract_self _ _ hKA
  have E4 : setBytes (serA2 h ++ (List.replicate 184 (0 : Nat) ++ keyAreaOf h)) (4 + 2 + 2)
      (beBytes 4 (Crc32.ProcessBuffer (keyAreaOf h))) =
      serA3 h ++ (List.replicate 180 0 ++ keyAreaOf h) := by
    rw [setBytes_step (serA2 h) _ _ 184 (4 + 2 + 2) 0 (by simp [serA2_length]) (by simp [beBytes_length])]
    simp [serA3, beBytes_length]
  have E5 : setBytes (serA3 h ++ (List.replicate 180 (0 : Nat) ++ keyAreaOf h)) (4 + 2 + 2 + 4)
      (beBytes 8 0) = serA4 h ++ (List.replicate 172 0 ++ keyAreaOf h) := by
    rw [setBytes_step (serA3 h) _ _ 180 (4 + 2 + 2 + 4) 0 (by simp [serA3_length]) (by simp [beBytes_length])]
    simp [serA4, beBytes_length]
  have E6 : setBytes (serA4 h ++ (List.replicate 172 (0 : Nat) ++ keyAreaOf h)) (4 + 2 + 2 + 4 + 8)
      (beBytes 8 0) = serA5 h ++ (List.replicate 164 0 ++ keyAreaOf h) := by
    rw [setBytes_step (serA4 h) _ _ 172 (4 + 2 + 2 + 4 + 8) 0 (by simp [serA4_length]) (by simp [beBytes_length])]
    simp [serA5, beBytes_length]
  have E7 : setBytes (serA5 h ++ (List.replicate 164 (0 : Nat) ++ keyAreaOf h)) (4 + 2 + 2 + 4 + 8 + 8)
      (beBytes 8 h.HiddenVolumeDataSize) = serA6 h ++ (List.replicate 156 0 ++ keyAreaOf h) := by
    rw [setBytes_step (serA5 h) _ _ 164 (4 + 2 + 2 + 4 + 8 + 8) 0 (by simp [serA5_length]) (by simp [beBytes_length])]
    simp [serA6, beBytes_length]
  have E8 : setBytes (serA6 h ++ (List.replicate 156 (0 : Nat) ++ keyAreaOf h)) (4 + 2 + 2 + 4 + 8 + 8 + 8)
      (beBytes 8 h.VolumeDataSize) = serA7 h ++ (List.replicate 148 0 ++ keyAreaOf h) := by
    rw [setBytes_step (serA6 h) _ _ 156 (4 + 2 + 2 + 4 + 8 + 8 + 8) 0 (by simp [serA6_length]) (by simp [beBytes_length])]
    simp [serA7, beBytes_length]
  have E9 : setBytes (serA7 h ++ (List.replicate 148 (0 : Nat) ++ keyAreaOf h)) (4 + 2 + 2 + 4 + 8 + 8 + 8 + 8)
      (beBytes 8 h.EncryptedAreaStart) = serA8 h ++ (List.replicate 140 0 ++ keyAreaOf h) := by
    rw [setBytes_step (serA7 h) _ _ 148 (4 + 2 + 2 + 4 + 8 + 8 + 8 + 8) 0 (by simp [serA7_length]) (by simp [beBytes_length])]
    simp [serA8, beBytes_length]
  have E10 : setBytes (serA8 h ++ (List.replicate 140 (0 : Nat) ++ keyAreaOf h)) (4 + 2 + 2 + 4 + 8 + 8 + 8 + 8 + 8)
      (beBytes 8 h.EncryptedAreaLength) = serA9 h ++ (List.replicate 132 0 ++ keyAreaOf h) := by
    rw [setBytes_step (serA8 h) _ _ 140 (4 + 2 + 2 + 4 + 8 + 8 + 8 + 8 + 8) 0 (by simp [serA8_length]) (by simp [beBytes_length])]
    simp [serA9, beBytes_length]
  have E11 : setBytes (serA9 h ++ (List.replicate 132 (0 : Nat) ++ keyAreaOf h)) (4 + 2 + 2 + 4 + 8 + 8 + 8 + 8 + 8 + 8)
      (beBytes 4 h.Flags) = serA10 h ++ (List.replicate 128 0 ++ keyAreaOf h) := by
    rw [setBytes_step (serA9 h) _ _ 132 (4 + 2 + 2 + 4 + 8 + 8 + 8 + 8 + 8 + 8) 0 (by simp [serA9_length]) (by simp [beBytes_length])]
    simp [serA10, beBytes_length]
  have E12 : setBytes (serA10 h ++ (List.replicate 128 (0 : Nat) ++ keyAreaOf h)) (4 + 2 + 2 + 4 + 8 + 8 + 8 + 8 + 8 + 8 + 4)
      (beBytes 4 h.SectorSize) = serA11 h ++ (List.replicate 124 0 ++ keyAreaOf h) := by
    rw [setBytes_step (serA10 h) _ _ 128 (4 + 2 + 2 + 4 + 8 + 8 + 8 + 8 + 8 + 8 + 4) 0 (by simp [serA10_length]) (by simp [beBytes_length])]
    simp [serA11, beBytes_length]
  have X12 : extract (serA11 h ++ (List.replicate 124 (0 : Nat) ++ keyAreaOf h)) 0
      (TC_HEADER_OFFSET_HEADER_CRC - TC_HEADER_OFFSET_MAGIC) =
      serA11 h ++ List.replicate 120 0 := by
    rw [headerCrcOffset_eq, extract_zero_append _ _ _ (by rw [serA11_length]; omega),
      serA11_length, extract_append_left _ _ _ _ (by simp),
      extract_replicate 124 0 120 (by omega)]
  have E13 : setBytes (serA11 h ++ (List.replicate 124 (0 : Nat) ++ keyAreaOf h))
      (TC_HEADER_OFFSET_HEADER_CRC - TC_HEADER_OFFSET_MAGIC)
      (beBytes 4 (Crc32.ProcessBuffer (serA11 h ++ List.replicate 120 0))) =
      serializedForm h := by
    rw [headerCrcOffset_eq,
      setBytes_step (serA11 h) _ _ 124 188 120 (by rw [serA11_length]) (by simp [beBytes_length])]
    rw [serializedForm, serializedPre_eq h]
    simp [beBytes_length, List.append_assoc]
  have hlen2 : (serA0 ++ (List.replicate 188 (0:Nat) ++ keyAreaOf h)).length = 448 := by
    simp [serA0, veraMagic, hKA]
  have hlen3 : (serA1 ++ (List.replicate 186 (0:Nat) ++ keyAreaOf h)).length = 448 := by
    simp [serA1_length, hKA]
  have hlen4 : (serA2 h ++ (List.replicate 184 (0:Nat) ++ keyAreaOf h)).length = 448 := by
    simp [serA2_length, hKA]
  have hlen5 : (serA3 h ++ (List.replicate 180 (0:Nat) ++ keyAreaOf h)).length = 448 := by
    simp [serA3_length, hKA]
  have hlen6 : (serA4 h ++ (List.replicate 172 (0:Nat) ++ keyAreaOf h)).length = 448 := by
    simp [serA4_length, hKA]
  have hlen7 : (serA5 h ++ (List.replicate 164 (0:Nat) ++ keyAreaOf h)).length = 448 := by
    simp [serA5_length, hKA]
  have hlen8 : (serA6 h ++ (List.replicate 156 (0:Nat) ++ keyAreaOf h)).length = 448 := by
    simp [serA6_length, hKA]
  have hlen9 : (serA7 h ++ (List.replicate 148 (0:Nat) ++ keyAreaOf h)).length = 448 := by
    simp [serA7_length, hKA]
  have hlen10 : (serA8 h ++ (List.replicate 140 (0:Nat) ++ keyAreaOf h)).length = 448 := by
    simp [serA8_length, hKA]
  have hlen11 : (serA9 h ++ (List.replicate 132 (0:Nat) ++ keyAreaOf h)).length = 448 := by
    simp [serA9_length, hKA]
  have hlen12 : (serA10 h ++ (List.replicate 128 (0:Nat) ++ keyAreaOf h)).length = 448 := by
    simp [serA10_length, hKA]
  have hlen13 : (serA11 h ++ (List.replicate 124 (0:Nat) ++ keyAreaOf h)).length = 448 := by
    simp [serA11_length, hKA]
  simp only [Serialize, hE]
  rw [E0]
  rw [if_neg (by
    rw [DataAreaKeyOffset_eq]
    simp only [List.length_append, List.length_replicate, veraMagic,
      List.length_cons, List.length_nil]
    omega)]
  rw [E1]
  rw [serializeEntry_ok 2 CurrentHeaderVersion _ 4 (by rw [hlen2]; omega)]
  dsimp only
  rw [E2]
  rw [serializeEntry_ok 2 h.RequiredMinProgramVersion _ (4 + 2) (by rw [hlen3]; omega)]
  dsimp only
  rw [E3, X3]
  rw [serializeEntry_ok 4 (Crc32.ProcessBuffer (keyAreaOf h)) _ (4 + 2 + 2)
    (by rw [hlen4]; omega)]
  dsimp only
  rw [E4]
  rw [serializeEntry_ok 8 0 _ (4 + 2 + 2 + 4) (by rw [hlen5]; omega)]
  dsimp only
  rw [E5]
  rw [serializeEntry_ok 8 0 _ (4 + 2 + 2 + 4 + 8) (by rw [hlen6]; omega)]
  dsimp only
  rw [E6]
  rw [serializeEntry_ok 8 h.HiddenVolumeDataSize _ (4 + 2 + 2 + 4 + 8 + 8)
    (by rw [hlen7]; omega)]
  dsimp only
  rw [E7]
  rw [serializeEntry_ok 8 h.VolumeDataSize _ (4 + 2 + 2 + 4 + 8 + 8 + 8)
    (by rw [hlen8]; omega)]
  dsimp only
  rw [E8]
  rw [serializeEntry_ok 8 h.EncryptedAreaStart _ (4 + 2 + 2 + 4 + 8 + 8 + 8 + 8)
    (by rw [hlen9]; omega)]
  dsimp only
  rw [E9]
  rw [serializeEntry_ok 8 h.EncryptedAreaLength _ (4 + 2 + 2 + 4 + 8 + 8 + 8 + 8 + 8)
    (by rw [hlen10]; omega)]
  dsimp only
  rw [E10]
  rw [serializeEntry_ok 4 h.Flags _ (4 + 2 + 2 + 4 + 8 + 8 + 8 + 8 + 8 + 8)
    (by rw [hlen11]; omega)]
  dsimp only
  rw [E11]
  rw [if_neg (by push_neg; omega)]
  rw [serializeEntry_ok 4 h.SectorSize _ (4 + 2 + 2 + 4 + 8 + 8 + 8 + 8 + 8 + 8 + 4)
    (by rw [hlen12]; omega)]
  dsimp only
  rw [E12, X12]
  rw [serializeEntry_ok 4 (Crc32.ProcessBuffer (serA11 h ++ List.replicate 120 0)) _
    (TC_HEADER_OFFSET_HEADER_CRC - TC_HEADER_OFFSET_MAGIC)
    (by rw [hlen13, headerCrcOffset_eq]; omega)]
  dsimp only
  rw [E13]

/- ## Characterization of `EncryptNew` and `Encrypt` -/

theorem EncryptNew_char (h : VolumeHeader) (kea : KeyedEA)
    (salt hk data : List Nat) (kdfO : Option Pkcs5Kdf)
    (hEA : h.EA = some kea) (hsalt : salt.length = 64)
    (hser : Serialize h = Except.ok data) :
    EncryptNew h salt hk kdfO =
      Except.ok
        (salt ++
          kea.alg.encryptOp kea.mode.mode
            (if kea.mode.mode.isXTS then extract hk 0 kea.alg.keySize
             else extract hk LegacyEncryptionModeKeyAreaSize kea.alg.keySize)
            (if kea.mode.mode.isXTS then extract hk kea.alg.keySize kea.alg.keySize
             else extract hk 0 kea.mode.mode.keySize)
            data,
         match kdfO with
         | some kdf => { h with Pkcs5 := some kdf }
         | none => h) := by
  unfold EncryptNew
  rw [if_neg (by simp [hsalt, SaltSize_eq]), hEA]
  dsimp only
  rw [hser]
  by_cases hX : kea.mode.mode.isXTS
  · simp only [hX, if_true]
  · simp only [hX, if_false, Bool.false_eq_true]

theorem Encrypt_char (h : VolumeHeader) (kea : KeyedEA) (data : List Nat)
    (hEA : h.EA = some kea) (hser : Serialize h = Except.ok data) :
    Encrypt h =
      Except.ok
        (h.Salt ++
          kea.alg.encryptOp kea.mode.mode
            (if kea.mode.mode.isXTS then extract h.HeaderKey 0 kea.alg.keySize
             else extract h.HeaderKey LegacyEncryptionModeKeyAreaSize kea.alg.keySize)
            (if kea.mode.mode.isXTS then
               extract h.HeaderKey kea.alg.keySize kea.alg.keySize
             else extract h.HeaderKey 0 kea.mode.mode.keySize)
            data) := by
  unfold Encrypt
  rw [hEA]
  dsimp only
  rw [hser]
  by_cases hX : kea.mode.mode.isXTS
  · simp only [hX, if_true]
  · simp only [hX, if_false, Bool.false_eq_true]

/- ## Characterization of `Deserialize` -/

theorem MinAllowedHeaderVersion_eq : MinAllowedHeaderVersion = 4 := rfl
theorem CurrentHeaderVersion_eq : CurrentHeaderVersion = 5 := rfl
theorem VersionNumber_eq : VersionNumber = 294 := rfl

theorem Deserialize_char (h : VolumeHeader) (buf : List Nat)
    (ea : EncryptionAlgorithm) (m : EncryptionMode)
    (hlen : buf.length = 448) (hE : h.EncryptedHeaderDataSize = 448)
    (hmagic : extract buf 0 4 = veraMagic)
    (hv1 : MinAllowedHeaderVersion ≤ wireVersion buf)
    (hv2 : wireVersion buf ≤ CurrentHeaderVersion)
    (hcrc : HeaderCrcOk buf)
    (hrmpv : wireMinVersion buf ≤ VersionNumber) :
    Deserialize h buf ea m false =
      if effSector buf < TC_MIN_VOLUME_SECTOR_SIZE
          ∨ effSector buf > TC_MAX_VOLUME_SECTOR_SIZE
          ∨ effSector buf % ENCRYPTION_DATA_UNIT_SIZE ≠ 0 then
        (stateAfterFields h buf, Except.error VolumeError.ParameterIncorrect)
      else if wireKeyCrc buf ≠
          Crc32.ProcessBuffer (extract buf DataAreaKeyOffset DataKeyAreaMaxSize) then
        (stateAfterFields h buf, Except.ok none)
      else
        ({ stateAfterFields h buf with
            DataAreaKey := extract buf DataAreaKeyOffset DataKeyAreaMaxSize },
          Except.ok (some (keyedOf buf ea m))) := by
  simp only [wireVersion, readBE] at hv1 hv2
  rw [MinAllowedHeaderVersion_eq] at hv1
  rw [CurrentHeaderVersion_eq] at hv2
  simp only [wireMinVersion, readBE] at hrmpv
  rw [VersionNumber_eq] at hrmpv
  simp only [HeaderCrcOk, readBE] at hcrc
  simp only [Deserialize, deserializeVersionTail, deserializeFields,
    deserializeSector, deserializeKeyArea]
  rw [if_neg (by simp [hlen, hE])]
  rw [if_neg (by simp)]
  rw [if_neg (by simp [hmagic])]
  rw [deserializeEntry_ok 2 buf 4 (by omega)]
  dsimp only
  rw [if_neg (by simp only [readBE, MinAllowedHeaderVersion_eq]; omega)]
  rw [if_neg (by simp only [readBE, CurrentHeaderVersion_eq]; omega)]
  rw [if_pos (by simp only [readBE]; omega)]
  rw [headerCrcOffset_eq]
  rw [deserializeEntryAt_ok 4 buf 188 (by omega)]
  dsimp only [Except.map]
  have hdec : decide (Crc32.ProcessBuffer (extract buf 0 188) ≠ readBE buf 188 4) = false := by
    simp only [readBE, hcrc]
    simp
  rw [hdec]
  rw [if_neg Bool.false_ne_true]
  rw [deserializeEntry_ok 2 buf (4 + 2) (by omega)]
  dsimp only
  rw [(by norm_num : (4:Nat) + 2 = 6)]
  rw [if_neg (by simp only [readBE, VersionNumber_eq]; simp; omega)]
  rw [if_neg (by simp)]
  rw [if_neg (by simp)]
  rw [(by norm_num : (6:Nat) + 2 = 8)]
  rw [deserializeEntry_ok 4 buf 8 (by omega)]
  dsimp only
  rw [(by norm_num : (8:Nat) + 4 = 12)]
  rw [deserializeEntry_ok 8 buf 12 (by omega)]
  dsimp only
  rw [(by norm_num : (12:Nat) + 8 = 20)]
  rw [deserializeEntry_ok 8 buf 20 (by omega)]
  dsimp only
  rw [(by norm_num : (20:Nat) + 8 = 28)]
  rw [deserializeEntry_ok 8 buf 28 (by omega)]
  dsimp only
  rw [(by norm_num : (28:Nat) + 8 = 36)]
  rw [deserializeEntry_ok 8 buf 36 (by omega)]
  dsimp only
  rw [(by norm_num : (36:Nat) + 8 = 44)]
  rw [deserializeEntry_ok 8 buf 44 (by omega)]
  dsimp only
  rw [(by norm_num : (44:Nat) + 8 = 52)]
  rw [deserializeEntry_ok 8 buf 52 (by omega)]
  dsimp only
  rw [(by norm_num : (52:Nat) + 8 = 60)]
  rw [deserializeEntry_ok 4 buf 60 (by omega)]
  dsimp only
  rw [(by norm_num : (60:Nat) + 4 = 64)]
  rw [deserializeEntry_ok 4 buf 64 (by omega)]
  dsimp only
  simp only [stateAfterFields, effSector, wireVersion, wireMinVersion, wireKeyCrc,
    keyedOf, readBE]
  by_cases hv5 : beRead (extract buf 4 2) < 5
  · rw [if_pos hv5, if_pos hv5]
  · rw [if_neg hv5, if_neg hv5]

theorem Deserialize_lenMismatch (h : VolumeHeader) (buf : List Nat)
    (ea : EncryptionAlgorithm) (m : EncryptionMode) (tc : Bool)
    (hlen : buf.length ≠ h.EncryptedHeaderDataSize) :
    Deserialize h buf ea m tc = (h, Except.error VolumeError.ParameterIncorrect) := by
  simp only [Deserialize, deserializeVersionTail, deserializeFields,
    deserializeSector, deserializeKeyArea]
  rw [if_pos hlen]

theorem Deserialize_magicFail (h : VolumeHeader) (buf : List Nat)
    (ea : EncryptionAlgorithm) (m : EncryptionMode)
    (hlen : buf.length = h.EncryptedHeaderDataSize)
    (hmagic : extract buf 0 4 ≠ veraMagic) :
    Deserialize h buf ea m false = (h, Except.ok none) := by
  simp only [Deserialize, deserializeVersionTail, deserializeFields,
    deserializeSector, deserializeKeyArea]
  rw [if_neg (by simp [hlen])]
  rw [if_neg (by simp)]
  rw [if_pos (by simp [hmagic])]

theorem Deserialize_versionLow (h : VolumeHeader) (buf : List Nat)
    (ea : EncryptionAlgorithm) (m : EncryptionMode)
    (hlen : buf.length = 448) (hE : h.EncryptedHeaderDataSize = 448)
    (hmagic : extract buf 0 4 = veraMagic)
    (hv : wireVersion buf < MinAllowedHeaderVersion) :
    Deserialize h buf ea m false =
      ({ h with HeaderVersion := wireVersion buf }, Except.ok none) := by
  simp only [wireVersion, readBE] at hv ⊢
  simp only [Deserialize, deserializeVersionTail, deserializeFields,
    deserializeSector, deserializeKeyArea]
  rw [if_neg (by simp [hlen, hE])]
  rw [if_neg (by simp)]
  rw [if_neg (by simp [hmagic])]
  rw [deserializeEntry_ok 2 buf 4 (by omega)]
  dsimp only
  rw [if_pos (by simp only [readBE]; exact hv)]
  simp only [readBE]

theorem Deserialize_versionHigh (h : VolumeHeader) (buf : List Nat)
    (ea : EncryptionAlgorithm) (m : EncryptionMode)
    (hlen : buf.length = 448) (hE : h.EncryptedHeaderDataSize = 448)
    (hmagic : extract buf 0 4 = veraMagic)
    (hv : wireVersion buf > CurrentHeaderVersion) :
    Deserialize h buf ea m false =
      ({ h with HeaderVersion := wireVersion buf },
        Except.error VolumeError.HigherVersionRequired) := by
  simp only [wireVersion, readBE] at hv ⊢
  rw [CurrentHeaderVersion_eq] at hv
  simp only [Deserialize, deserializeVersionTail, deserializeFields,
    deserializeSector, deserializeKeyArea]
  rw [if_neg (by simp [hlen, hE])]
  rw [if_neg (by simp)]
  rw [if_neg (by simp [hmagic])]
  rw [deserializeEntry_ok 2 buf 4 (by omega)]
  dsimp only
  rw [if_neg (by simp only [readBE, MinAllowedHeaderVersion_eq]; omega)]
  rw [if_pos (by simp only [readBE, CurrentHeaderVersion_eq]; omega)]
  simp only [readBE]

theorem Deserialize_hdrCrcFail (h : VolumeHeader) (buf : List Nat)
    (ea : EncryptionAlgorithm) (m : EncryptionMode)
    (hlen : buf.length = 448) (hE : h.EncryptedHeaderDataSize = 448)
    (hmagic : extract buf 0 4 = veraMagic)
    (hv1 : MinAllowedHeaderVersion ≤ wireVersion buf)
    (hv2 : wireVersion buf ≤ CurrentHeaderVersion)
    (hcrc : ¬ HeaderCrcOk buf) :
    Deserialize h buf ea m false =
      ({ h with HeaderVersion := wireVersion buf }, Except.ok none) := by
  simp only [wireVersion, readBE] at hv1 hv2 ⊢
  rw [MinAllowedHeaderVersion_eq] at hv1
  rw [CurrentHeaderVersion_eq] at hv2
  simp only [HeaderCrcOk, readBE] at hcrc
  simp only [Deserialize, deserializeVersionTail, deserializeFields,
    deserializeSector, deserializeKeyArea]
  rw [if_neg (by simp [hlen, hE])]
  rw [if_neg (by simp)]
  rw [if_neg (by simp [hmagic])]
  rw [deserializeEntry_ok 2 buf 4 (by omega)]
  dsimp only
  rw [if_neg (by simp only [readBE, MinAllowedHeaderVersion_eq]; omega)]
  rw [if_neg (by simp only [readBE, CurrentHeaderVersion_eq]; omega)]
  rw [if_pos (by simp only [readBE]; omega)]
  rw [headerCrcOffset_eq]
  rw [deserializeEntryAt_ok 4 buf 188 (by omega)]
  dsimp only [Except.map]
  have hdec : decide (Crc32.ProcessBuffer (extract buf 0 188) ≠ readBE buf 188 4) = true := by
    simp only [readBE]
    simp only [decide_eq_true_eq]
    exact hcrc
  rw [hdec]
  rw [if_pos rfl]
  simp only [readBE]

theorem Deserialize_rmpvHigh (h : VolumeHeader) (buf : List Nat)
    (ea : EncryptionAlgorithm) (m : EncryptionMode)
    (hlen : buf.length = 448) (hE : h.EncryptedHeaderDataSize = 448)
    (hmagic : extract buf 0 4 = veraMagic)
    (hv1 : MinAllowedHeaderVersion ≤ wireVersion buf)
    (hv2 : wireVersion buf ≤ CurrentHeaderVersion)
    (hcrc : HeaderCrcOk buf)
    (hrmpv : wireMinVersion buf > VersionNumber) :
    Deserialize h buf ea m false =
      ({ h with
          HeaderVersion := wireVersion buf
          RequiredMinProgramVersion := wireMinVersion buf },
        Except.error VolumeError.HigherVersionRequired) := by
  simp only [wireVersion, wireMinVersion, readBE] at hv1 hv2 hrmpv ⊢
  rw [MinAllowedHeaderVersion_eq] at hv1
  rw [CurrentHeaderVersion_eq] at hv2
  rw [VersionNumber_eq] at hrmpv
  simp only [HeaderCrcOk, readBE] at hcrc
  simp only [Deserialize, deserializeVersionTail, deserializeFields,
    deserializeSector, deserializeKeyArea]
  rw [if_neg (by simp [hlen, hE])]
  rw [if_neg (by simp)]
  rw [if_neg (by simp [hmagic])]
  rw [deserializeEntry_ok 2 buf 4 (by omega)]
  dsimp only
  rw [if_neg (by simp only [readBE, MinAllowedHeaderVersion_eq]; omega)]
  rw [if_neg (by simp only [readBE, CurrentHeaderVersion_eq]; omega)]
  rw [if_pos (by simp only [readBE]; omega)]
  rw [headerCrcOffset_eq]
  rw [deserializeEntryAt_ok 4 buf 188 (by omega)]
  dsimp only [Except.map]
  have hdec : decide (Crc32.ProcessBuffer (extract buf 0 188) ≠ readBE buf 188 4) = false := by
    simp only [readBE, hcrc]
    simp
  rw [hdec]
  rw [if_neg Bool.false_ne_true]
  rw [deserializeEntry_ok 2 buf (4 + 2) (by omega)]
  dsimp only
  rw [(by norm_num : (4:Nat) + 2 = 6)]
  rw [if_pos (by simp only [readBE, VersionNumber_eq]; simp; omega)]
  simp only [readBE]


/- ## Frame of `Deserialize` -/

theorem keyArea_frame (h : VolumeHeader) (header : List Nat)
    (ea : EncryptionAlgorithm) (mode : EncryptionMode)
    (st : VolumeHeader) (r : Except VolumeError (Option KeyedEA))
    (hD : deserializeKeyArea h header ea mode = (st, r)) :
    DeserializeFrame h st r := by
  unfold DeserializeFrame
  simp only [deserializeKeyArea] at hD
  repeat' split at hD
  all_goals
    injection hD with h1 h2
    subst h1
    subst h2
    refine ⟨rfl, rfl, rfl, rfl, rfl, fun hx => ?_⟩
  all_goals first | rfl | simp at hx

theorem sector_frame (h : VolumeHeader) (header : List Nat)
    (ea : EncryptionAlgorithm) (mode : EncryptionMode)
    (st : VolumeHeader) (r : Except VolumeError (Option KeyedEA))
    (hD : deserializeSector h header ea mode = (st, r)) :
    DeserializeFrame h st r := by
  simp only [deserializeSector] at hD
  repeat' split at hD
  all_goals first
    | (have hh := keyArea_frame _ _ _ _ st r hD
       exact hh)
    | (injection hD with h1 h2
       subst h1
       subst h2
       exact ⟨rfl, rfl, rfl, rfl, rfl, fun hx => rfl⟩)

theorem fields_frame (h : VolumeHeader) (header : List Nat)
    (ea : EncryptionAlgorithm) (mode : EncryptionMode) (offset2 : Nat)
    (st : VolumeHeader) (r : Except VolumeError (Option KeyedEA))
    (hD : deserializeFields h header ea mode offset2 = (st, r)) :
    DeserializeFrame h st r := by
  simp only [deserializeFields] at hD
  repeat' split at hD
  all_goals first
    | (have hh := sector_frame _ _ _ _ st r hD
       exact hh)
    | (injection hD with h1 h2
       subst h1
       subst h2
       exact ⟨rfl, rfl, rfl, rfl, rfl, fun hx => rfl⟩)

theorem versionTail_frame (h : VolumeHeader) (header : List Nat)
    (ea : EncryptionAlgorithm) (mode : EncryptionMode) (tc : Bool) (offset1 : Nat)
    (st : VolumeHeader) (r : Except VolumeError (Option KeyedEA))
    (hD : deserializeVersionTail h header ea mode tc offset1 = (st, r)) :
    DeserializeFrame h st r := by
  simp only [deserializeVersionTail] at hD
  repeat' split at hD
  all_goals first
    | (have hh := fields_frame _ _ _ _ _ st r hD
       exact hh)
    | (injection hD with h1 h2
       subst h1
       subst h2
       exact ⟨rfl, rfl, rfl, rfl, rfl, fun hx => rfl⟩)

theorem Deserialize_frame (h : VolumeHeader) (header : List Nat)
    (ea : EncryptionAlgorithm) (mode : EncryptionMode) (tc : Bool)
    (st : VolumeHeader) (r : Except VolumeError (Option KeyedEA))
    (hD : Deserialize h header ea mode tc = (st, r)) :
    DeserializeFrame h st r := by
  simp only [Deserialize] at hD
  repeat' split at hD
  all_goals first
    | (have hh := versionTail_frame _ _ _ _ _ _ st r hD
       exact hh)
    | (injection hD with h1 h2
       subst h1
       subst h2
       exact ⟨rfl, rfl, rfl, rfl, rfl, fun hx => rfl⟩)


/- ## Trial-candidate conditions and the search loops -/


theorem sectorValid_not (s : Nat) (hs : SectorValid s) :
    ¬(s < TC_MIN_VOLUME_SECTOR_SIZE ∨ s > TC_MAX_VOLUME_SECTOR_SIZE
      ∨ s % ENCRYPTION_DATA_UNIT_SIZE ≠ 0) := by
  obtain ⟨h1, h2, h3⟩ := hs
  push_neg
  exact ⟨h1, h2, h3⟩

theorem FalseTrial_deserialize (h : VolumeHeader) (buf : List Nat)
    (ea : EncryptionAlgorithm) (m : EncryptionMode)
    (hE : h.EncryptedHeaderDataSize = 448) (hf : FalseTrial buf) :
    (Deserialize h buf ea m false).2 = Except.ok none := by
  obtain ⟨hlen, hcase⟩ := hf
  by_cases hm : extract buf 0 4 = veraMagic
  · rcases hcase with hmagic | hv | ⟨hv1, hv2, hcrc⟩ | ⟨hv1, hv2, hcrc, hrmpv, hsec, hkey⟩
    · exact absurd hm hmagic
    · rw [Deserialize_versionLow h buf ea m hlen hE hm hv]
    · rw [Deserialize_hdrCrcFail h buf ea m hlen hE hm hv1 hv2 hcrc]
    · rw [Deserialize_char h buf ea m hlen hE hm hv1 hv2 hcrc hrmpv]
      rw [if_neg (sectorValid_not _ hsec)]
      rw [if_pos (by unfold KeyCrcOk at hkey; exact hkey)]
  · rw [Deserialize_magicFail h buf ea m (by rw [hlen, hE]) hm]

theorem TrueTrial_deserialize (h : VolumeHeader) (buf : List Nat)
    (ea : EncryptionAlgorithm) (m : EncryptionMode)
    (hE : h.EncryptedHeaderDataSize = 448) (ht : TrueTrial buf) :
    Deserialize h buf ea m false =
      ({ stateAfterFields h buf with
          DataAreaKey := extract buf DataAreaKeyOffset DataKeyAreaMaxSize },
        Except.ok (some (keyedOf buf ea m))) := by
  obtain ⟨hlen, hm, hv1, hv2, hcrc, hrmpv, hsec, hkey⟩ := ht
  rw [Deserialize_char h buf ea m hlen hE hm hv1 hv2 hcrc hrmpv]
  rw [if_neg (sectorValid_not _ hsec)]
  rw [if_neg (by unfold KeyCrcOk at hkey; simpa using hkey)]



theorem decryptAlgos_allFail (enc hk : List Nat) (p : Pkcs5Kdf) (km : KeyedMode)
    (es : List EncryptionAlgorithm) :
    ∀ h : VolumeHeader, h.EncryptedHeaderDataSize = 448 →
    (∀ e ∈ es, e.isModeSupported km.mode = true →
      FalseTrial (trialPlain enc 448 hk km e)) →
    ∃ st, decryptAlgos h enc hk false p km es =
        (st, Except.ok false, supAlgos km.mode es)
      ∧ SearchFrame h st := by
  induction es with
  | nil =>
    intro h hE hall
    exact ⟨h, by simp [decryptAlgos, supAlgos], rfl, rfl, rfl, rfl, rfl⟩
  | cons e rest ih =>
    intro h hE hall
    by_cases hs : e.isModeSupported km.mode = true
    · rcases hD : Deserialize h (trialPlain enc 448 hk km e) e km.mode false
        with ⟨st1, r1⟩
      have hr1 : r1 = Except.ok none := by
        have hh := FalseTrial_deserialize h (trialPlain enc 448 hk km e) e km.mode hE
          (hall e (by simp) hs)
        rw [hD] at hh
        exact hh
      subst hr1
      obtain ⟨hSalt, hEH, hEA, hP, hHK, hDAK⟩ :=
        Deserialize_frame h _ e km.mode false st1 _ hD
      obtain ⟨st2, heq, a1, a2, a3, a4, a5⟩ :=
        ih st1 (by rw [hEH, hE]) (fun e' he' hs' => hall e' (by simp [he']) hs')
      have hsup : supAlgos km.mode (e :: rest) = supAlgos km.mode rest + 1 := by
        simp [supAlgos, List.filter_cons, hs]
      refine ⟨st2, ?_, a1.trans hEH, a2.trans hEA, a3.trans hP,
        a4.trans (hDAK rfl), a5.trans hSalt⟩
      simp only [decryptAlgos]
      rw [if_neg (by simp [hs])]
      rw [hE, hD]
      dsimp only
      rw [heq, hsup]
    · have hsup : supAlgos km.mode (e :: rest) = supAlgos km.mode rest := by
        simp [supAlgos, List.filter_cons, hs]
      obtain ⟨st2, heq, hfr⟩ :=
        ih h hE (fun e' he' hs' => hall e' (by simp [he']) hs')
      refine ⟨st2, ?_, hfr⟩
      simp only [decryptAlgos]
      rw [if_pos (by simp [hs])]
      rw [heq, hsup]



theorem kmOf_mode (hk : List Nat) (m : EncryptionMode) : (kmOf hk m).mode = m := by
  unfold kmOf
  split <;> rfl

theorem decryptModes_allFail (enc hk : List Nat) (p : Pkcs5Kdf)
    (es : List EncryptionAlgorithm) (ms : List EncryptionMode) :
    ∀ h : VolumeHeader, h.EncryptedHeaderDataSize = 448 →
    (∀ m ∈ ms, ∀ e ∈ es, e.isModeSupported m = true →
      FalseTrial (trialPlain enc 448 hk (kmOf hk m) e)) →
    ∃ st, decryptModes h enc hk false p es ms =
        (st, Except.ok false, supPairs ms es)
      ∧ SearchFrame h st := by
  induction ms with
  | nil =>
    intro h hE hall
    exact ⟨h, by simp [decryptModes, supPairs], rfl, rfl, rfl, rfl, rfl⟩
  | cons m rest ih =>
    intro h hE hall
    obtain ⟨st1, heq1, a1, a2, a3, a4, a5⟩ :=
      decryptAlgos_allFail enc hk p (kmOf hk m) es h hE
        (fun e he hs => hall m (by simp) e he (by rwa [kmOf_mode] at hs))
    obtain ⟨st2, heq2, b1, b2, b3, b4, b5⟩ :=
      ih st1 (by rw [a1, hE]) (fun m' hm' e he hs => hall m' (by simp [hm']) e he hs)
    have hsup : supPairs (m :: rest) es = supAlgos m es + supPairs rest es := by
      simp [supPairs]
    refine ⟨st2, ?_, b1.trans a1, b2.trans a2, b3.trans a3, b4.trans a4, b5.trans a5⟩
    simp only [decryptModes]
    rw [kmOf_mode] at heq1
    rw [heq1]
    dsimp only
    rw [heq2, hsup]

theorem decryptKdfs_allFail_none (enc pw : List Nat) (pim : Int) (salt : List Nat)
    (es : List EncryptionAlgorithm) (ms : List EncryptionMode)
    (ks : List Pkcs5Kdf) :
    ∀ h : VolumeHeader, h.EncryptedHeaderDataSize = 448 →
    (∀ p ∈ ks, ∀ m ∈ ms, ∀ e ∈ es, e.isModeSupported m = true →
      FalseTrial (trialPlain enc 448
        (p.deriveKey GetLargestSerializedKeySize pw pim salt)
        (kmOf (p.deriveKey GetLargestSerializedKeySize pw pim salt) m) e)) →
    ∃ st, decryptKdfs h enc pw pim none false salt es ms ks =
        (st, Except.ok false, ks.length, ks.length * supPairs ms es)
      ∧ SearchFrame h st := by
  induction ks with
  | nil =>
    intro h hE hall
    exact ⟨h, by simp [decryptKdfs], rfl, rfl, rfl, rfl, rfl⟩
  | cons p rest ih =>
    intro h hE hall
    obtain ⟨st1, heq1, a1, a2, a3, a4, a5⟩ :=
      decryptModes_allFail enc (p.deriveKey GetLargestSerializedKeySize pw pim salt)
        p es ms h hE (fun m hm e he hs => hall p (by simp) m hm e he hs)
    obtain ⟨st2, heq2, b1, b2, b3, b4, b5⟩ :=
      ih st1 (by rw [a1, hE]) (fun p' hp' => hall p' (by simp [hp']))
    refine ⟨st2, ?_, b1.trans a1, b2.trans a2, b3.trans a3, b4.trans a4, b5.trans a5⟩
    simp only [decryptKdfs]
    rw [if_neg (by simp)]
    rw [heq1]
    dsimp only
    rw [heq2]
    have harith : supPairs ms es + rest.length * supPairs ms es =
        (rest.length + 1) * supPairs ms es := by ring
    rw [harith]
    simp [List.length_cons]

theorem decryptKdfs_allFail_any (enc pw : List Nat) (pim : Int)
    (kdfOpt : Option Pkcs5Kdf) (salt : List Nat)
    (es : List EncryptionAlgorithm) (ms : List EncryptionMode)
    (ks : List Pkcs5Kdf) :
    ∀ h : VolumeHeader, h.EncryptedHeaderDataSize = 448 →
    (∀ p ∈ ks, ∀ m ∈ ms, ∀ e ∈ es, e.isModeSupported m = true →
      FalseTrial (trialPlain enc 448
        (p.deriveKey GetLargestSerializedKeySize pw pim salt)
        (kmOf (p.deriveKey GetLargestSerializedKeySize pw pim salt) m) e)) →
    ∃ st d n, decryptKdfs h enc pw pim kdfOpt false salt es ms ks =
        (st, Except.ok false, d, n)
      ∧ SearchFrame h st := by
  induction ks with
  | nil =>
    intro h hE hall
    exact ⟨h, 0, 0, by simp [decryptKdfs], rfl, rfl, rfl, rfl, rfl⟩
  | cons p rest ih =>
    intro h hE hall
    rcases kdfOpt with _ | preferred
    · obtain ⟨st1, heq1, a1, a2, a3, a4, a5⟩ :=
        decryptModes_allFail enc (p.deriveKey GetLargestSerializedKeySize pw pim salt)
          p es ms h hE (fun m hm e he hs => hall p (by simp) m hm e he hs)
      obtain ⟨st2, d, n, heq2, b1, b2, b3, b4, b5⟩ :=
        ih st1 (by rw [a1, hE]) (fun p' hp' => hall p' (by simp [hp']))
      refine ⟨st2, d + 1, supPairs ms es + n, ?_,
        b1.trans a1, b2.trans a2, b3.trans a3, b4.trans a4, b5.trans a5⟩
      simp only [decryptKdfs]
      rw [if_neg Bool.false_ne_true]
      rw [heq1]
      dsimp only
      rw [heq2]
    · by_cases hb : preferred.name = p.name
      · obtain ⟨st1, heq1, a1, a2, a3, a4, a5⟩ :=
          decryptModes_allFail enc (p.deriveKey GetLargestSerializedKeySize pw pim salt)
            p es ms h hE (fun m hm e he hs => hall p (by simp) m hm e he hs)
        obtain ⟨st2, d, n, heq2, b1, b2, b3, b4, b5⟩ :=
          ih st1 (by rw [a1, hE]) (fun p' hp' => hall p' (by simp [hp']))
        refine ⟨st2, d + 1, supPairs ms es + n, ?_,
          b1.trans a1, b2.trans a2, b3.trans a3, b4.trans a4, b5.trans a5⟩
        simp only [decryptKdfs]
        rw [if_neg (by simp [hb])]
        rw [heq1]
        dsimp only
        rw [heq2]
      · obtain ⟨st2, d, n, heq2, hfr⟩ :=
          ih h hE (fun p' hp' => hall p' (by simp [hp']))
        refine ⟨st2, d, n, ?_, hfr⟩
        simp only [decryptKdfs]
        rw [if_pos (by simp [hb])]
        exact heq2



theorem decryptAlgos_success (enc hk : List Nat) (p : Pkcs5Kdf) (km : KeyedMode)
    (e : EncryptionAlgorithm) (es2 : List EncryptionAlgorithm)
    (es1 : List EncryptionAlgorithm) :
    ∀ h : VolumeHeader, h.EncryptedHeaderDataSize = 448 →
    (∀ e' ∈ es1, e'.isModeSupported km.mode = true →
      FalseTrial (trialPlain enc 448 hk km e')) →
    e.isModeSupported km.mode = true →
    TrueTrial (trialPlain enc 448 hk km e) →
    ∃ st, decryptAlgos h enc hk false p km (es1 ++ e :: es2) =
        (st, Except.ok true, supAlgos km.mode es1 + 1) := by
  induction es1 with
  | nil =>
    intro h hE _ hsup hsucc
    refine ⟨?_, ?_⟩
    · exact { ({ stateAfterFields h (trialPlain enc 448 hk km e) with
          DataAreaKey := extract (trialPlain enc 448 hk km e)
            DataAreaKeyOffset DataKeyAreaMaxSize }) with
        HeaderKey := hk
        EA := some (keyedOf (trialPlain enc 448 hk km e) e km.mode)
        Pkcs5 := some p }
    · show decryptAlgos h enc hk false p km (e :: es2) = _
      simp only [decryptAlgos]
      rw [if_neg (by simp [hsup])]
      rw [hE, TrueTrial_deserialize h _ e km.mode hE hsucc]
      dsimp only
      simp [supAlgos]
  | cons e1 rest ih =>
    intro h hE hfail hsup hsucc
    by_cases hs : e1.isModeSupported km.mode = true
    · rcases hD : Deserialize h (trialPlain enc 448 hk km e1) e1 km.mode false
        with ⟨st1, r1⟩
      have hr1 : r1 = Except.ok none := by
        have hh := FalseTrial_deserialize h (trialPlain enc 448 hk km e1) e1 km.mode hE
          (hfail e1 (by simp) hs)
        rw [hD] at hh
        exact hh
      subst hr1
      obtain ⟨hSalt, hEH, hEA, hP, hHK, hDAK⟩ :=
        Deserialize_frame h _ e1 km.mode false st1 _ hD
      obtain ⟨st2, heq⟩ :=
        ih st1 (by rw [hEH, hE]) (fun e' he' hs' => hfail e' (by simp [he']) hs')
          hsup hsucc
      have hsupc : supAlgos km.mode (e1 :: rest) = supAlgos km.mode rest + 1 := by
        simp [supAlgos, List.filter_cons, hs]
      refine ⟨st2, ?_⟩
      show decryptAlgos h enc hk false p km (e1 :: (rest ++ e :: es2)) = _
      simp only [decryptAlgos]
      rw [if_neg (by simp [hs])]
      rw [hE, hD]
      dsimp only
      rw [heq, hsupc]
    · have hsupc : supAlgos km.mode (e1 :: rest) = supAlgos km.mode rest := by
        simp [supAlgos, List.filter_cons, hs]
      obtain ⟨st2, heq⟩ :=
        ih h hE (fun e' he' hs' => hfail e' (by simp [he']) hs') hsup hsucc
      refine ⟨st2, ?_⟩
      show decryptAlgos h enc hk false p km (e1 :: (rest ++ e :: es2)) = _
      simp only [decryptAlgos]
      rw [if_pos (by simp [hs])]
      rw [heq, hsupc]



theorem decryptModes_success (enc hk : List Nat) (p : Pkcs5Kdf)
    (es1 : List EncryptionAlgorithm) (e : EncryptionAlgorithm)
    (es2 : List EncryptionAlgorithm) (m : EncryptionMode)
    (ms2 : List EncryptionMode) (ms1 : List EncryptionMode) :
    ∀ h : VolumeHeader, h.EncryptedHeaderDataSize = 448 →
    (∀ m' ∈ ms1, ∀ e' ∈ es1 ++ e :: es2, e'.isModeSupported m' = true →
      FalseTrial (trialPlain enc 448 hk (kmOf hk m') e')) →
    (∀ e' ∈ es1, e'.isModeSupported m = true →
      FalseTrial (trialPlain enc 448 hk (kmOf hk m) e')) →
    e.isModeSupported m = true →
    TrueTrial (trialPlain enc 448 hk (kmOf hk m) e) →
    ∃ st, decryptModes h enc hk false p (es1 ++ e :: es2) (ms1 ++ m :: ms2) =
        (st, Except.ok true,
          supPairs ms1 (es1 ++ e :: es2) + (supAlgos m es1 + 1)) := by
  induction ms1 with
  | nil =>
    intro h hE _ hfailA hsup hsucc
    obtain ⟨st, heq⟩ := decryptAlgos_success enc hk p (kmOf hk m) e es2 es1 h hE
      (fun e' he' hs' => hfailA e' he' (by rwa [kmOf_mode] at hs'))
      (by rwa [kmOf_mode]) hsucc
    refine ⟨st, ?_⟩
    show decryptModes h enc hk false p (es1 ++ e :: es2) (m :: ms2) = _
    simp only [decryptModes]
    rw [heq]
    dsimp only
    simp [supPairs, kmOf_mode]
  | cons m1 rest ih =>
    intro h hE hfailM hfailA hsup hsucc
    obtain ⟨st1, heq1, a1, a2, a3, a4, a5⟩ :=
      decryptAlgos_allFail enc hk p (kmOf hk m1) (es1 ++ e :: es2) h hE
        (fun e' he' hs' => hfailM m1 (by simp) e' he' (by rwa [kmOf_mode] at hs'))
    obtain ⟨st2, heq2⟩ :=
      ih st1 (by rw [a1, hE]) (fun m' hm' => hfailM m' (by simp [hm'])) hfailA hsup hsucc
    refine ⟨st2, ?_⟩
    show decryptModes h enc hk false p (es1 ++ e :: es2) (m1 :: (rest ++ m :: ms2)) = _
    simp only [decryptModes]
    rw [kmOf_mode] at heq1
    rw [heq1]
    dsimp only
    rw [heq2]
    have hB : supPairs (m1 :: rest) (es1 ++ e :: es2) =
        supAlgos m1 (es1 ++ e :: es2) + supPairs rest (es1 ++ e :: es2) := by
      simp [supPairs]
    rw [hB, Nat.add_assoc]

theorem decryptKdfs_success (enc pw : List Nat) (pim : Int) (salt : List Nat)
    (es1 : List EncryptionAlgorithm) (e : EncryptionAlgorithm)
    (es2 : List EncryptionAlgorithm) (ms1 : List EncryptionMode)
    (m : EncryptionMode) (ms2 : List EncryptionMode)
    (p : Pkcs5Kdf) (ks2 : List Pkcs5Kdf) (ks1 : List Pkcs5Kdf) :
    ∀ h : VolumeHeader, h.EncryptedHeaderDataSize = 448 →
    (∀ p' ∈ ks1, ∀ m' ∈ ms1 ++ m :: ms2, ∀ e' ∈ es1 ++ e :: es2,
      e'.isModeSupported m' = true →
      FalseTrial (trialPlain enc 448
        (p'.deriveKey GetLargestSerializedKeySize pw pim salt)
        (kmOf (p'.deriveKey GetLargestSerializedKeySize pw pim salt) m') e')) →
    (∀ m' ∈ ms1, ∀ e' ∈ es1 ++ e :: es2, e'.isModeSupported m' = true →
      FalseTrial (trialPlain enc 448
        (p.deriveKey GetLargestSerializedKeySize pw pim salt)
        (kmOf (p.deriveKey GetLargestSerializedKeySize pw pim salt) m') e')) →
    (∀ e' ∈ es1, e'.isModeSupported m = true →
      FalseTrial (trialPlain enc 448
        (p.deriveKey GetLargestSerializedKeySize pw pim salt)
        (kmOf (p.deriveKey GetLargestSerializedKeySize pw pim salt) m) e')) →
    e.isModeSupported m = true →
    TrueTrial (trialPlain enc 448
      (p.deriveKey GetLargestSerializedKeySize pw pim salt)
      (kmOf (p.deriveKey GetLargestSerializedKeySize pw pim salt) m) e) →
    ∃ st, decryptKdfs h enc pw pim none false salt (es1 ++ e :: es2)
        (ms1 ++ m :: ms2) (ks1 ++ p :: ks2) =
        (st, Except.ok true, ks1.length + 1,
          ks1.length * supPairs (ms1 ++ m :: ms2) (es1 ++ e :: es2)
            + (supPairs ms1 (es1 ++ e :: es2) + (supAlgos m es1 + 1))) := by
  induction ks1 with
  | nil =>
    intro h hE _ hfailM hfailA hsup hsucc
    obtain ⟨st, heq⟩ := decryptModes_success enc
      (p.deriveKey GetLargestSerializedKeySize pw pim salt) p es1 e es2 m ms2 ms1 h hE
      hfailM hfailA hsup hsucc
    refine ⟨st, ?_⟩
    show decryptKdfs h enc pw pim none false salt _ _ (p :: ks2) = _
    simp only [decryptKdfs]
    rw [if_neg Bool.false_ne_true]
    rw [heq]
    dsimp only
    simp
  | cons p1 rest ih =>
    intro h hE hfailK hfailM hfailA hsup hsucc
    obtain ⟨st1, heq1, a1, a2, a3, a4, a5⟩ :=
      decryptModes_allFail enc (p1.deriveKey GetLargestSerializedKeySize pw pim salt)
        p1 (es1 ++ e :: es2) (ms1 ++ m :: ms2) h hE
        (fun m' hm' e' he' hs' => hfailK p1 (by simp) m' hm' e' he' hs')
    obtain ⟨st2, heq2⟩ :=
      ih st1 (by rw [a1, hE]) (fun p' hp' => hfailK p' (by simp [hp']))
        hfailM hfailA hsup hsucc
    refine ⟨st2, ?_⟩
    show decryptKdfs h enc pw pim none false salt _ _ (p1 :: (rest ++ p :: ks2)) = _
    simp only [decryptKdfs]
    rw [if_neg Bool.false_ne_true]
    rw [heq1]
    dsimp only
    rw [heq2]
    simp only [List.length_cons]
    have harith : supPairs (ms1 ++ m :: ms2) (es1 ++ e :: es2) +
        (rest.length * supPairs (ms1 ++ m :: ms2) (es1 ++ e :: es2)
          + (supPairs ms1 (es1 ++ e :: es2) + (supAlgos m es1 + 1))) =
        (rest.length + 1) * supPairs (ms1 ++ m :: ms2) (es1 ++ e :: es2)
          + (supPairs ms1 (es1 ++ e :: es2) + (supAlgos m es1 + 1)) := by ring
    rw [harith]


/- ## Reading fields back off the serialized plaintext -/


theorem readBE_prefix (a b : List Nat) (off w : Nat) (h : off + w ≤ a.length) :
    readBE (a ++ b) off w = readBE a off w := by
  unfold readBE
  rw [extract_append_left _ _ _ _ h]

theorem readBE_skip (a b : List Nat) (off w : Nat) (h : a.length ≤ off) :
    readBE (a ++ b) off w = readBE b (off - a.length) w := by
  unfold readBE
  rw [extract_append_right _ _ _ _ h]

theorem readBE_here (w v : Nat) (b : List Nat) :
    readBE (beBytes w v ++ b) 0 w = v % 256 ^ w := by
  unfold readBE
  rw [extract_front _ _ _ (beBytes_length w v), beRead_beBytes]

theorem sf_magic (h : VolumeHeader) :
    extract (serializedForm h) 0 4 = veraMagic := by
  unfold serializedForm serializedPre
  rw [List.append_assoc]
  exact extract_front _ _ _ veraMagic_length

theorem sf_pre (h : VolumeHeader) :
    extract (serializedForm h) 0 188 = serializedPre h := by
  unfold serializedForm
  exact extract_front _ _ _ (serializedPre_length h)

theorem sf_read_pre (h : VolumeHeader) (off w : Nat) (hw : off + w ≤ 188) :
    readBE (serializedForm h) off w = readBE (serializedPre h) off w := by
  unfold serializedForm
  exact readBE_prefix _ _ _ _ (by rw [serializedPre_length]; omega)

theorem sf_version (h : VolumeHeader) : wireVersion (serializedForm h) = 5 := by
  show readBE (serializedForm h) 4 2 = 5
  rw [sf_read_pre h 4 2 (by omega)]
  unfold serializedPre
  rw [readBE_skip _ _ _ _ (by rw [veraMagic_length]), veraMagic_length]
  norm_num
  rw [readBE_here]
  rfl

theorem sf_minver (h : VolumeHeader) :
    wireMinVersion (serializedForm h) = h.RequiredMinProgramVersion % 65536 := by
  show readBE (serializedForm h) 6 2 = _
  rw [sf_read_pre h 6 2 (by omega)]
  unfold serializedPre
  rw [readBE_skip _ _ _ _ (by norm_num [veraMagic_length]), veraMagic_length,
    readBE_skip _ _ _ _ (by norm_num [beBytes_length]), beBytes_length]
  norm_num
  rw [readBE_here]
  norm_num


theorem readBE_peel (w0 v0 : Nat) (rest : List Nat) (off w : Nat) (h : w0 ≤ off) :
    readBE (beBytes w0 v0 ++ rest) off w = readBE rest (off - w0) w := by
  rw [readBE_skip _ _ _ _ (by rw [beBytes_length]; omega), beBytes_length]

theorem sf_keycrc2 (h : VolumeHeader) :
    wireKeyCrc (serializedForm h) = Crc32.ProcessBuffer (keyAreaOf h) := by
  show readBE (serializedForm h) 8 4 = _
  rw [sf_read_pre h 8 4 (by omega)]
  unfold serializedPre
  rw [readBE_skip _ _ _ _ (by norm_num [veraMagic_length]), veraMagic_length]
  rw [readBE_peel 2 _ _ _ _ (by norm_num)]
  rw [readBE_peel 2 _ _ _ _ (by norm_num)]
  norm_num
  rw [readBE_here]
  exact Nat.mod_eq_of_lt (by
    have := Crc32_lt (keyAreaOf h)
    norm_num
    omega)

theorem sf_hidden (h : VolumeHeader) :
    readBE (serializedForm h) 28 8 = h.HiddenVolumeDataSize % 256 ^ 8 := by
  rw [sf_read_pre h 28 8 (by omega)]
  unfold serializedPre
  rw [readBE_skip _ _ _ _ (by norm_num [veraMagic_length]), veraMagic_length]
  rw [readBE_peel 2 _ _ _ _ (by norm_num)]
  rw [readBE_peel 2 _ _ _ _ (by norm_num)]
  rw [readBE_peel 4 _ _ _ _ (by norm_num)]
  rw [readBE_peel 8 _ _ _ _ (by norm_num)]
  rw [readBE_peel 8 _ _ _ _ (by norm_num)]
  norm_num
  rw [readBE_here]
  norm_num

theorem sf_vds (h : VolumeHeader) :
    readBE (serializedForm h) 36 8 = h.VolumeDataSize % 256 ^ 8 := by
  rw [sf_read_pre h 36 8 (by omega)]
  unfold serializedPre
  rw [readBE_skip _ _ _ _ (by norm_num [veraMagic_length]), veraMagic_length]
  rw [readBE_peel 2 _ _ _ _ (by norm_num)]
  rw [readBE_peel 2 _ _ _ _ (by norm_num)]
  rw [readBE_peel 4 _ _ _ _ (by norm_num)]
  rw [readBE_peel 8 _ _ _ _ (by norm_num)]
  rw [readBE_peel 8 _ _ _ _ (by norm_num)]
  rw [readBE_peel 8 _ _ _ _ (by norm_num)]
  norm_num
  rw [readBE_here]
  norm_num

theorem sf_start (h : VolumeHeader) :
    readBE (serializedForm h) 44 8 = h.EncryptedAreaStart % 256 ^ 8 := by
  rw [sf_read_pre h 44 8 (by omega)]
  unfold serializedPre
  rw [readBE_skip _ _ _ _ (by norm_num [veraMagic_length]), veraMagic_length]
  rw [readBE_peel 2 _ _ _ _ (by norm_num)]
  rw [readBE_peel 2 _ _ _ _ (by norm_num)]
  rw [readBE_peel 4 _ _ _ _ (by norm_num)]
  rw [readBE_peel 8 _ _ _ _ (by norm_num)]
  rw [readBE_peel 8 _ _ _ _ (by norm_num)]
  rw [readBE_peel 8 _ _ _ _ (by norm_num)]
  rw [readBE_peel 8 _ _ _ _ (by norm_num)]
  norm_num
  rw [readBE_here]
  norm_num

theorem sf_len (h : VolumeHeader) :
    readBE (serializedForm h) 52 8 = h.EncryptedAreaLength % 256 ^ 8 := by
  rw [sf_read_pre h 52 8 (by omega)]
  unfold serializedPre
  rw [readBE_skip _ _ _ _ (by norm_num [veraMagic_length]), veraMagic_length]
  rw [readBE_peel 2 _ _ _ _ (by norm_num)]
  rw [readBE_peel 2 _ _ _ _ (by norm_num)]
  rw [readBE_peel 4 _ _ _ _ (by norm_num)]
  rw [readBE_peel 8 _ _ _ _ (by norm_num)]
  rw [readBE_peel 8 _ _ _ _ (by norm_num)]
  rw [readBE_peel 8 _ _ _ _ (by norm_num)]
  rw [readBE_peel 8 _ _ _ _ (by norm_num)]
  rw [readBE_peel 8 _ _ _ _ (by norm_num)]
  norm_num
  rw [readBE_here]
  norm_num

theorem sf_flags (h : VolumeHeader) :
    readBE (serializedForm h) 60 4 = h.Flags % 256 ^ 4 := by
  rw [sf_read_pre h 60 4 (by omega)]
  unfold serializedPre
  rw [readBE_skip _ _ _ _ (by norm_num [veraMagic_length]), veraMagic_length]
  rw [readBE_peel 2 _ _ _ _ (by norm_num)]
  rw [readBE_peel 2 _ _ _ _ (by norm_num)]
  rw [readBE_peel 4 _ _ _ _ (by norm_num)]
  rw [readBE_peel 8 _ _ _ _ (by norm_num)]
  rw [readBE_peel 8 _ _ _ _ (by norm_num)]
  rw [readBE_peel 8 _ _ _ _ (by norm_num)]
  rw [readBE_peel 8 _ _ _ _ (by norm_num)]
  rw [readBE_peel 8 _ _ _ _ (by norm_num)]
  rw [readBE_peel 8 _ _ _ _ (by norm_num)]
  norm_num
  rw [readBE_here]
  norm_num

theorem sf_sector (h : VolumeHeader) :
    readBE (serializedForm h) 64 4 = h.SectorSize % 256 ^ 4 := by
  rw [sf_read_pre h 64 4 (by omega)]
  unfold serializedPre
  rw [readBE_skip _ _ _ _ (by norm_num [veraMagic_length]), veraMagic_length]
  rw [readBE_peel 2 _ _ _ _ (by norm_num)]
  rw [readBE_peel 2 _ _ _ _ (by norm_num)]
  rw [readBE_peel 4 _ _ _ _ (by norm_num)]
  rw [readBE_peel 8 _ _ _ _ (by norm_num)]
  rw [readBE_peel 8 _ _ _ _ (by norm_num)]
  rw [readBE_peel 8 _ _ _ _ (by norm_num)]
  rw [readBE_peel 8 _ _ _ _ (by norm_num)]
  rw [readBE_peel 8 _ _ _ _ (by norm_num)]
  rw [readBE_peel 8 _ _ _ _ (by norm_num)]
  rw [readBE_peel 4 _ _ _ _ (by norm_num)]
  norm_num
  rw [readBE_here]
  norm_num

theorem sf_hdrcrc (h : VolumeHeader) :
    readBE (serializedForm h) 188 4 = Crc32.ProcessBuffer (serializedPre h) := by
  unfold serializedForm
  rw [readBE_skip _ _ _ _ (by rw [serializedPre_length]), serializedPre_length]
  norm_num
  rw [readBE_here]
  exact Nat.mod_eq_of_lt (by
    have := Crc32_lt (serializedPre h)
    norm_num
    omega)

theorem sf_keyarea (h : VolumeHeader) (hdak : h.DataAreaKey.length ≤ 256) :
    extract (serializedForm h) 192 256 = keyAreaOf h := by
  unfold serializedForm
  rw [extract_append_right _ _ _ _ (by rw [serializedPre_length]; omega),
    serializedPre_length]
  norm_num
  rw [extract_append_right _ _ _ _ (by rw [beBytes_length]), beBytes_length]
  norm_num
  exact extract_self _ _ (keyAreaOf_length h hdak)



theorem SaltOffset_eq : SaltOffset = 0 := rfl

set_option maxHeartbeats 1000000 in
/-- Round-trip engine: `Decrypt` on a blob of the serialized form of `h`
(salt plus encrypted plaintext) with matching singleton lists succeeds
after one derivation and one deserialization, ending in the deserialized
state. -/
theorem roundTrip_core (h h0 : VolumeHeader) (kea : KeyedEA) (p : Pkcs5Kdf)
    (password salt hk : List Nat) (pim : Int)
    (hE0 : h0.EncryptedHeaderDataSize = 448)
    (hsup : kea.alg.isModeSupported kea.mode.mode = true)
    (hinv : ∀ m' k1 k2 d, kea.alg.decryptOp m' k1 k2 (kea.alg.encryptOp m' k1 k2 d) = d)
    (hlenop : ∀ m' k1 k2 d, (kea.alg.encryptOp m' k1 k2 d).length = d.length)
    (hsalt : salt.length = 64)
    (hpw : 1 ≤ password.length)
    (hdak : h.DataAreaKey.length ≤ 256)
    (hrmpv : h.RequiredMinProgramVersion ≤ VersionNumber)
    (hsec : SectorValid h.SectorSize)
    (hhk : p.deriveKey GetLargestSerializedKeySize password pim salt = hk) :
    Decrypt h0
      (salt ++ kea.alg.encryptOp kea.mode.mode
        (if kea.mode.mode.isXTS then extract hk 0 kea.alg.keySize
         else extract hk LegacyEncryptionModeKeyAreaSize kea.alg.keySize)
        (if kea.mode.mode.isXTS then extract hk kea.alg.keySize kea.alg.keySize
         else extract hk 0 kea.mode.mode.keySize)
        (serializedForm h))
      password pim (some p) false [p] [kea.alg] [kea.mode.mode] =
      ({ stateAfterFields { h0 with Salt := salt } (serializedForm h) with
          DataAreaKey := extract (serializedForm h) DataAreaKeyOffset DataKeyAreaMaxSize
          HeaderKey := hk
          EA := some (keyedOf (serializedForm h) kea.alg kea.mode.mode)
          Pkcs5 := some p },
        Except.ok true, 1, 1) := by
  have hsfLen : (serializedForm h).length = 448 := serializedForm_length h hdak
  have hsecBd : h.SectorSize ≤ 4096 := hsec.2.1
  have hTT : TrueTrial (serializedForm h) := by
    refine ⟨hsfLen, sf_magic h, ?_, ?_, ?_, ?_, ?_, ?_⟩
    · rw [sf_version, MinAllowedHeaderVersion_eq]; omega
    · rw [sf_version, CurrentHeaderVersion_eq]
    · show Crc32.ProcessBuffer (extract (serializedForm h) 0 188) =
        readBE (serializedForm h) 188 4
      rw [sf_pre, sf_hdrcrc]
    · rw [sf_minver]
      rw [VersionNumber_eq] at hrmpv ⊢
      omega
    · show SectorValid (effSector (serializedForm h))
      unfold effSector
      rw [if_neg (by rw [sf_version]; omega)]
      rw [sf_sector, Nat.mod_eq_of_lt (by norm_num; omega)]
      exact hsec
    · show wireKeyCrc (serializedForm h) =
        Crc32.ProcessBuffer (extract (serializedForm h) DataAreaKeyOffset
          DataKeyAreaMaxSize)
      rw [sf_keycrc2, DataAreaKeyOffset_eq, DataKeyAreaMaxSize_eq,
        sf_keyarea h hdak]
  have hencLen : ∀ k1 k2 : List Nat,
      (kea.alg.encryptOp kea.mode.mode k1 k2 (serializedForm h)).length = 448 := by
    intro k1 k2
    rw [hlenop, hsfLen]
  have htrial : ∀ k1 k2 : List Nat,
      trialPlain
        (salt ++ kea.alg.encryptOp kea.mode.mode k1 k2 (serializedForm h))
        448 hk (kmOf hk kea.mode.mode) kea.alg =
      kea.alg.decryptOp kea.mode.mode
        (if kea.mode.mode.isXTS then extract hk 0 kea.alg.keySize
         else extract hk LegacyEncryptionModeKeyAreaSize kea.alg.keySize)
        (if kea.mode.mode.isXTS then extract hk kea.alg.keySize kea.alg.keySize
         else extract hk 0 kea.mode.mode.keySize)
        (kea.alg.encryptOp kea.mode.mode k1 k2 (serializedForm h)) := by
    intro k1 k2
    unfold trialPlain
    rw [kmOf_mode]
    rw [EncryptedHeaderDataOffset_eq,
      extract_append_right _ _ _ _ (by rw [hsalt]), hsalt]
    norm_num
    rw [extract_self _ _ (hencLen k1 k2)]
    by_cases hX : kea.mode.mode.isXTS
    · simp [hX]
    · simp [kmOf, hX]
  have hplain : trialPlain
      (salt ++ kea.alg.encryptOp kea.mode.mode
        (if kea.mode.mode.isXTS then extract hk 0 kea.alg.keySize
         else extract hk LegacyEncryptionModeKeyAreaSize kea.alg.keySize)
        (if kea.mode.mode.isXTS then extract hk kea.alg.keySize kea.alg.keySize
         else extract hk 0 kea.mode.mode.keySize)
        (serializedForm h))
      448 hk (kmOf hk kea.mode.mode) kea.alg = serializedForm h := by
    rw [htrial]
    exact hinv _ _ _ _
  simp only [Decrypt]
  rw [if_neg (by omega)]
  rw [SaltOffset_eq, SaltSize_eq, extract_front _ _ _ hsalt]
  generalize hgen : ({ h0 with Salt := salt } : VolumeHeader) = h1
  have hEg : h1.EncryptedHeaderDataSize = 448 := by rw [← hgen]; exact hE0
  simp only [decryptKdfs]
  rw [if_neg (by simp)]
  rw [hhk]
  simp only [decryptModes]
  simp only [decryptAlgos]
  rw [if_neg (by rw [kmOf_mode]; simp [hsup])]
  rw [hEg]
  rw [hplain]
  rw [kmOf_mode]
  rw [TrueTrial_deserialize h1 (serializedForm h) kea.alg kea.mode.mode hEg hTT]

set_option maxHeartbeats 1000000 in
/-- C1 (amended): round-trip.  For a header object satisfying the
serialization preconditions — 448-byte encrypted region, a full 256-byte
`DataAreaKey` whose CRC-32 is latched in `VolumeKeyAreaCrc32` (I4), a
sector size satisfying I3, in-range wire fields, non-empty password — and
a cipher whose decrypt inverts its encrypt, `Decrypt` on the `EncryptNew`
blob with the matching singleton (KDF, algorithm, mode) lists returns
true after one key derivation and one deserialization, and the resulting
state agrees with the original header on every wire field. -/
theorem C1_roundTrip (h h0 h2 : VolumeHeader) (kea : KeyedEA) (p : Pkcs5Kdf)
    (password salt hk blob : List Nat) (pim : Int)
    (hE : h.EncryptedHeaderDataSize = 448)
    (hE0 : h0.EncryptedHeaderDataSize = 448)
    (hEA : h.EA = some kea)
    (hsup : kea.alg.isModeSupported kea.mode.mode = true)
    (hinv : ∀ m' k1 k2 d, kea.alg.decryptOp m' k1 k2 (kea.alg.encryptOp m' k1 k2 d) = d)
    (hlenop : ∀ m' k1 k2 d, (kea.alg.encryptOp m' k1 k2 d).length = d.length)
    (hsalt : salt.length = 64)
    (hpw : 1 ≤ password.length)
    (hdak : h.DataAreaKey.length = 256)
    (hI4 : h.VolumeKeyAreaCrc32 = Crc32.ProcessBuffer h.DataAreaKey)
    (hrmpv : h.RequiredMinProgramVersion ≤ VersionNumber)
    (hsec : SectorValid h.SectorSize)
    (hhid : h.HiddenVolumeDataSize < 18446744073709551616)
    (hvds : h.VolumeDataSize < 18446744073709551616)
    (hstart : h.EncryptedAreaStart < 18446744073709551616)
    (hlen64 : h.EncryptedAreaLength < 18446744073709551616)
    (hflags : h.Flags < 4294967296)
    (hhk : p.deriveKey GetLargestSerializedKeySize password pim salt = hk)
    (hblob : EncryptNew h salt hk (some p) = Except.ok (blob, h2)) :
    ∃ st, Decrypt h0 blob password pim (some p) false [p] [kea.alg] [kea.mode.mode] =
        (st, Except.ok true, 1, 1)
      ∧ st.HiddenVolumeDataSize = h.HiddenVolumeDataSize
      ∧ st.VolumeDataSize = h.VolumeDataSize
      ∧ st.EncryptedAreaStart = h.EncryptedAreaStart
      ∧ st.EncryptedAreaLength = h.EncryptedAreaLength
      ∧ st.Flags = h.Flags
      ∧ st.SectorSize = h.SectorSize
      ∧ st.VolumeKeyAreaCrc32 = h.VolumeKeyAreaCrc32
      ∧ st.DataAreaKey = h.DataAreaKey := by
  have hser := Serialize_char h hE (by omega) hsec
  have hEN := EncryptNew_char h kea salt hk (serializedForm h) (some p) hEA hsalt hser
  rw [hEN] at hblob
  injection hblob with hpair
  injection hpair with hb hh2
  subst hb
  have hsecBd : h.SectorSize ≤ 4096 := hsec.2.1
  have hc := roundTrip_core h h0 kea p password salt hk pim hE0 hsup hinv hlenop
    hsalt hpw (by omega) hrmpv hsec hhk
  rw [hc]
  refine ⟨_, rfl, ?_, ?_, ?_, ?_, ?_, ?_, ?_, ?_⟩
  · show readBE (serializedForm h) 28 8 = _
    rw [sf_hidden]
    norm_num
    omega
  · show readBE (serializedForm h) 36 8 = _
    rw [sf_vds]
    norm_num
    omega
  · show readBE (serializedForm h) 44 8 = _
    rw [sf_start]
    norm_num
    omega
  · show readBE (serializedForm h) 52 8 = _
    rw [sf_len]
    norm_num
    omega
  · show readBE (serializedForm h) 60 4 = _
    rw [sf_flags]
    norm_num
    omega
  · show effSector (serializedForm h) = _
    unfold effSector
    rw [if_neg (by rw [sf_version]; omega)]
    rw [sf_sector]
    norm_num
    omega
  · show wireKeyCrc (serializedForm h) = _
    rw [sf_keycrc2, keyAreaOf_eq_of_full h hdak, hI4]
  · show extract (serializedForm h) DataAreaKeyOffset DataKeyAreaMaxSize = _
    rw [DataAreaKeyOffset_eq, DataKeyAreaMaxSize_eq, sf_keyarea h (by omega),
      keyAreaOf_eq_of_full h hdak]

set_option maxHeartbeats 1000000 in
/-- Witness for C1 at a concrete header, salt and password. -/
theorem C1_roundTrip_witness :
    ∃ st, Decrypt (VolumeHeader.ofSize 512) blobW1 [7] 0 (some kdfOnes) false
        [kdfOnes] [eaId] [modeXts] = (st, Except.ok true, 1, 1)
      ∧ st.HiddenVolumeDataSize = HW1.HiddenVolumeDataSize
      ∧ st.VolumeDataSize = HW1.VolumeDataSize
      ∧ st.EncryptedAreaStart = HW1.EncryptedAreaStart
      ∧ st.EncryptedAreaLength = HW1.EncryptedAreaLength
      ∧ st.Flags = HW1.Flags
      ∧ st.SectorSize = HW1.SectorSize
      ∧ st.VolumeKeyAreaCrc32 = HW1.VolumeKeyAreaCrc32
      ∧ st.DataAreaKey = HW1.DataAreaKey :=
  C1_roundTrip HW1 (VolumeHeader.ofSize 512) { HW1 with Pkcs5 := some kdfOnes }
    keaW kdfOnes [7] (List.replicate 64 2) (List.replicate 192 1) blobW1 0
    rfl rfl rfl rfl (fun _ _ _ _ => rfl) (fun _ _ _ _ => rfl) (by simp)
    (by simp) (by simp [HW1]) (by simp [HW1]) (by decide) (by decide)
    (by decide) (by decide) (by decide) (by decide) (by decide) rfl
    (by
      rw [EncryptNew_char HW1 keaW (List.replicate 64 2) (List.replicate 192 1)
        (serializedForm HW1) (some kdfOnes) rfl (by simp)
        (Serialize_char HW1 rfl (by simp [HW1]) (by decide))]
      rfl)

set_option maxHeartbeats 1000000 in
/-- C1 counterexample: a header valid in the claim's own sense (sector
size satisfying I3, data-area key of length 2·EA.KeySize = 64, non-empty
password, inverting cipher, deterministic KDF) round-trips to `true`, but
the resulting `DataAreaKey` is the zero-padded 256-byte key area, not the
original 64-byte key. -/
theorem C1_counterexample :
    EncryptNew HC1 (List.replicate 64 2) (List.replicate 192 1) (some kdfOnes) =
      Except.ok (blobC1, { HC1 with Pkcs5 := some kdfOnes })
    ∧ (Decrypt (VolumeHeader.ofSize 512) blobC1 [7] 0 (some kdfOnes) false
        [kdfOnes] [eaId] [modeXts]).2.1 = Except.ok true
    ∧ (Decrypt (VolumeHeader.ofSize 512) blobC1 [7] 0 (some kdfOnes) false
        [kdfOnes] [eaId] [modeXts]).1.DataAreaKey ≠ HC1.DataAreaKey := by
  have hser := Serialize_char HC1 rfl (by simp [HC1]) (by decide)
  have hEN := EncryptNew_char HC1 keaW (List.replicate 64 2) (List.replicate 192 1)
    (serializedForm HC1) (some kdfOnes) rfl (by simp) hser
  have hc := roundTrip_core HC1 (VolumeHeader.ofSize 512) keaW kdfOnes [7]
    (List.replicate 64 2) (List.replicate 192 1) 0 rfl rfl
    (fun _ _ _ _ => rfl) (fun _ _ _ _ => rfl) (by simp) (by simp)
    (by simp [HC1]) (by simp [HC1, VolumeHeader.ofSize]) (by decide) rfl
  have hbeq : List.replicate 64 2 ++ keaW.alg.encryptOp keaW.mode.mode
      (if keaW.mode.mode.isXTS then extract (List.replicate 192 1) 0 keaW.alg.keySize
       else extract (List.replicate 192 1) LegacyEncryptionModeKeyAreaSize
         keaW.alg.keySize)
      (if keaW.mode.mode.isXTS then
        extract (List.replicate 192 1) keaW.alg.keySize keaW.alg.keySize
       else extract (List.replicate 192 1) 0 keaW.mode.mode.keySize)
      (serializedForm HC1) = blobC1 := rfl
  rw [hbeq] at hc hEN
  rw [show keaW.alg = eaId from rfl, show keaW.mode.mode = modeXts from rfl] at hc
  refine ⟨hEN, ?_, ?_⟩
  · rw [hc]
  · rw [hc]
    show extract (serializedForm HC1) DataAreaKeyOffset DataKeyAreaMaxSize ≠ _
    rw [DataAreaKeyOffset_eq, DataKeyAreaMaxSize_eq,
      sf_keyarea HC1 (by simp [HC1])]
    intro heq
    have hlen := congrArg List.length heq
    rw [keyAreaOf_length HC1 (by simp [HC1])] at hlen
    simp [HC1] at hlen

/-- C9: with a zero-length password, `Decrypt` returns `PasswordEmpty`
with zero key derivations and zero deserializations, and the header
object — salt included — is returned unchanged. -/
theorem C9_empty_password (h : VolumeHeader) (encryptedData password : List Nat)
    (pim : Int) (kdf : Option Pkcs5Kdf) (truecryptMode : Bool)
    (keyDerivationFunctions : List Pkcs5Kdf)
    (encryptionAlgorithms : List EncryptionAlgorithm)
    (encryptionModes : List EncryptionMode)
    (hpw : password.length = 0) :
    Decrypt h encryptedData password pim kdf truecryptMode
        keyDerivationFunctions encryptionAlgorithms encryptionModes =
      (h, Except.error VolumeError.PasswordEmpty, 0, 0) := by
  unfold Decrypt
  rw [if_pos (by omega)]

/-- Witness for C9 at a concrete header and blob. -/
theorem C9_empty_password_witness :
    Decrypt (VolumeHeader.ofSize 512) (List.replicate 512 0) [] 0 none false
        [kdfOnes] [eaId] [modeXts] =
      (VolumeHeader.ofSize 512, Except.error VolumeError.PasswordEmpty, 0, 0) :=
  C9_empty_password (VolumeHeader.ofSize 512) (List.replicate 512 0) [] 0 none
    false [kdfOnes] [eaId] [modeXts] rfl


theorem mkPre_length (v r k hd s : Nat) : (mkPre v r k hd s).length = 188 := by
  simp [mkPre, beBytes_length, veraMagic]

theorem mkBuf_length (v r k hd s : Nat) (ka : List Nat) (hka : ka.length = 256) :
    (mkBuf v r k hd s ka).length = 448 := by
  simp [mkBuf, beBytes_length, mkPre_length, hka]

theorem mkBuf_magic (v r k hd s : Nat) (ka : List Nat) :
    extract (mkBuf v r k hd s ka) 0 4 = veraMagic := by
  unfold mkBuf mkPre
  rw [List.append_assoc]
  exact extract_front _ _ _ veraMagic_length

theorem mkBuf_pre (v r k hd s : Nat) (ka : List Nat) :
    extract (mkBuf v r k hd s ka) 0 188 = mkPre v r k hd s := by
  unfold mkBuf
  exact extract_front _ _ _ (mkPre_length v r k hd s)

theorem mkBuf_read_pre (v r k hd s : Nat) (ka : List Nat) (off w : Nat)
    (hw : off + w ≤ 188) :
    readBE (mkBuf v r k hd s ka) off w = readBE (mkPre v r k hd s) off w := by
  unfold mkBuf
  exact readBE_prefix _ _ _ _ (by rw [mkPre_length]; omega)

theorem mkBuf_version (v r k hd s : Nat) (ka : List Nat) :
    wireVersion (mkBuf v r k hd s ka) = v % 65536 := by
  show readBE (mkBuf v r k hd s ka) 4 2 = v % 65536
  rw [mkBuf_read_pre _ _ _ _ _ _ 4 2 (by omega)]
  unfold mkPre
  rw [readBE_skip _ _ _ _ (by rw [veraMagic_length]), veraMagic_length]
  norm_num
  rw [readBE_here]
  norm_num

theorem mkBuf_minver (v r k hd s : Nat) (ka : List Nat) :
    wireMinVersion (mkBuf v r k hd s ka) = r % 65536 := by
  show readBE (mkBuf v r k hd s ka) 6 2 = r % 65536
  rw [mkBuf_read_pre _ _ _ _ _ _ 6 2 (by omega)]
  unfold mkPre
  rw [readBE_skip _ _ _ _ (by norm_num [veraMagic_length]), veraMagic_length]
  rw [readBE_peel 2 _ _ _ _ (by norm_num)]
  norm_num
  rw [readBE_here]
  norm_num

theorem mkBuf_keycrc (v r k hd s : Nat) (ka : List Nat) :
    wireKeyCrc (mkBuf v r k hd s ka) = k % 4294967296 := by
  show readBE (mkBuf v r k hd s ka) 8 4 = k % 4294967296
  rw [mkBuf_read_pre _ _ _ _ _ _ 8 4 (by omega)]
  unfold mkPre
  rw [readBE_skip _ _ _ _ (by norm_num [veraMagic_length]), veraMagic_length]
  rw [readBE_peel 2 _ _ _ _ (by norm_num)]
  rw [readBE_peel 2 _ _ _ _ (by norm_num)]
  norm_num
  rw [readBE_here]
  norm_num

theorem mkBuf_hidden (v r k hd s : Nat) (ka : List Nat) :
    readBE (mkBuf v r k hd s ka) 28 8 = hd % 18446744073709551616 := by
  rw [mkBuf_read_pre _ _ _ _ _ _ 28 8 (by omega)]
  unfold mkPre
  rw [readBE_skip _ _ _ _ (by norm_num [veraMagic_length]), veraMagic_length]
  rw [readBE_peel 2 _ _ _ _ (by norm_num)]
  rw [readBE_peel 2 _ _ _ _ (by norm_num)]
  rw [readBE_peel 4 _ _ _ _ (by norm_num)]
  rw [readBE_peel 8 _ _ _ _ (by norm_num)]
  rw [readBE_peel 8 _ _ _ _ (by norm_num)]
  norm_num
  rw [readBE_here]
  norm_num

theorem mkBuf_sector (v r k hd s : Nat) (ka : List Nat) :
    readBE (mkBuf v r k hd s ka) 64 4 = s % 4294967296 := by
  rw [mkBuf_read_pre _ _ _ _ _ _ 64 4 (by omega)]
  unfold mkPre
  rw [readBE_skip _ _ _ _ (by norm_num [veraMagic_length]), veraMagic_length]
  rw [readBE_peel 2 _ _ _ _ (by norm_num)]
  rw [readBE_peel 2 _ _ _ _ (by norm_num)]
  rw [readBE_peel 4 _ _ _ _ (by norm_num)]
  rw [readBE_peel 8 _ _ _ _ (by norm_num)]
  rw [readBE_peel 8 _ _ _ _ (by norm_num)]
  rw [readBE_peel 8 _ _ _ _ (by norm_num)]
  rw [readBE_peel 8 _ _ _ _ (by norm_num)]
  rw [readBE_peel 8 _ _ _ _ (by norm_num)]
  rw [readBE_peel 8 _ _ _ _ (by norm_num)]
  rw [readBE_peel 4 _ _ _ _ (by norm_num)]
  norm_num
  rw [readBE_here]
  norm_num

theorem mkBuf_hdrcrc (v r k hd s : Nat) (ka : List Nat) :
    readBE (mkBuf v r k hd s ka) 188 4 =
      Crc32.ProcessBuffer (mkPre v r k hd s) := by
  unfold mkBuf
  rw [readBE_skip _ _ _ _ (by rw [mkPre_length]), mkPre_length]
  norm_num
  rw [readBE_here]
  exact Nat.mod_eq_of_lt (by
    have := Crc32_lt (mkPre v r k hd s)
    norm_num
    omega)

theorem mkBuf_crcok (v r k hd s : Nat) (ka : List Nat) :
    HeaderCrcOk (mkBuf v r k hd s ka) := by
  show Crc32.ProcessBuffer (extract (mkBuf v r k hd s ka) 0 188) =
    readBE (mkBuf v r k hd s ka) 188 4
  rw [mkBuf_pre, mkBuf_hdrcrc]

theorem mkBuf_keyarea (v r k hd s : Nat) (ka : List Nat) (hka : ka.length = 256) :
    extract (mkBuf v r k hd s ka) 192 256 = ka := by
  unfold mkBuf
  rw [extract_append_right _ _ _ _ (by rw [mkPre_length]; omega), mkPre_length]
  norm_num
  rw [extract_append_right _ _ _ _ (by rw [beBytes_length]), beBytes_length]
  norm_num
  exact extract_self _ _ hka

theorem mkBuf_keycrcok (v r hd s : Nat) (ka : List Nat) (hka : ka.length = 256) :
    KeyCrcOk (mkBuf v r (Crc32.ProcessBuffer ka) hd s ka) := by
  show wireKeyCrc _ = Crc32.ProcessBuffer (extract _ DataAreaKeyOffset DataKeyAreaMaxSize)
  rw [mkBuf_keycrc, DataAreaKeyOffset_eq, DataKeyAreaMaxSize_eq,
    mkBuf_keyarea _ _ _ _ _ _ hka]
  exact Nat.mod_eq_of_lt (Crc32_lt ka)

theorem mkBuf_keycrcbad (v r hd s : Nat) (ka : List Nat) (hka : ka.length = 256) :
    ¬ KeyCrcOk (mkBuf v r (Crc32.ProcessBuffer ka + 1) hd s ka) := by
  show ¬ (wireKeyCrc _ = Crc32.ProcessBuffer (extract _ DataAreaKeyOffset DataKeyAreaMaxSize))
  rw [mkBuf_keycrc, DataAreaKeyOffset_eq, DataKeyAreaMaxSize_eq,
    mkBuf_keyarea _ _ _ _ _ _ hka]
  have := Crc32_lt ka
  omega

/-- C5: sector-size coercion.  For a plaintext candidate whose earlier
checks pass (length, magic, version window, header CRC, minimum program
version), the `SectorSize` the state ends up with is the wire u32 at
offset 64 for `HeaderVersion ≥ 5` and 512 for `HeaderVersion < 5`
regardless of the bytes on the wire; and `Deserialize` raises
`ParameterIncorrect` exactly when that resulting sector size is outside
[512, 4096] or not a multiple of 512. -/
theorem C5_sector_coercion (h : VolumeHeader) (buf : List Nat)
    (ea : EncryptionAlgorithm) (m : EncryptionMode)
    (hlen : buf.length = 448) (hE : h.EncryptedHeaderDataSize = 448)
    (hmagic : extract buf 0 4 = veraMagic)
    (hv1 : MinAllowedHeaderVersion ≤ wireVersion buf)
    (hv2 : wireVersion buf ≤ CurrentHeaderVersion)
    (hcrc : HeaderCrcOk buf)
    (hrmpv : wireMinVersion buf ≤ VersionNumber) :
    (Deserialize h buf ea m false).1.SectorSize =
      (if wireVersion buf < 5 then 512 else readBE buf 64 4)
    ∧ ((Deserialize h buf ea m false).2 = Except.error VolumeError.ParameterIncorrect
        ↔ ¬ SectorValid (effSector buf)) := by
  have hD := Deserialize_char h buf ea m hlen hE hmagic hv1 hv2 hcrc hrmpv
  have hstate : (Deserialize h buf ea m false).1.SectorSize = effSector buf := by
    rw [hD]
    split
    · rfl
    · split
      · rfl
      · rfl
  constructor
  · rw [hstate]
    simp only [effSector, TC_SECTOR_SIZE_LEGACY]
  · rw [hD]
    by_cases hs : SectorValid (effSector buf)
    · rw [if_neg (sectorValid_not _ hs)]
      constructor
      · intro hcontr
        split at hcontr <;> exact absurd hcontr (by simp)
      · intro hns
        exact absurd hs hns
    · rw [if_pos (by
        rw [SectorValid, not_and_or, not_and_or] at hs
        rcases hs with hs | hs | hs
        · exact Or.inl (Nat.lt_of_not_le hs)
        · exact Or.inr (Or.inl (Nat.lt_of_not_le hs))
        · exact Or.inr (Or.inr hs))]
      simpa using hs

/-- Witness for C5 at a version-4 buffer whose wire sector-size field
holds the out-of-range value 9999 (coerced to 512). -/
theorem C5_sector_coercion_witness :
    (Deserialize (VolumeHeader.ofSize 512)
        (mkBuf 4 0 0 0 9999 (List.replicate 256 0)) eaId modeXts false).1.SectorSize =
      (if wireVersion (mkBuf 4 0 0 0 9999 (List.replicate 256 0)) < 5 then 512
       else readBE (mkBuf 4 0 0 0 9999 (List.replicate 256 0)) 64 4)
    ∧ ((Deserialize (VolumeHeader.ofSize 512)
        (mkBuf 4 0 0 0 9999 (List.replicate 256 0)) eaId modeXts false).2 =
          Except.error VolumeError.ParameterIncorrect
        ↔ ¬ SectorValid (effSector (mkBuf 4 0 0 0 9999 (List.replicate 256 0)))) :=
  C5_sector_coercion (VolumeHeader.ofSize 512) (mkBuf 4 0 0 0 9999 (List.replicate 256 0))
    eaId modeXts (by simp [mkBuf_length]) rfl (mkBuf_magic 4 0 0 0 9999 _)
    (by simp [mkBuf_version, MinAllowedHeaderVersion_eq])
    (by simp [mkBuf_version, CurrentHeaderVersion_eq])
    (mkBuf_crcok 4 0 0 0 9999 _)
    (by simp [mkBuf_minver, VersionNumber_eq])

set_option maxHeartbeats 800000 in
/-- C2 (amended): false-return conditions of `Deserialize` (VeraCrypt
mode, standard 448-byte region).  Soundness: a false return implies magic
mismatch, version below minimum, header-CRC mismatch, or key-area-CRC
mismatch.  Completeness holds per stage, each condition under the gates
the code actually applies before reaching its check; in particular the
key-area-CRC check is only reached when the minimum-program-version and
sector gates pass (otherwise `HigherVersionRequired` / `ParameterIncorrect`
is raised instead — the claim's unconditional "exactly when" fails).
`HeaderVersion > CurrentHeaderVersion` raises `HigherVersionRequired`. -/
theorem C2_false_returns (h : VolumeHeader) (buf : List Nat)
    (ea : EncryptionAlgorithm) (m : EncryptionMode)
    (hlen : buf.length = 448) (hE : h.EncryptedHeaderDataSize = 448) :
    ((Deserialize h buf ea m false).2 = Except.ok none →
      extract buf 0 4 ≠ veraMagic
      ∨ wireVersion buf < MinAllowedHeaderVersion
      ∨ ¬ HeaderCrcOk buf
      ∨ ¬ KeyCrcOk buf)
    ∧ (extract buf 0 4 ≠ veraMagic →
        (Deserialize h buf ea m false).2 = Except.ok none)
    ∧ (extract buf 0 4 = veraMagic → wireVersion buf < MinAllowedHeaderVersion →
        (Deserialize h buf ea m false).2 = Except.ok none)
    ∧ (extract buf 0 4 = veraMagic → MinAllowedHeaderVersion ≤ wireVersion buf →
        wireVersion buf ≤ CurrentHeaderVersion → ¬ HeaderCrcOk buf →
        (Deserialize h buf ea m false).2 = Except.ok none)
    ∧ (extract buf 0 4 = veraMagic → MinAllowedHeaderVersion ≤ wireVersion buf →
        wireVersion buf ≤ CurrentHeaderVersion → HeaderCrcOk buf →
        wireMinVersion buf ≤ VersionNumber → SectorValid (effSector buf) →
        ¬ KeyCrcOk buf →
        (Deserialize h buf ea m false).2 = Except.ok none)
    ∧ (extract buf 0 4 = veraMagic → wireVersion buf > CurrentHeaderVersion →
        (Deserialize h buf ea m false).2 =
          Except.error VolumeError.HigherVersionRequired) := by
  refine ⟨?_, ?_, ?_, ?_, ?_, ?_⟩
  · intro hok
    by_cases hm : extract buf 0 4 = veraMagic
    · by_cases hv : wireVersion buf < MinAllowedHeaderVersion
      · exact Or.inr (Or.inl hv)
      · have hv1 : MinAllowedHeaderVersion ≤ wireVersion buf := Nat.le_of_not_lt hv
        by_cases hv2 : wireVersion buf ≤ CurrentHeaderVersion
        · by_cases hcrc : HeaderCrcOk buf
          · by_cases hrm : wireMinVersion buf ≤ VersionNumber
            · have hD := Deserialize_char h buf ea m hlen hE hm hv1 hv2 hcrc hrm
              by_cases hs : SectorValid (effSector buf)
              · rw [hD, if_neg (sectorValid_not _ hs)] at hok
                by_cases hk : KeyCrcOk buf
                · rw [if_neg (by simpa [KeyCrcOk] using hk)] at hok
                  simp at hok
                · exact Or.inr (Or.inr (Or.inr hk))
              · rw [hD, if_pos (by
                  rw [SectorValid, not_and_or, not_and_or] at hs
                  rcases hs with hs | hs | hs
                  · exact Or.inl (Nat.lt_of_not_le hs)
                  · exact Or.inr (Or.inl (Nat.lt_of_not_le hs))
                  · exact Or.inr (Or.inr hs))] at hok
                simp at hok
            · rw [Deserialize_rmpvHigh h buf ea m hlen hE hm hv1 hv2 hcrc
                (Nat.lt_of_not_le hrm)] at hok
              simp at hok
          · exact Or.inr (Or.inr (Or.inl hcrc))
        · rw [Deserialize_versionHigh h buf ea m hlen hE hm
            (Nat.lt_of_not_le hv2)] at hok
          simp at hok
    · exact Or.inl hm
  · intro hm
    rw [Deserialize_magicFail h buf ea m (by rw [hlen, hE]) hm]
  · intro hm hv
    rw [Deserialize_versionLow h buf ea m hlen hE hm hv]
  · intro hm hv1 hv2 hcrc
    rw [Deserialize_hdrCrcFail h buf ea m hlen hE hm hv1 hv2 hcrc]
  · intro hm hv1 hv2 hcrc hrm hs hk
    rw [Deserialize_char h buf ea m hlen hE hm hv1 hv2 hcrc hrm]
    rw [if_neg (sectorValid_not _ hs)]
    rw [if_pos (by simpa [KeyCrcOk] using hk)]
  · intro hm hv
    rw [Deserialize_versionHigh h buf ea m hlen hE hm hv]

/-- Witness for C2 at a concrete well-formed buffer. -/
theorem C2_false_returns_witness :
    ((Deserialize (VolumeHeader.ofSize 512)
        (mkBuf 5 0 (Crc32.ProcessBuffer (List.replicate 256 0)) 0 512
          (List.replicate 256 0)) eaId modeXts false).2 = Except.ok none →
      extract (mkBuf 5 0 (Crc32.ProcessBuffer (List.replicate 256 0)) 0 512
          (List.replicate 256 0)) 0 4 ≠ veraMagic
      ∨ wireVersion (mkBuf 5 0 (Crc32.ProcessBuffer (List.replicate 256 0)) 0 512
          (List.replicate 256 0)) < MinAllowedHeaderVersion
      ∨ ¬ HeaderCrcOk (mkBuf 5 0 (Crc32.ProcessBuffer (List.replicate 256 0)) 0 512
          (List.replicate 256 0))
      ∨ ¬ KeyCrcOk (mkBuf 5 0 (Crc32.ProcessBuffer (List.replicate 256 0)) 0 512
          (List.replicate 256 0)))
    ∧ (extract (mkBuf 5 0 (Crc32.ProcessBuffer (List.replicate 256 0)) 0 512
          (List.replicate 256 0)) 0 4 ≠ veraMagic →
        (Deserialize (VolumeHeader.ofSize 512)
          (mkBuf 5 0 (Crc32.ProcessBuffer (List.replicate 256 0)) 0 512
            (List.replicate 256 0)) eaId modeXts false).2 = Except.ok none)
    ∧ (extract (mkBuf 5 0 (Crc32.ProcessBuffer (List.replicate 256 0)) 0 512
          (List.replicate 256 0)) 0 4 = veraMagic →
        wireVersion (mkBuf 5 0 (Crc32.ProcessBuffer (List.replicate 256 0)) 0 512
          (List.replicate 256 0)) < MinAllowedHeaderVersion →
        (Deserialize (VolumeHeader.ofSize 512)
          (mkBuf 5 0 (Crc32.ProcessBuffer (List.replicate 256 0)) 0 512
            (List.replicate 256 0)) eaId modeXts false).2 = Except.ok none)
    ∧ (extract (mkBuf 5 0 (Crc32.ProcessBuffer (List.replicate 256 0)) 0 512
          (List.replicate 256 0)) 0 4 = veraMagic →
        MinAllowedHeaderVersion ≤ wireVersion (mkBuf 5 0
          (Crc32.ProcessBuffer (List.replicate 256 0)) 0 512 (List.replicate 256 0)) →
        wireVersion (mkBuf 5 0 (Crc32.ProcessBuffer (List.replicate 256 0)) 0 512
          (List.replicate 256 0)) ≤ CurrentHeaderVersion →
        ¬ HeaderCrcOk (mkBuf 5 0 (Crc32.ProcessBuffer (List.replicate 256 0)) 0 512
          (List.replicate 256 0)) →
        (Deserialize (VolumeHeader.ofSize 512)
          (mkBuf 5 0 (Crc32.ProcessBuffer (List.replicate 256 0)) 0 512
            (List.replicate 256 0)) eaId modeXts false).2 = Except.ok none)
    ∧ (extract (mkBuf 5 0 (Crc32.ProcessBuffer (List.replicate 256 0)) 0 512
          (List.replicate 256 0)) 0 4 = veraMagic →
        MinAllowedHeaderVersion ≤ wireVersion (mkBuf 5 0
          (Crc32.ProcessBuffer (List.replicate 256 0)) 0 512 (List.replicate 256 0)) →
        wireVersion (mkBuf 5 0 (Crc32.ProcessBuffer (List.replicate 256 0)) 0 512
          (List.replicate 256 0)) ≤ CurrentHeaderVersion →
        HeaderCrcOk (mkBuf 5 0 (Crc32.ProcessBuffer (List.replicate 256 0)) 0 512
          (List.replicate 256 0)) →
        wireMinVersion (mkBuf 5 0 (Crc32.ProcessBuffer (List.replicate 256 0)) 0 512
          (List.replicate 256 0)) ≤ VersionNumber →
        SectorValid (effSector (mkBuf 5 0 (Crc32.ProcessBuffer (List.replicate 256 0))
          0 512 (List.replicate 256 0))) →
        ¬ KeyCrcOk (mkBuf 5 0 (Crc32.ProcessBuffer (List.replicate 256 0)) 0 512
          (List.replicate 256 0)) →
        (Deserialize (VolumeHeader.ofSize 512)
          (mkBuf 5 0 (Crc32.ProcessBuffer (List.replicate 256 0)) 0 512
            (List.replicate 256 0)) eaId modeXts false).2 = Except.ok none)
    ∧ (extract (mkBuf 5 0 (Crc32.ProcessBuffer (List.replicate 256 0)) 0 512
          (List.replicate 256 0)) 0 4 = veraMagic →
        wireVersion (mkBuf 5 0 (Crc32.ProcessBuffer (List.replicate 256 0)) 0 512
          (List.replicate 256 0)) > CurrentHeaderVersion →
        (Deserialize (VolumeHeader.ofSize 512)
          (mkBuf 5 0 (Crc32.ProcessBuffer (List.replicate 256 0)) 0 512
            (List.replicate 256 0)) eaId modeXts false).2 =
          Except.error VolumeError.HigherVersionRequired) :=
  C2_false_returns (VolumeHeader.ofSize 512)
    (mkBuf 5 0 (Crc32.ProcessBuffer (List.replicate 256 0)) 0 512
      (List.replicate 256 0)) eaId modeXts (by simp [mkBuf_length]) rfl

/-- C2 counterexample: a buffer passing magic, version window and header
CRC, with `RequiredMinProgramVersion` 0x9999 and a mismatching key-area
CRC.  The key-area CRC differs, yet `Deserialize` raises
`HigherVersionRequired` instead of returning false — and it does so
although `HeaderVersion` does not exceed `CurrentHeaderVersion`. -/
theorem C2_counterexample :
    ¬ KeyCrcOk (mkBuf 5 39321 (Crc32.ProcessBuffer (List.replicate 256 0) + 1) 0 512
        (List.replicate 256 0))
    ∧ (Deserialize (VolumeHeader.ofSize 512)
        (mkBuf 5 39321 (Crc32.ProcessBuffer (List.replicate 256 0) + 1) 0 512
          (List.replicate 256 0)) eaId modeXts false).2 =
        Except.error VolumeError.HigherVersionRequired
    ∧ wireVersion (mkBuf 5 39321 (Crc32.ProcessBuffer (List.replicate 256 0) + 1) 0 512
        (List.replicate 256 0)) ≤ CurrentHeaderVersion := by
  refine ⟨mkBuf_keycrcbad 5 39321 0 512 (List.replicate 256 0) (by simp), ?_, ?_⟩
  · rw [Deserialize_rmpvHigh (VolumeHeader.ofSize 512) _ eaId modeXts
      (by simp [mkBuf_length]) rfl (mkBuf_magic _ _ _ _ _ _)
      (by simp [mkBuf_version, MinAllowedHeaderVersion_eq])
      (by simp [mkBuf_version, CurrentHeaderVersion_eq])
      (mkBuf_crcok _ _ _ _ _ _)
      (by simp [mkBuf_minver, VersionNumber_eq])]
  · simp [mkBuf_version, CurrentHeaderVersion_eq]

theorem decryptAlgos_salt (enc hk : List Nat) (p : Pkcs5Kdf) (km : KeyedMode)
    (es : List EncryptionAlgorithm) :
    ∀ h : VolumeHeader,
      (decryptAlgos h enc hk false p km es).1.Salt = h.Salt := by
  induction es with
  | nil =>
    intro h
    rfl
  | cons e rest ih =>
    intro h
    simp only [decryptAlgos]
    split
    · exact ih h
    · rcases hD : Deserialize h (trialPlain enc h.EncryptedHeaderDataSize hk km e)
        e km.mode false with ⟨st1, r1⟩
      have hfr := Deserialize_frame h _ e km.mode false st1 r1 hD
      rcases r1 with e1 | o1
      · exact hfr.1
      · rcases o1 with _ | keyed
        · dsimp only
          rw [ih st1]
          exact hfr.1
        · exact hfr.1

theorem decryptModes_salt (enc hk : List Nat) (p : Pkcs5Kdf)
    (es : List EncryptionAlgorithm) (ms : List EncryptionMode) :
    ∀ h : VolumeHeader,
      (decryptModes h enc hk false p es ms).1.Salt = h.Salt := by
  induction ms with
  | nil =>
    intro h
    rfl
  | cons m rest ih =>
    intro h
    simp only [decryptModes]
    rcases hA : decryptAlgos h enc hk false p (kmOf hk m) es with ⟨st1, r1, n1⟩
    have hs1 : st1.Salt = h.Salt := by
      have := decryptAlgos_salt enc hk p (kmOf hk m) es h
      rw [hA] at this
      exact this
    rcases r1 with e1 | b1
    · exact hs1
    · rcases b1 with _ | _
      · dsimp only
        rw [ih st1, hs1]
      · exact hs1

theorem decryptKdfs_salt (enc pw : List Nat) (pim : Int) (kdfOpt : Option Pkcs5Kdf)
    (salt : List Nat) (es : List EncryptionAlgorithm) (ms : List EncryptionMode)
    (ks : List Pkcs5Kdf) :
    ∀ h : VolumeHeader,
      (decryptKdfs h enc pw pim kdfOpt false salt es ms ks).1.Salt = h.Salt := by
  induction ks with
  | nil =>
    intro h
    rfl
  | cons p rest ih =>
    intro h
    simp only [decryptKdfs]
    split
    · exact ih h
    · rcases hM : decryptModes h enc
        (p.deriveKey GetLargestSerializedKeySize pw pim salt) false p es ms
        with ⟨st1, r1, n1⟩
      have hs1 : st1.Salt = h.Salt := by
        have := decryptModes_salt enc
          (p.deriveKey GetLargestSerializedKeySize pw pim salt) p es ms h
        rw [hM] at this
        exact this
      rcases r1 with e1 | b1
      · exact hs1
      · rcases b1 with _ | _
        · dsimp only
          rw [ih st1, hs1]
        · exact hs1

/-- C7: wrong-password frame.  When every non-skipped (KDF, mode,
algorithm) candidate fails its deserialization checks, `Decrypt` returns
false and the header object's `EA`, `Pkcs5` and `DataAreaKey` fields are
unchanged from their values before the call. -/
theorem C7_wrong_password_frame (h : VolumeHeader)
    (encryptedData password : List Nat) (pim : Int) (kdf : Option Pkcs5Kdf)
    (ks : List Pkcs5Kdf) (es : List EncryptionAlgorithm)
    (ms : List EncryptionMode)
    (hE : h.EncryptedHeaderDataSize = 448)
    (hpw : 1 ≤ password.length)
    (hall : ∀ p ∈ ks, ∀ m ∈ ms, ∀ e ∈ es, e.isModeSupported m = true →
      FalseTrial (trialOf encryptedData password pim p m e)) :
    ∃ st d n, Decrypt h encryptedData password pim kdf false ks es ms =
        (st, Except.ok false, d, n)
      ∧ st.EA = h.EA ∧ st.Pkcs5 = h.Pkcs5 ∧ st.DataAreaKey = h.DataAreaKey := by
  simp only [Decrypt]
  rw [if_neg (by omega)]
  obtain ⟨st, d, n, heq, f1, f2, f3, f4, f5⟩ :=
    decryptKdfs_allFail_any encryptedData password pim kdf
      (extract encryptedData SaltOffset SaltSize) es ms ks
      { h with Salt := extract encryptedData SaltOffset SaltSize }
      hE
      (fun p hp m hm e he hs => by
        have := hall p hp m hm e he hs
        simpa [trialOf] using this)
  exact ⟨st, d, n, heq, f2.trans rfl, f3.trans rfl, f4.trans rfl⟩

/-- Witness for C7: an all-zero blob (magic can never match) under a
concrete singleton search. -/
theorem C7_wrong_password_frame_witness :
    ∃ st d n, Decrypt (VolumeHeader.ofSize 512) (List.replicate 512 0) [7] 0 none
        false [kdfOnes] [eaId] [modeXts] =
        (st, Except.ok false, d, n)
      ∧ st.EA = (VolumeHeader.ofSize 512).EA
      ∧ st.Pkcs5 = (VolumeHeader.ofSize 512).Pkcs5
      ∧ st.DataAreaKey = (VolumeHeader.ofSize 512).DataAreaKey :=
  C7_wrong_password_frame (VolumeHeader.ofSize 512) (List.replicate 512 0) [7] 0
    none [kdfOnes] [eaId] [modeXts] rfl (by decide) (by decide)

/-- C10: failure side effects.  (a) Whatever the trial search returns,
`Decrypt` (with a non-empty password) has overwritten the header object's
`Salt` with blob bytes [SaltOffset, SaltOffset+SaltSize).  (b) A candidate
plaintext that passes the magic, version-window, header-CRC,
minimum-program-version and sector gates but fails the key-area CRC makes
`Deserialize` return false with every parsed field — HeaderVersion,
RequiredMinProgramVersion, VolumeKeyAreaCrc32, VolumeCreationTime,
HeaderCreationTime, HiddenVolumeDataSize, VolumeType, VolumeDataSize,
EncryptedAreaStart, EncryptedAreaLength, Flags, SectorSize — overwritten
with values parsed from that candidate. -/
theorem C10_failure_side_effects (h : VolumeHeader)
    (encryptedData password buf : List Nat) (pim : Int) (kdf : Option Pkcs5Kdf)
    (ks : List Pkcs5Kdf) (es : List EncryptionAlgorithm) (ms : List EncryptionMode)
    (ea : EncryptionAlgorithm) (m : EncryptionMode)
    (hpw : 1 ≤ password.length)
    (hlen : buf.length = 448) (hE : h.EncryptedHeaderDataSize = 448)
    (hmagic : extract buf 0 4 = veraMagic)
    (hv1 : MinAllowedHeaderVersion ≤ wireVersion buf)
    (hv2 : wireVersion buf ≤ CurrentHeaderVersion)
    (hcrc : HeaderCrcOk buf)
    (hrmpv : wireMinVersion buf ≤ VersionNumber)
    (hsec : SectorValid (effSector buf))
    (hkey : ¬ KeyCrcOk buf) :
    (Decrypt h encryptedData password pim kdf false ks es ms).1.Salt =
      extract encryptedData SaltOffset SaltSize
    ∧ Deserialize h buf ea m false =
        ({ h with
            HeaderVersion := wireVersion buf
            RequiredMinProgramVersion := wireMinVersion buf
            VolumeKeyAreaCrc32 := wireKeyCrc buf
            VolumeCreationTime := readBE buf 12 8
            HeaderCreationTime := readBE buf 20 8
            HiddenVolumeDataSize := readBE buf 28 8
            mVolumeType :=
              if readBE buf 28 8 ≠ 0 then VolumeType.Hidden else VolumeType.Normal
            VolumeDataSize := readBE buf 36 8
            EncryptedAreaStart := readBE buf 44 8
            EncryptedAreaLength := readBE buf 52 8
            Flags := readBE buf 60 4
            SectorSize := effSector buf },
          Except.ok none) := by
  constructor
  · simp only [Decrypt]
    rw [if_neg (by omega)]
    rw [decryptKdfs_salt]
  · rw [Deserialize_char h buf ea m hlen hE hmagic hv1 hv2 hcrc hrmpv]
    rw [if_neg (sectorValid_not _ hsec)]
    rw [if_pos (by simpa [KeyCrcOk] using hkey)]
    rfl

/-- Witness for C10 at an all-zero blob and a key-CRC-failing candidate
with a nonzero hidden-volume size. -/
theorem C10_failure_side_effects_witness :
    (Decrypt (VolumeHeader.ofSize 512) (List.replicate 512 0) [7] 0 none false
        [kdfOnes] [eaId] [modeXts]).1.Salt =
      extract (List.replicate 512 0) SaltOffset SaltSize
    ∧ Deserialize (VolumeHeader.ofSize 512)
        (mkBuf 5 0 (Crc32.ProcessBuffer (List.replicate 256 0) + 1) 7 512
          (List.replicate 256 0)) eaId modeXts false =
        ({ VolumeHeader.ofSize 512 with
            HeaderVersion := wireVersion (mkBuf 5 0
              (Crc32.ProcessBuffer (List.replicate 256 0) + 1) 7 512
              (List.replicate 256 0))
            RequiredMinProgramVersion := wireMinVersion (mkBuf 5 0
              (Crc32.ProcessBuffer (List.replicate 256 0) + 1) 7 512
              (List.replicate 256 0))
            VolumeKeyAreaCrc32 := wireKeyCrc (mkBuf 5 0
              (Crc32.ProcessBuffer (List.replicate 256 0) + 1) 7 512
              (List.replicate 256 0))
            VolumeCreationTime := readBE (mkBuf 5 0
              (Crc32.ProcessBuffer (List.replicate 256 0) + 1) 7 512
              (List.replicate 256 0)) 12 8
            HeaderCreationTime := readBE (mkBuf 5 0
              (Crc32.ProcessBuffer (List.replicate 256 0) + 1) 7 512
              (List.replicate 256 0)) 20 8
            HiddenVolumeDataSize := readBE (mkBuf 5 0
              (Crc32.ProcessBuffer (List.replicate 256 0) + 1) 7 512
              (List.replicate 256 0)) 28 8
            mVolumeType :=
              if readBE (mkBuf 5 0 (Crc32.ProcessBuffer (List.replicate 256 0) + 1)
                  7 512 (List.replicate 256 0)) 28 8 ≠ 0 then VolumeType.Hidden
              else VolumeType.Normal
            VolumeDataSize := readBE (mkBuf 5 0
              (Crc32.ProcessBuffer (List.replicate 256 0) + 1) 7 512
              (List.replicate 256 0)) 36 8
            EncryptedAreaStart := readBE (mkBuf 5 0
              (Crc32.ProcessBuffer (List.replicate 256 0) + 1) 7 512
              (List.replicate 256 0)) 44 8
            EncryptedAreaLength := readBE (mkBuf 5 0
              (Crc32.ProcessBuffer (List.replicate 256 0) + 1) 7 512
              (List.replicate 256 0)) 52 8
            Flags := readBE (mkBuf 5 0
              (Crc32.ProcessBuffer (List.replicate 256 0) + 1) 7 512
              (List.replicate 256 0)) 60 4
            SectorSize := effSector (mkBuf 5 0
              (Crc32.ProcessBuffer (List.replicate 256 0) + 1) 7 512
              (List.replicate 256 0)) },
          Except.ok none) :=
  C10_failure_side_effects (VolumeHeader.ofSize 512) (List.replicate 512 0) [7]
    (mkBuf 5 0 (Crc32.ProcessBuffer (List.replicate 256 0) + 1) 7 512
      (List.replicate 256 0)) 0 none [kdfOnes] [eaId] [modeXts] eaId modeXts
    (by decide) (by simp [mkBuf_length]) rfl (mkBuf_magic _ _ _ _ _ _)
    (by simp [mkBuf_version, MinAllowedHeaderVersion_eq])
    (by simp [mkBuf_version, CurrentHeaderVersion_eq])
    (mkBuf_crcok _ _ _ _ _ _)
    (by simp [mkBuf_minver, VersionNumber_eq])
    (by simp [SectorValid, effSector, mkBuf_version, mkBuf_sector,
      TC_MIN_VOLUME_SECTOR_SIZE, TC_MAX_VOLUME_SECTOR_SIZE,
      ENCRYPTION_DATA_UNIT_SIZE])
    (mkBuf_keycrcbad 5 0 7 512 (List.replicate 256 0) (by simp))


/-- C3: search ordering.  With the (KDF, mode, algorithm) lists split
around a unique matching triple at position (i, j, k) = (|ks1|, |ms1|,
|es1|) — every candidate strictly earlier in the KDF-outer, mode-middle,
algorithm-inner product order fails its trial — `Decrypt` returns true,
calls `DeriveKey` exactly |ks1| + 1 times, and calls `Deserialize` exactly
|ks1|·supPairs(ms, es) + supPairs(ms1, es) + supAlgos(m, es1) + 1 times,
where the sup counts omit candidates skipped because `IsModeSupported` is
false. -/
theorem C3_search_ordering (h : VolumeHeader)
    (encryptedData password : List Nat) (pim : Int)
    (ks1 : List Pkcs5Kdf) (p : Pkcs5Kdf) (ks2 : List Pkcs5Kdf)
    (ms1 : List EncryptionMode) (m : EncryptionMode) (ms2 : List EncryptionMode)
    (es1 : List EncryptionAlgorithm) (e : EncryptionAlgorithm)
    (es2 : List EncryptionAlgorithm)
    (hE : h.EncryptedHeaderDataSize = 448)
    (hpw : 1 ≤ password.length)
    (hfailK : ∀ p' ∈ ks1, ∀ m' ∈ ms1 ++ m :: ms2, ∀ e' ∈ es1 ++ e :: es2,
      e'.isModeSupported m' = true →
      FalseTrial (trialOf encryptedData password pim p' m' e'))
    (hfailM : ∀ m' ∈ ms1, ∀ e' ∈ es1 ++ e :: es2, e'.isModeSupported m' = true →
      FalseTrial (trialOf encryptedData password pim p m' e'))
    (hfailA : ∀ e' ∈ es1, e'.isModeSupported m = true →
      FalseTrial (trialOf encryptedData password pim p m e'))
    (hsup : e.isModeSupported m = true)
    (hsucc : TrueTrial (trialOf encryptedData password pim p m e)) :
    ∃ st, Decrypt h encryptedData password pim none false (ks1 ++ p :: ks2)
        (es1 ++ e :: es2) (ms1 ++ m :: ms2) =
      (st, Except.ok true, ks1.length + 1,
        ks1.length * supPairs (ms1 ++ m :: ms2) (es1 ++ e :: es2)
          + (supPairs ms1 (es1 ++ e :: es2) + (supAlgos m es1 + 1))) := by
  simp only [Decrypt]
  rw [if_neg (by omega)]
  exact decryptKdfs_success encryptedData password pim
    (extract encryptedData SaltOffset SaltSize) es1 e es2 ms1 m ms2 p ks2 ks1
    { h with Salt := extract encryptedData SaltOffset SaltSize } hE
    (fun p' hp' m' hm' e' he' hs' => by
      have := hfailK p' hp' m' hm' e' he' hs'
      simpa [trialOf] using this)
    (fun m' hm' e' he' hs' => by
      have := hfailM m' hm' e' he' hs'
      simpa [trialOf] using this)
    (fun e' he' hs' => by
      have := hfailA e' he' hs'
      simpa [trialOf] using this)
    hsup
    (by
      have := hsucc
      simpa [trialOf] using this)

theorem bufC3_length : bufC3.length = 448 :=
  mkBuf_length _ _ _ _ _ _ (by simp)

theorem blobC3_extract : extract blobC3 EncryptedHeaderDataOffset 448 = bufC3 := by
  unfold blobC3
  rw [EncryptedHeaderDataOffset_eq, extract_append_right _ _ _ _ (by simp)]
  simp only [List.length_replicate]
  norm_num
  exact extract_self _ _ bufC3_length

theorem trialC3_xtsOnly (pw : List Nat) (pim : Int) (p' : Pkcs5Kdf) :
    trialOf blobC3 pw pim p' modeXts eaXtsOnly = List.replicate 448 0 := by
  simp only [trialOf, trialPlain]
  rw [kmOf_mode]
  rw [if_pos (by decide)]
  show List.replicate (extract blobC3 EncryptedHeaderDataOffset 448).length 0 = _
  rw [blobC3_extract, bufC3_length]

theorem trialC3_pickTwos :
    trialOf blobC3 [7] 0 kdfTwos modeXts eaPick = List.replicate 448 0 := by
  simp only [trialOf, trialPlain]
  rw [kmOf_mode]
  rw [if_pos (by decide)]
  show (if extract (kdfTwos.deriveKey GetLargestSerializedKeySize [7] 0
      (extract blobC3 SaltOffset SaltSize)) 0 eaPick.keySize =
      List.replicate 32 1 then extract blobC3 EncryptedHeaderDataOffset 448
    else List.replicate (extract blobC3 EncryptedHeaderDataOffset 448).length 0) = _
  rw [if_neg (by decide)]
  rw [blobC3_extract, bufC3_length]

theorem trialC3_pickOnes :
    trialOf blobC3 [7] 0 kdfOnes modeXts eaPick = bufC3 := by
  simp only [trialOf, trialPlain]
  rw [kmOf_mode]
  rw [if_pos (by decide)]
  show (if extract (kdfOnes.deriveKey GetLargestSerializedKeySize [7] 0
      (extract blobC3 SaltOffset SaltSize)) 0 eaPick.keySize =
      List.replicate 32 1 then extract blobC3 EncryptedHeaderDataOffset 448
    else List.replicate (extract blobC3 EncryptedHeaderDataOffset 448).length 0) = _
  rw [if_pos (by decide)]
  exact blobC3_extract

theorem trueTrial_bufC3 : TrueTrial bufC3 := by
  refine ⟨bufC3_length, mkBuf_magic _ _ _ _ _ _, ?_, ?_, mkBuf_crcok _ _ _ _ _ _,
    ?_, ?_, mkBuf_keycrcok _ _ _ _ _ (by simp)⟩
  · show MinAllowedHeaderVersion ≤ wireVersion bufC3
    simp [bufC3, mkBuf_version, MinAllowedHeaderVersion_eq]
  · show wireVersion bufC3 ≤ CurrentHeaderVersion
    simp [bufC3, mkBuf_version, CurrentHeaderVersion_eq]
  · show wireMinVersion bufC3 ≤ VersionNumber
    simp [bufC3, mkBuf_minver, VersionNumber_eq]
  · show SectorValid (effSector bufC3)
    simp [SectorValid, effSector, bufC3, mkBuf_version, mkBuf_sector,
      TC_MIN_VOLUME_SECTOR_SIZE, TC_MAX_VOLUME_SECTOR_SIZE,
      ENCRYPTION_DATA_UNIT_SIZE]

/-- Witness for C3: KDF list [kdfTwos, kdfOnes], algorithm list
[eaXtsOnly, eaPick], mode list [modeXts]; the unique matching triple is
(kdfOnes, modeXts, eaPick) at position (1, 0, 1): 2 derivations and 4
deserializations. -/
theorem C3_search_ordering_witness :
    ∃ st, Decrypt (VolumeHeader.ofSize 512) blobC3 [7] 0 none false
        [kdfTwos, kdfOnes] [eaXtsOnly, eaPick] [modeXts] =
      (st, Except.ok true, 2, 4) :=
  C3_search_ordering (VolumeHeader.ofSize 512) blobC3 [7] 0
    [kdfTwos] kdfOnes [] [] modeXts [] [eaXtsOnly] eaPick [] rfl (by decide)
    (fun p' hp' m' hm' e' he' hs' => by
      have hp'' : p' = kdfTwos := by simpa using hp'
      have hm'' : m' = modeXts := by simpa using hm'
      subst hp''
      subst hm''
      rcases (by simpa using he' : e' = eaXtsOnly ∨ e' = eaPick) with he'' | he''
      · subst he''
        rw [trialC3_xtsOnly]
        decide
      · subst he''
        rw [trialC3_pickTwos]
        decide)
    (fun m' hm' => absurd hm' (by simp))
    (fun e' he' hs' => by
      have he'' : e' = eaXtsOnly := by simpa using he'
      subst he''
      rw [trialC3_xtsOnly]
      decide)
    rfl
    (by rw [trialC3_pickOnes]; exact trueTrial_bufC3)

theorem keyArea_success (h : VolumeHeader) (header : List Nat)
    (ea : EncryptionAlgorithm) (mode : EncryptionMode)
    (st : VolumeHeader) (k : KeyedEA)
    (hD : deserializeKeyArea h header ea mode = (st, Except.ok (some k))) :
    k = keyedOf header ea mode := by
  simp only [deserializeKeyArea] at hD
  split at hD
  · injection hD with h1 h2
    simp at h2
  · injection hD with h1 h2
    injection h2 with h3
    injection h3 with h4
    rw [← h4]
    unfold keyedOf
    rfl

theorem sector_success (h : VolumeHeader) (header : List Nat)
    (ea : EncryptionAlgorithm) (mode : EncryptionMode)
    (st : VolumeHeader) (k : KeyedEA)
    (hD : deserializeSector h header ea mode = (st, Except.ok (some k))) :
    k = keyedOf header ea mode := by
  simp only [deserializeSector] at hD
  repeat' split at hD
  all_goals first
    | (have hh := keyArea_success _ _ _ _ st k hD
       exact hh)
    | (injection hD with h1 h2
       simp at h2)

theorem fields_success (h : VolumeHeader) (header : List Nat)
    (ea : EncryptionAlgorithm) (mode : EncryptionMode) (offset2 : Nat)
    (st : VolumeHeader) (k : KeyedEA)
    (hD : deserializeFields h header ea mode offset2 = (st, Except.ok (some k))) :
    k = keyedOf header ea mode := by
  simp only [deserializeFields] at hD
  repeat' split at hD
  all_goals first
    | (have hh := sector_success _ _ _ _ st k hD
       exact hh)
    | (injection hD with h1 h2
       simp at h2)

theorem versionTail_success (h : VolumeHeader) (header : List Nat)
    (ea : EncryptionAlgorithm) (mode : EncryptionMode) (tc : Bool) (offset1 : Nat)
    (st : VolumeHeader) (k : KeyedEA)
    (hD : deserializeVersionTail h header ea mode tc offset1 =
      (st, Except.ok (some k))) :
    k = keyedOf header ea mode := by
  simp only [deserializeVersionTail] at hD
  repeat' split at hD
  all_goals first
    | (have hh := fields_success _ _ _ _ _ st k hD
       exact hh)
    | (injection hD with h1 h2
       simp at h2)

theorem Deserialize_success (h : VolumeHeader) (header : List Nat)
    (ea : EncryptionAlgorithm) (mode : EncryptionMode) (tc : Bool)
    (st : VolumeHeader) (k : KeyedEA)
    (hD : Deserialize h header ea mode tc = (st, Except.ok (some k))) :
    k = keyedOf header ea mode := by
  simp only [Deserialize] at hD
  repeat' split at hD
  all_goals first
    | (have hh := versionTail_success _ _ _ _ _ _ st k hD
       exact hh)
    | (injection hD with h1 h2
       simp at h2)

/-- C4: key-layout dichotomy.  (a) The keyed algorithm/mode a successful
`Deserialize` rebinds takes its keys from the data-area key region: for
XTS the cipher key is bytes [0, EA.KeySize) and the tweak key bytes
[EA.KeySize, 2·EA.KeySize) of the region; for a legacy mode the mode key
is bytes [0, mode.KeySize) and the cipher key starts at
`LegacyEncryptionModeKeyAreaSize`.  (b) The trial search of `Decrypt`
(mode pre-binding composed with the per-algorithm keying) decrypts the
encrypted region with keys cut from the derived header key by the same
dichotomy.  (c)/(d) `EncryptNew` and `Encrypt` key the cipher from the
new/latched header key by the same dichotomy. -/
theorem C4_key_layout (h : VolumeHeader) (kea : KeyedEA)
    (buf enc salt hk data : List Nat) (ehds : Nat)
    (ea : EncryptionAlgorithm) (m : EncryptionMode) (kdfO : Option Pkcs5Kdf)
    (hEA : h.EA = some kea) (hsalt : salt.length = 64)
    (hser : Serialize h = Except.ok data) :
    (∀ st keyed, Deserialize h buf ea m false = (st, Except.ok (some keyed)) →
      keyed.alg = ea ∧ keyed.mode.mode = m
      ∧ (m.isXTS = true →
          keyed.key = extract buf DataAreaKeyOffset ea.keySize
          ∧ keyed.mode.key =
              extract buf (DataAreaKeyOffset + ea.keySize) ea.keySize)
      ∧ (m.isXTS = false →
          keyed.key =
              extract buf (DataAreaKeyOffset + LegacyEncryptionModeKeyAreaSize)
                ea.keySize
          ∧ keyed.mode.key = extract buf DataAreaKeyOffset m.keySize))
    ∧ trialPlain enc ehds hk (kmOf hk m) ea =
        ea.decryptOp m
          (if m.isXTS then extract hk 0 ea.keySize
           else extract hk LegacyEncryptionModeKeyAreaSize ea.keySize)
          (if m.isXTS then extract hk ea.keySize ea.keySize
           else extract hk 0 m.keySize)
          (extract enc EncryptedHeaderDataOffset ehds)
    ∧ EncryptNew h salt hk kdfO =
        Except.ok
          (salt ++ kea.alg.encryptOp kea.mode.mode
            (if kea.mode.mode.isXTS then extract hk 0 kea.alg.keySize
             else extract hk LegacyEncryptionModeKeyAreaSize kea.alg.keySize)
            (if kea.mode.mode.isXTS then extract hk kea.alg.keySize kea.alg.keySize
             else extract hk 0 kea.mode.mode.keySize)
            data,
           match kdfO with
           | some kdf => { h with Pkcs5 := some kdf }
           | none => h)
    ∧ Encrypt h =
        Except.ok
          (h.Salt ++ kea.alg.encryptOp kea.mode.mode
            (if kea.mode.mode.isXTS then extract h.HeaderKey 0 kea.alg.keySize
             else extract h.HeaderKey LegacyEncryptionModeKeyAreaSize
               kea.alg.keySize)
            (if kea.mode.mode.isXTS then
               extract h.HeaderKey kea.alg.keySize kea.alg.keySize
             else extract h.HeaderKey 0 kea.mode.mode.keySize)
            data) := by
  refine ⟨?_, ?_, EncryptNew_char h kea salt hk data kdfO hEA hsalt hser,
    Encrypt_char h kea data hEA hser⟩
  · intro st keyed hD
    have hkk := Deserialize_success h buf ea m false st keyed hD
    subst hkk
    unfold keyedOf
    by_cases hX : m.isXTS
    · rw [if_pos hX]
      refine ⟨rfl, rfl, fun _ => ⟨rfl, rfl⟩, fun hF => ?_⟩
      rw [hX] at hF
      cases hF
    · rw [if_neg hX]
      refine ⟨rfl, rfl, fun hT => ?_, fun _ => ⟨rfl, rfl⟩⟩
      rw [hT] at hX
      exact absurd rfl hX
  · unfold trialPlain
    rw [kmOf_mode]
    by_cases hX : m.isXTS
    · rw [if_pos hX, if_pos hX, if_pos hX]
    · rw [if_neg hX, if_neg hX, if_neg hX]
      show ea.decryptOp m _ (kmOf hk m).key _ = _
      unfold kmOf
      rw [if_neg hX]

/-- Witness for C4 at concrete header, buffers and keys. -/
theorem C4_key_layout_witness :
    (∀ st keyed, Deserialize HW1 bufC3 eaId modeXts false =
        (st, Except.ok (some keyed)) →
      keyed.alg = eaId ∧ keyed.mode.mode = modeXts
      ∧ (modeXts.isXTS = true →
          keyed.key = extract bufC3 DataAreaKeyOffset eaId.keySize
          ∧ keyed.mode.key =
              extract bufC3 (DataAreaKeyOffset + eaId.keySize) eaId.keySize)
      ∧ (modeXts.isXTS = false →
          keyed.key =
              extract bufC3 (DataAreaKeyOffset + LegacyEncryptionModeKeyAreaSize)
                eaId.keySize
          ∧ keyed.mode.key = extract bufC3 DataAreaKeyOffset modeXts.keySize))
    ∧ trialPlain blobC3 448 (List.replicate 192 1)
        (kmOf (List.replicate 192 1) modeXts) eaId =
        eaId.decryptOp modeXts
          (if modeXts.isXTS then extract (List.replicate 192 1) 0 eaId.keySize
           else extract (List.replicate 192 1) LegacyEncryptionModeKeyAreaSize
             eaId.keySize)
          (if modeXts.isXTS then
             extract (List.replicate 192 1) eaId.keySize eaId.keySize
           else extract (List.replicate 192 1) 0 modeXts.keySize)
          (extract blobC3 EncryptedHeaderDataOffset 448)
    ∧ EncryptNew HW1 (List.replicate 64 2) (List.replicate 192 1) none =
        Except.ok
          (List.replicate 64 2 ++ keaW.alg.encryptOp keaW.mode.mode
            (if keaW.mode.mode.isXTS then
               extract (List.replicate 192 1) 0 keaW.alg.keySize
             else extract (List.replicate 192 1) LegacyEncryptionModeKeyAreaSize
               keaW.alg.keySize)
            (if keaW.mode.mode.isXTS then
               extract (List.replicate 192 1) keaW.alg.keySize keaW.alg.keySize
             else extract (List.replicate 192 1) 0 keaW.mode.mode.keySize)
            (serializedForm HW1),
           match (none : Option Pkcs5Kdf) with
           | some kdf => { HW1 with Pkcs5 := some kdf }
           | none => HW1)
    ∧ Encrypt HW1 =
        Except.ok
          (HW1.Salt ++ keaW.alg.encryptOp keaW.mode.mode
            (if keaW.mode.mode.isXTS then extract HW1.HeaderKey 0 keaW.alg.keySize
             else extract HW1.HeaderKey LegacyEncryptionModeKeyAreaSize
               keaW.alg.keySize)
            (if keaW.mode.mode.isXTS then
               extract HW1.HeaderKey keaW.alg.keySize keaW.alg.keySize
             else extract HW1.HeaderKey 0 keaW.mode.mode.keySize)
            (serializedForm HW1)) :=
  C4_key_layout HW1 keaW bufC3 blobC3 (List.replicate 64 2) (List.replicate 192 1)
    (serializedForm HW1) 448 eaId modeXts none rfl (by simp)
    (Serialize_char HW1 rfl (by simp [HW1]) (by decide))


/-- C6 (amended): endian-codec bounds.  The advancing variants
(`DeserializeEntry`, `SerializeEntry`) advance the offset by the width
BEFORE the access and fail — with `ParameterIncorrect`, not the claim's
`Malformed` — exactly when the post-advance offset exceeds the buffer
length; within bounds they read/write the width-sized big-endian field at
the pre-advance offset, and the write preserves the buffer length (no
out-of-buffer store).  The explicit-offset variant `DeserializeEntryAt`
checks only `offset > length`, so — contrary to the claim — it does not
fail when `offset ≤ length < offset + width`; it succeeds with only the
remaining bytes. -/
theorem C6_codec_bounds (w v off : Nat) (hdr : List Nat) :
    (off + w > hdr.length →
      DeserializeEntry w hdr off = Except.error VolumeError.ParameterIncorrect)
    ∧ (off + w ≤ hdr.length →
        DeserializeEntry w hdr off = Except.ok (readBE hdr off w, off + w))
    ∧ (off + w > hdr.length →
        SerializeEntry w v hdr off = Except.error VolumeError.ParameterIncorrect)
    ∧ (off + w ≤ hdr.length →
        SerializeEntry w v hdr off =
          Except.ok (setBytes hdr off (beBytes w v), off + w)
        ∧ (setBytes hdr off (beBytes w v)).length = hdr.length)
    ∧ (off > hdr.length →
        DeserializeEntryAt w hdr off = Except.error VolumeError.ParameterIncorrect)
    ∧ (off ≤ hdr.length →
        DeserializeEntryAt w hdr off = Except.ok (readBE hdr off w)) := by
  refine ⟨?_, ?_, ?_, ?_, ?_, ?_⟩
  · intro hb
    exact deserializeEntry_err w hdr off hb
  · intro hb
    exact deserializeEntry_ok w hdr off hb
  · intro hb
    unfold SerializeEntry
    rw [if_pos (by omega)]
  · intro hb
    exact ⟨serializeEntry_ok w v hdr off hb,
      setBytes_length hdr (beBytes w v) off (by rw [beBytes_length]; omega)⟩
  · intro hb
    unfold DeserializeEntryAt
    rw [if_pos hb]
  · intro hb
    exact deserializeEntryAt_ok w hdr off hb

/-- Witness for C6 at a concrete buffer: an out-of-bounds advancing read
fails with `ParameterIncorrect`, and an in-bounds explicit-offset read
succeeds. -/
theorem C6_codec_bounds_witness :
    DeserializeEntry 4 (List.replicate 8 5) 6 =
      Except.error VolumeError.ParameterIncorrect
    ∧ DeserializeEntryAt 4 (List.replicate 8 5) 6 =
      Except.ok (readBE (List.replicate 8 5) 6 4) :=
  ⟨(C6_codec_bounds 4 0 6 (List.replicate 8 5)).1 (by decide),
   (C6_codec_bounds 4 0 6 (List.replicate 8 5)).2.2.2.2.2 (by decide)⟩

/-- C6 counterexample: the failure error is `ParameterIncorrect`, not
`Malformed`; and `DeserializeEntryAt` succeeds on a 4-byte read at offset
2 of a 4-byte buffer (2 + 4 > 4), reading past the end instead of
failing. -/
theorem C6_counterexample :
    DeserializeEntry 2 ([] : List Nat) 0 =
      Except.error VolumeError.ParameterIncorrect
    ∧ (Except.error VolumeError.ParameterIncorrect :
        Except VolumeError (Nat × Nat)) ≠ Except.error VolumeError.Malformed
    ∧ DeserializeEntryAt 4 [0, 0, 0, 0] 2 = Except.ok 0
    ∧ 2 + 4 > ([0, 0, 0, 0] : List Nat).length := by
  refine ⟨rfl, by simp, rfl, by decide⟩

theorem keyArea_I6pres (h : VolumeHeader) (header : List Nat)
    (ea : EncryptionAlgorithm) (mode : EncryptionMode)
    (st : VolumeHeader) (k : KeyedEA)
    (hD : deserializeKeyArea h header ea mode = (st, Except.ok (some k))) :
    st.mVolumeType = h.mVolumeType
      ∧ st.HiddenVolumeDataSize = h.HiddenVolumeDataSize := by
  simp only [deserializeKeyArea] at hD
  split at hD
  · injection hD with h1 h2
    simp at h2
  · injection hD with h1 h2
    subst h1
    exact ⟨rfl, rfl⟩

theorem sector_I6pres (h : VolumeHeader) (header : List Nat)
    (ea : EncryptionAlgorithm) (mode : EncryptionMode)
    (st : VolumeHeader) (k : KeyedEA)
    (hD : deserializeSector h header ea mode = (st, Except.ok (some k))) :
    st.mVolumeType = h.mVolumeType
      ∧ st.HiddenVolumeDataSize = h.HiddenVolumeDataSize := by
  simp only [deserializeSector] at hD
  repeat' split at hD
  all_goals first
    | (simp at hD)
    | (obtain ⟨p1, p2⟩ := keyArea_I6pres _ _ _ _ st k hD
       exact ⟨p1.trans rfl, p2.trans rfl⟩)

theorem fields_I6 (h : VolumeHeader) (header : List Nat)
    (ea : EncryptionAlgorithm) (mode : EncryptionMode) (offset2 : Nat)
    (st : VolumeHeader) (k : KeyedEA)
    (hD : deserializeFields h header ea mode offset2 = (st, Except.ok (some k))) :
    st.mVolumeType = VolumeType.Hidden ↔ st.HiddenVolumeDataSize ≠ 0 := by
  simp only [deserializeFields] at hD
  repeat' split at hD
  all_goals first
    | (simp at hD)
    | (obtain ⟨p1, p2⟩ := sector_I6pres _ _ _ _ st k hD
       rw [p1, p2]
       dsimp only
       first
         | exact iff_of_true rfl (by assumption)
         | exact iff_of_false (by simp) (by assumption))

theorem versionTail_I6 (h : VolumeHeader) (header : List Nat)
    (ea : EncryptionAlgorithm) (mode : EncryptionMode) (tc : Bool) (offset1 : Nat)
    (st : VolumeHeader) (k : KeyedEA)
    (hD : deserializeVersionTail h header ea mode tc offset1 =
      (st, Except.ok (some k))) :
    st.mVolumeType = VolumeType.Hidden ↔ st.HiddenVolumeDataSize ≠ 0 := by
  simp only [deserializeVersionTail] at hD
  repeat' split at hD
  all_goals first
    | (simp at hD)
    | (have hh := fields_I6 _ _ _ _ _ st k hD
       exact hh)

theorem Deserialize_I6 (h : VolumeHeader) (header : List Nat)
    (ea : EncryptionAlgorithm) (mode : EncryptionMode) (tc : Bool)
    (st : VolumeHeader) (k : KeyedEA)
    (hD : Deserialize h header ea mode tc = (st, Except.ok (some k))) :
    st.mVolumeType = VolumeType.Hidden ↔ st.HiddenVolumeDataSize ≠ 0 := by
  simp only [Deserialize] at hD
  repeat' split at hD
  all_goals first
    | (simp at hD)
    | (have hh := versionTail_I6 _ _ _ _ _ _ st k hD
       exact hh)

theorem algos_I6 (enc hk : List Nat) (p : Pkcs5Kdf) (km : KeyedMode)
    (es : List EncryptionAlgorithm) :
    ∀ (h st : VolumeHeader) (n : Nat),
      decryptAlgos h enc hk false p km es = (st, Except.ok true, n) →
      (st.mVolumeType = VolumeType.Hidden ↔ st.HiddenVolumeDataSize ≠ 0) := by
  induction es with
  | nil =>
    intro h st n hD
    simp [decryptAlgos] at hD
  | cons e rest ih =>
    intro h st n hD
    simp only [decryptAlgos] at hD
    split at hD
    · exact ih h st n hD
    · split at hD
      · simp at hD
      · rename_i heq
        injection hD with h1 h2
        subst h1
        have hh := Deserialize_I6 _ _ _ _ _ _ _ heq
        exact hh
      · rename_i h2 heq
        rcases hr : decryptAlgos h2 enc hk false p km rest with ⟨st2, r2, n2⟩
        rw [hr] at hD
        dsimp only at hD
        injection hD with h1 hx
        injection hx with h3 h4
        subst h1
        subst h3
        exact ih h2 st2 n2 hr

theorem modes_I6 (enc hk : List Nat) (p : Pkcs5Kdf)
    (es : List EncryptionAlgorithm) (ms : List EncryptionMode) :
    ∀ (h st : VolumeHeader) (n : Nat),
      decryptModes h enc hk false p es ms = (st, Except.ok true, n) →
      (st.mVolumeType = VolumeType.Hidden ↔ st.HiddenVolumeDataSize ≠ 0) := by
  induction ms with
  | nil =>
    intro h st n hD
    simp [decryptModes] at hD
  | cons m rest ih =>
    intro h st n hD
    simp only [decryptModes] at hD
    split at hD
    · rename_i h2 n1 heq
      rcases hr : decryptModes h2 enc hk false p es rest with ⟨st2, r2, n2⟩
      rw [hr] at hD
      dsimp only at hD
      injection hD with h1 hx
      injection hx with h3 h4
      subst h1
      subst h3
      exact ih h2 st2 n2 hr
    · rename_i h2 res n1 hne heq
      injection hD with h1 hx
      injection hx with h3 h4
      subst h1
      subst h3
      exact algos_I6 enc hk p (kmOf hk m) es h h2 n1 heq

theorem kdfs_I6 (enc pw : List Nat) (pim : Int) (kdfOpt : Option Pkcs5Kdf)
    (salt : List Nat) (es : List EncryptionAlgorithm) (ms : List EncryptionMode)
    (ks : List Pkcs5Kdf) :
    ∀ (h st : VolumeHeader) (d n : Nat),
      decryptKdfs h enc pw pim kdfOpt false salt es ms ks =
        (st, Except.ok true, d, n) →
      (st.mVolumeType = VolumeType.Hidden ↔ st.HiddenVolumeDataSize ≠ 0) := by
  induction ks with
  | nil =>
    intro h st d n hD
    simp [decryptKdfs] at hD
  | cons p rest ih =>
    intro h st d n hD
    simp only [decryptKdfs] at hD
    split at hD
    · exact ih h st d n hD
    · split at hD
      · rename_i h2 n1 heq
        rcases hr : decryptKdfs h2 enc pw pim kdfOpt false salt es ms rest
          with ⟨st2, r2, d2, n2⟩
        rw [hr] at hD
        dsimp only at hD
        injection hD with h1 hx
        injection hx with h3 h4
        subst h1
        subst h3
        exact ih h2 st2 d2 n2 hr
      · rename_i h2 res n1 hne heq
        injection hD with h1 hx
        injection hx with h3 h4
        subst h1
        subst h3
        exact modes_I6 enc _ p es ms h h2 n1 heq

/-- C8 (amended): invariant I6 (`VolumeType = Hidden ⇔ HiddenVolumeDataSize
≠ 0`) holds after `Init`, after a `Deserialize` that returns true, and
after a `Decrypt` that returns true.  It does NOT hold after `Create` for
hidden volumes (see the counterexample): `Create` sets
`HiddenVolumeDataSize` but never sets `mVolumeType`. -/
theorem C8_I6 :
    (∀ h : VolumeHeader,
      ((VolumeHeader.Init h).mVolumeType = VolumeType.Hidden ↔
        (VolumeHeader.Init h).HiddenVolumeDataSize ≠ 0))
    ∧ (∀ (h : VolumeHeader) (buf : List Nat) (ea : EncryptionAlgorithm)
        (m : EncryptionMode) (tc : Bool) (st : VolumeHeader) (k : KeyedEA),
        Deserialize h buf ea m tc = (st, Except.ok (some k)) →
        (st.mVolumeType = VolumeType.Hidden ↔ st.HiddenVolumeDataSize ≠ 0))
    ∧ (∀ (h : VolumeHeader) (enc pw : List Nat) (pim : Int)
        (kdf : Option Pkcs5Kdf) (ks : List Pkcs5Kdf)
        (es : List EncryptionAlgorithm) (ms : List EncryptionMode)
        (st : VolumeHeader) (d n : Nat),
        Decrypt h enc pw pim kdf false ks es ms = (st, Except.ok true, d, n) →
        (st.mVolumeType = VolumeType.Hidden ↔ st.HiddenVolumeDataSize ≠ 0)) := by
  refine ⟨?_, ?_, ?_⟩
  · intro h
    simp [VolumeHeader.Init]
  · intro h buf ea m tc st k hD
    exact Deserialize_I6 h buf ea m tc st k hD
  · intro h enc pw pim kdf ks es ms st d n hD
    simp only [Decrypt] at hD
    split at hD
    · simp at hD
    · exact kdfs_I6 enc pw pim kdf (extract enc SaltOffset SaltSize) es ms ks
        _ st d n hD

/-- Witness for C8: the I6 biconditional on the state a concrete
successful `Deserialize` leaves behind. -/
theorem C8_I6_witness :
    ({ stateAfterFields (VolumeHeader.ofSize 512) bufC3 with
        DataAreaKey := extract bufC3 DataAreaKeyOffset DataKeyAreaMaxSize
      }.mVolumeType = VolumeType.Hidden
     ↔ { stateAfterFields (VolumeHeader.ofSize 512) bufC3 with
        DataAreaKey := extract bufC3 DataAreaKeyOffset DataKeyAreaMaxSize
      }.HiddenVolumeDataSize ≠ 0) :=
  C8_I6.2.1 (VolumeHeader.ofSize 512) bufC3 eaId modeXts false
    { stateAfterFields (VolumeHeader.ofSize 512) bufC3 with
        DataAreaKey := extract bufC3 DataAreaKeyOffset DataKeyAreaMaxSize }
    (keyedOf bufC3 eaId modeXts)
    (TrueTrial_deserialize (VolumeHeader.ofSize 512) bufC3 eaId modeXts rfl
      trueTrial_bufC3)

/-- C8 counterexample: `Create` on hidden-volume options leaves
`mVolumeType` at `Unknown` while setting `HiddenVolumeDataSize` to the
(nonzero) volume data size, so I6 fails on the state `Create` returns. -/
theorem C8_counterexample :
    (Create (VolumeHeader.ofSize 512) optsHidden).map
      (fun r => (r.2.HiddenVolumeDataSize, r.2.mVolumeType)) =
      Except.ok (65536, VolumeType.Unknown)
    ∧ ¬((VolumeType.Unknown = VolumeType.Hidden) ↔ ((65536 : Nat) ≠ 0)) := by
  constructor
  · have hc : Create (VolumeHeader.ofSize 512) optsHidden =
        EncryptNew hC8 (List.replicate 64 2) (List.replicate 192 1) none := by
      simp only [Create]
      rw [if_neg (by decide), if_neg (by decide)]
      rfl
    rw [hc]
    rw [EncryptNew_char hC8 keaW (List.replicate 64 2) (List.replicate 192 1)
      (serializedForm hC8) none rfl (by simp)
      (Serialize_char hC8 rfl (by simp [hC8]) (by decide))]
    rfl
  · decide

end VeraCrypt
